import Mathlib

/-!
# Delayed-allocation space reservation (fs/btrfs/delalloc-space.c)

A shallow embedding of `assignment02/linux/fs/btrfs/delalloc-space.c`.

* C unsigned integers are natural numbers reduced modulo `2^64` (`u64`) or
  `2^32` (`unsigned`) at every point where the C code can wrap.
* The mutable objects the file touches (the inode's counters and block
  reservation, the data and metadata space pools, the quota ledger) are the
  fields of `World`; every C function is a function from `World` to `World`
  (paired with its `int` return value where it has one).
* Helpers that live in other files of the kernel tree are either fields of
  `btrfs_fs_info` (the sizing helpers, which depend only on geometry) or are
  modelled from the specification (the pool and ledger primitives), with the
  outcome of every fallible primitive drawn from a `Collaborators` oracle.
-/

namespace DelallocSpace

/-! ## Machine arithmetic -/

/-- Modulus of the C type `u64`. -/
def U64_MOD : Nat := 2 ^ 64

/-- Modulus of the C type `unsigned`. -/
def U32_MOD : Nat := 2 ^ 32

/-- Addition in `u64`. -/
def add64 (a b : Nat) : Nat := (a + b) % U64_MOD

/-- Subtraction in `u64` (wraps below zero). -/
def sub64 (a b : Nat) : Nat := (a + (U64_MOD - b % U64_MOD)) % U64_MOD

/-- Multiplication in `u64`. -/
def mul64 (a b : Nat) : Nat := (a * b) % U64_MOD

/-- Addition in `unsigned`. -/
def add32 (a b : Nat) : Nat := (a + b) % U32_MOD

/-- Subtraction in `unsigned` (adding the negated value modulo `2^32`). -/
def sub32 (a b : Nat) : Nat := (a + (U32_MOD - b % U32_MOD)) % U32_MOD

/-- Modelled from the spec: the kernel macro `round_down(x, y)` (not in this
file), "align outward to sector boundaries": the largest multiple of `y` that
is at most `x`. -/
def round_down (x y : Nat) : Nat := x / y * y

/-- Modelled from the spec: the kernel macro `round_up(x, y)` (not in this
file): the smallest multiple of `y` that is at least `x`, as a `u64`. -/
def round_up (x y : Nat) : Nat := ((x + y - 1) / y * y) % U64_MOD

/-- Modelled from the spec: the kernel macro `ALIGN(x, a)` (not in this file),
"align up to sector size", as a `u64`. -/
def ALIGN (x a : Nat) : Nat := ((x + a - 1) / a * a) % U64_MOD

/-- Modelled from the spec: the kernel macro `IS_ALIGNED(x, a)` (not in this
file). -/
def IS_ALIGNED (x a : Nat) : Bool := x % a == 0

/-! ## Data model -/

/-- The flush policies named in this file. -/
inductive btrfs_reserve_flush_enum where
  | BTRFS_RESERVE_NO_FLUSH
  | BTRFS_RESERVE_FLUSH_LIMIT
  | BTRFS_RESERVE_FLUSH_ALL
  | BTRFS_RESERVE_FLUSH_DATA
  | BTRFS_RESERVE_FLUSH_FREE_SPACE_INODE
  deriving DecidableEq, Repr

open btrfs_reserve_flush_enum

/-- The fields of `struct btrfs_block_rsv` this file reads or writes. -/
structure btrfs_block_rsv where
  size : Nat
  reserved : Nat
  qgroup_rsv_size : Nat
  qgroup_rsv_reserved : Nat
  deriving DecidableEq, Repr

/-- The fields of `struct btrfs_inode` this file reads or writes;
`free_space_inode` is the value of `btrfs_is_free_space_inode(inode)`. -/
structure btrfs_inode where
  outstanding_extents : Nat
  csum_bytes : Nat
  block_rsv : btrfs_block_rsv
  free_space_inode : Bool
  deriving DecidableEq, Repr

/-- Filesystem geometry: the fields of `struct btrfs_fs_info` this file reads,
the value of `btrfs_is_testing(fs_info)`, and the sizing helpers of other
headers as parameters (`extents_needed` is `count_max_extents`,
`checksum_leaves` is `btrfs_csum_bytes_to_leaves`, `insert_cost` is
`btrfs_calc_insert_metadata_size`, `update_cost` is
`btrfs_calc_metadata_size`). -/
structure btrfs_fs_info where
  sectorsize : Nat
  nodesize : Nat
  testing : Bool
  extents_needed : Nat → Nat
  checksum_leaves : Nat → Nat
  insert_cost : Nat → Nat
  update_cost : Nat → Nat

/-- Everything the functions of this file can change or observe: one inode,
the `bytes_may_use` counters of the data and metadata space pools, the quota
ledger's three totals, the ambient transaction state, the number of
`schedule_timeout(1)` yields taken, and whether the alignment `ASSERT` of
`btrfs_free_reserved_data_space_noquota` has ever been violated. -/
structure World where
  inode : btrfs_inode
  data_bytes_may_use : Nat
  meta_bytes_may_use : Nat
  qgroup_data_rsv : Nat
  qgroup_meta_prealloc : Nat
  qgroup_meta_pertrans : Nat
  journal_info : Bool
  transaction_in_commit : Bool
  timeouts : Nat
  assert_failed : Bool
  deriving DecidableEq, Repr

/-- Outcomes of the fallible primitives of the space pools and of the quota
ledger, which this file calls but does not define. The three `errno`-valued
oracles give `0` for success and a positive error number `e` for the return
value `-e`; `qgroup_reserve_data` gives the raw `int` returned by
`btrfs_qgroup_reserve_data`, which its caller tests with `ret < 0`. -/
structure Collaborators where
  reserve_data_bytes : World → Nat → btrfs_reserve_flush_enum → Nat
  qgroup_reserve_data : World → Nat → Nat → Int
  qgroup_reserve_meta_prealloc : World → Nat → Nat
  reserve_metadata_bytes : World → Nat → btrfs_reserve_flush_enum → Nat

/-! ## Sizing helpers at their C types -/

/-- The helper `count_max_extents`, whose result is an `unsigned`. -/
def count_max_extents (fs : btrfs_fs_info) (size : Nat) : Nat :=
  fs.extents_needed size % U32_MOD

/-- The helper `btrfs_csum_bytes_to_leaves`, stored in a `u64`. -/
def btrfs_csum_bytes_to_leaves (fs : btrfs_fs_info) (csum_bytes : Nat) : Nat :=
  fs.checksum_leaves csum_bytes % U64_MOD

/-- The helper `btrfs_calc_insert_metadata_size`, a `u64`. -/
def btrfs_calc_insert_metadata_size (fs : btrfs_fs_info) (num_items : Nat) : Nat :=
  fs.insert_cost num_items % U64_MOD

/-- The helper `btrfs_calc_metadata_size`, a `u64`. -/
def btrfs_calc_metadata_size (fs : btrfs_fs_info) (num_items : Nat) : Nat :=
  fs.update_cost num_items % U64_MOD

/-! ## Pool and ledger primitives -/

/-- Modelled from the spec: `btrfs_reserve_data_bytes` (space-info.c), the
`CapacityPool.reserve(bytes, flush_policy) -> Result<(), Error>` of the data
pool: on success the bytes are added to `bytes_may_use`, on failure nothing
changes and the negative error is returned. -/
def btrfs_reserve_data_bytes (c : Collaborators) (w : World) (bytes : Nat)
    (flush : btrfs_reserve_flush_enum) : Int × World :=
  if c.reserve_data_bytes w bytes flush = 0 then
    (0, { w with data_bytes_may_use := w.data_bytes_may_use + bytes })
  else
    (-(c.reserve_data_bytes w bytes flush : Int), w)

/-- Modelled from the spec: `btrfs_space_info_free_bytes_may_use` on the data
pool, `CapacityPool.free(bytes)`: the speculative counter is decremented and
never drops below zero. -/
def btrfs_space_info_free_bytes_may_use (w : World) (len : Nat) : World :=
  { w with data_bytes_may_use := w.data_bytes_may_use - len }

/-- Modelled from the spec: `btrfs_qgroup_reserve_data` (qgroup.c),
`QuotaLedger.reserve_data(file, range)`: unless it returns a negative error
the ledger holds `len` more bytes of data reservation. The changeset is
opaque to this file and is not modelled. -/
def btrfs_qgroup_reserve_data (c : Collaborators) (w : World) (start len : Nat) :
    Int × World :=
  if c.qgroup_reserve_data w start len < 0 then
    (c.qgroup_reserve_data w start len, w)
  else
    (c.qgroup_reserve_data w start len,
      { w with qgroup_data_rsv := w.qgroup_data_rsv + len })

/-- Modelled from the spec: `btrfs_qgroup_free_data` (qgroup.c),
`QuotaLedger.free_data(file, changeset, range)`: the ledger releases the
`len` bytes recorded for the range. -/
def btrfs_qgroup_free_data (w : World) (_start len : Nat) : World :=
  { w with qgroup_data_rsv := w.qgroup_data_rsv - len }

/-- Modelled from the spec: `btrfs_qgroup_reserve_meta_prealloc` (qgroup.h),
`QuotaLedger.reserve_meta_prealloc(quota_root, bytes) -> Result<(), Error>`. -/
def btrfs_qgroup_reserve_meta_prealloc (c : Collaborators) (w : World)
    (num_bytes : Nat) : Int × World :=
  if c.qgroup_reserve_meta_prealloc w num_bytes = 0 then
    (0, { w with qgroup_meta_prealloc := w.qgroup_meta_prealloc + num_bytes })
  else
    (-(c.qgroup_reserve_meta_prealloc w num_bytes : Int), w)

/-- Modelled from the spec: `btrfs_qgroup_free_meta_prealloc` (qgroup.h),
`QuotaLedger.free_meta_prealloc(quota_root, bytes)`. -/
def btrfs_qgroup_free_meta_prealloc (w : World) (num_bytes : Nat) : World :=
  { w with qgroup_meta_prealloc := w.qgroup_meta_prealloc - num_bytes }

/-- Modelled from the spec: `btrfs_qgroup_convert_reserved_meta` (qgroup.c),
`QuotaLedger.convert_meta_prealloc_to_pertrans(quota_root, bytes)`: the bytes
leave the prealloc total and join the per-transaction total. -/
def btrfs_qgroup_convert_reserved_meta (w : World) (num_bytes : Nat) : World :=
  { w with
    qgroup_meta_prealloc := w.qgroup_meta_prealloc - num_bytes
    qgroup_meta_pertrans := w.qgroup_meta_pertrans + num_bytes }

/-- Modelled from the spec: `btrfs_reserve_metadata_bytes` (space-info.c),
`MetadataPool.reserve(block_rsv_ref, bytes, flush_policy) -> Result<(), Error>`:
on success the bytes are drawn from the metadata pool. -/
def btrfs_reserve_metadata_bytes (c : Collaborators) (w : World) (num_bytes : Nat)
    (flush : btrfs_reserve_flush_enum) : Int × World :=
  if c.reserve_metadata_bytes w num_bytes flush = 0 then
    (0, { w with meta_bytes_may_use := w.meta_bytes_may_use + num_bytes })
  else
    (-(c.reserve_metadata_bytes w num_bytes flush : Int), w)

/-- Modelled from the spec: `btrfs_block_rsv_add_bytes(block_rsv, num_bytes,
false)` (block-rsv.c), "add `meta_reserve` to `rsv.held`". -/
def btrfs_block_rsv_add_bytes (w : World) (num_bytes : Nat) : World :=
  { w with inode := { w.inode with block_rsv := { w.inode.block_rsv with
      reserved := add64 w.inode.block_rsv.reserved num_bytes } } }

/-- Modelled from the spec: `btrfs_block_rsv_release(fs_info, block_rsv, 0,
&qgroup_to_release)` (block-rsv.c), `MetadataPool.release_excess`: the excess
of `held` over `target_size` goes back to the metadata pool, and the excess
of `quota_held` over `quota_target` is reported for the ledger. The result is
`(released, qgroup_to_release, world)`. -/
def btrfs_block_rsv_release (w : World) : Nat × Nat × World :=
  let rsv := w.inode.block_rsv
  let released := rsv.reserved - rsv.size
  let qgroup_to_release := rsv.qgroup_rsv_reserved - rsv.qgroup_rsv_size
  (released, qgroup_to_release,
    { w with
      inode := { w.inode with block_rsv := { rsv with
        reserved := min rsv.reserved rsv.size
        qgroup_rsv_reserved := min rsv.qgroup_rsv_reserved rsv.qgroup_rsv_size } }
      meta_bytes_may_use := w.meta_bytes_may_use - released })

/-- Modelled from the spec: `btrfs_mod_outstanding_extents(inode, mod)`
(btrfs_inode.h): `outstanding_extents` is an `unsigned` and `mod` is added to
it; `mod` is given here as its residue modulo `2^32`. -/
def btrfs_mod_outstanding_extents (w : World) (mod : Nat) : World :=
  { w with inode := { w.inode with
      outstanding_extents := add32 w.inode.outstanding_extents mod } }

/-! ## The functions of delalloc-space.c -/

/-- The function `btrfs_alloc_data_chunk_ondemand`: align the byte count, pick the flush
policy and reserve from the data pool. -/
def btrfs_alloc_data_chunk_ondemand (fs : btrfs_fs_info) (c : Collaborators)
    (w : World) (bytes : Nat) : Int × World :=
  let flush := BTRFS_RESERVE_FLUSH_DATA
  let bytes := ALIGN bytes fs.sectorsize
  let flush := if w.inode.free_space_inode then BTRFS_RESERVE_FLUSH_FREE_SPACE_INODE
    else flush
  btrfs_reserve_data_bytes c w bytes flush

/-- The function `btrfs_free_reserved_data_space_noquota`: check the alignment assertion
and give the bytes back to the data pool. -/
def btrfs_free_reserved_data_space_noquota (fs : btrfs_fs_info) (w : World)
    (len : Nat) : World :=
  let w := { w with assert_failed := w.assert_failed || !(IS_ALIGNED len fs.sectorsize) }
  btrfs_space_info_free_bytes_may_use w len

/-- The function `btrfs_check_data_free_space` (the spec's `reserve_data`). -/
def btrfs_check_data_free_space (fs : btrfs_fs_info) (c : Collaborators)
    (w : World) (start len : Nat) : Int × World :=
  let len := sub64 (round_up (add64 start len) fs.sectorsize)
    (round_down start fs.sectorsize)
  let start := round_down start fs.sectorsize
  let r := btrfs_alloc_data_chunk_ondemand fs c w len
  if r.1 < 0 then r
  else
    let q := btrfs_qgroup_reserve_data c r.2 start len
    if q.1 < 0 then (q.1, btrfs_free_reserved_data_space_noquota fs q.2 len)
    else (0, q.2)

/-- The function `btrfs_free_reserved_data_space` (the spec's `free_data`). -/
def btrfs_free_reserved_data_space (fs : btrfs_fs_info) (w : World)
    (start len : Nat) : World :=
  let len := sub64 (round_up (add64 start len) fs.sectorsize)
    (round_down start fs.sectorsize)
  let start := round_down start fs.sectorsize
  let w := btrfs_free_reserved_data_space_noquota fs w len
  btrfs_qgroup_free_data w start len

/-- The function `btrfs_inode_rsv_release`: release the excess of the inode's block
reservation, then free or convert the quota amount that came with it. The
tracepoint has no effect on the state. -/
def btrfs_inode_rsv_release (w : World) (qgroup_free : Bool) : World :=
  let r := btrfs_block_rsv_release w
  let qgroup_to_release := r.2.1
  if qgroup_free then btrfs_qgroup_free_meta_prealloc r.2.2 qgroup_to_release
  else btrfs_qgroup_convert_reserved_meta r.2.2 qgroup_to_release

/-- The function `btrfs_calculate_inode_block_rsv_size` (the spec's `recalculate`). -/
def btrfs_calculate_inode_block_rsv_size (fs : btrfs_fs_info) (w : World) : World :=
  let outstanding_extents := w.inode.outstanding_extents
  let reserve_size :=
    if outstanding_extents ≠ 0 then
      add64 (btrfs_calc_insert_metadata_size fs outstanding_extents)
        (btrfs_calc_metadata_size fs 1)
    else 0
  let csum_leaves := btrfs_csum_bytes_to_leaves fs w.inode.csum_bytes
  let reserve_size := add64 reserve_size (btrfs_calc_insert_metadata_size fs csum_leaves)
  let qgroup_rsv_size := mul64 outstanding_extents fs.nodesize
  { w with inode := { w.inode with block_rsv := { w.inode.block_rsv with
      size := reserve_size
      qgroup_rsv_size := qgroup_rsv_size } } }

/-- The function `calc_inode_reservations`: the pair `(meta_reserve, qgroup_reserve)`. -/
def calc_inode_reservations (fs : btrfs_fs_info) (num_bytes : Nat) : Nat × Nat :=
  let nr_extents := count_max_extents fs num_bytes
  let csum_leaves := btrfs_csum_bytes_to_leaves fs num_bytes
  let inode_update := btrfs_calc_metadata_size fs 1
  let meta_reserve := btrfs_calc_insert_metadata_size fs (add64 nr_extents csum_leaves)
  let meta_reserve := add64 meta_reserve inode_update
  (meta_reserve, mul64 nr_extents fs.nodesize)

/-- The flush policy chosen at the head of `btrfs_delalloc_reserve_metadata`
(`current->journal_info` is the field `journal_info`). -/
def reserve_metadata_flush (w : World) : btrfs_reserve_flush_enum :=
  if w.inode.free_space_inode then BTRFS_RESERVE_NO_FLUSH
  else if w.journal_info then BTRFS_RESERVE_FLUSH_LIMIT
  else BTRFS_RESERVE_FLUSH_ALL

/-- The `schedule_timeout(1)` yield at the head of
`btrfs_delalloc_reserve_metadata`, taken in the same `else` branch when a
transaction commit is in progress. -/
def reserve_metadata_yield (w : World) : World :=
  if w.inode.free_space_inode then w
  else if w.transaction_in_commit then { w with timeouts := w.timeouts + 1 }
  else w

/-- The function `btrfs_delalloc_reserve_metadata` (the spec's `reserve_metadata`). -/
def btrfs_delalloc_reserve_metadata (fs : btrfs_fs_info) (c : Collaborators)
    (w : World) (num_bytes : Nat) : Int × World :=
  let flush := reserve_metadata_flush w
  let w := reserve_metadata_yield w
  let num_bytes := ALIGN num_bytes fs.sectorsize
  let meta_reserve := (calc_inode_reservations fs num_bytes).1
  let qgroup_reserve := (calc_inode_reservations fs num_bytes).2
  let p := btrfs_qgroup_reserve_meta_prealloc c w qgroup_reserve
  if p.1 ≠ 0 then p
  else
    let m := btrfs_reserve_metadata_bytes c p.2 meta_reserve flush
    if m.1 ≠ 0 then (m.1, btrfs_qgroup_free_meta_prealloc m.2 qgroup_reserve)
    else
      let nr_extents := count_max_extents fs num_bytes
      let w := btrfs_mod_outstanding_extents m.2 nr_extents
      let w := { w with inode := { w.inode with
        csum_bytes := add64 w.inode.csum_bytes num_bytes } }
      let w := btrfs_calculate_inode_block_rsv_size fs w
      let w := btrfs_block_rsv_add_bytes w meta_reserve
      let w := { w with inode := { w.inode with block_rsv := { w.inode.block_rsv with
        qgroup_rsv_reserved := add64 w.inode.block_rsv.qgroup_rsv_reserved qgroup_reserve } } }
      (0, w)

/-- The function `btrfs_delalloc_release_metadata` (the spec's `release_metadata`). -/
def btrfs_delalloc_release_metadata (fs : btrfs_fs_info) (w : World)
    (num_bytes : Nat) (qgroup_free : Bool) : World :=
  let num_bytes := ALIGN num_bytes fs.sectorsize
  let w := { w with inode := { w.inode with
    csum_bytes := sub64 w.inode.csum_bytes num_bytes } }
  let w := btrfs_calculate_inode_block_rsv_size fs w
  if fs.testing then w
  else btrfs_inode_rsv_release w qgroup_free

/-- The function `btrfs_delalloc_release_extents` (the spec's `release_extents`). -/
def btrfs_delalloc_release_extents (fs : btrfs_fs_info) (w : World)
    (num_bytes : Nat) : World :=
  let num_extents := count_max_extents fs num_bytes
  let w := btrfs_mod_outstanding_extents w (sub32 0 num_extents)
  let w := btrfs_calculate_inode_block_rsv_size fs w
  if fs.testing then w
  else btrfs_inode_rsv_release w true

/-- The function `btrfs_delalloc_reserve_space` (the spec's `reserve_space`). -/
def btrfs_delalloc_reserve_space (fs : btrfs_fs_info) (c : Collaborators)
    (w : World) (start len : Nat) : Int × World :=
  let d := btrfs_check_data_free_space fs c w start len
  if d.1 < 0 then d
  else
    let m := btrfs_delalloc_reserve_metadata fs c d.2 len
    if m.1 < 0 then (m.1, btrfs_free_reserved_data_space fs m.2 start len)
    else m

/-- The function `btrfs_delalloc_release_space` (the spec's `release_space`). -/
def btrfs_delalloc_release_space (fs : btrfs_fs_info) (w : World)
    (start len : Nat) (qgroup_free : Bool) : World :=
  let w := btrfs_delalloc_release_metadata fs w len qgroup_free
  btrfs_free_reserved_data_space fs w start len

/-! ## Example geometry and collaborators -/

/-- Modelled from the spec: `MAX_EXTENT_SIZE` of end-to-end scenarios A and B,
128 MiB (the constant `BTRFS_MAX_EXTENT_SIZE` is not in this file). -/
def MAX_EXTENT_SIZE : Nat := 134217728

/-- Modelled from the spec: the geometry of end-to-end scenarios A and B:
sector size 4096, `extents_needed(n) = ceil(n / MAX_EXTENT_SIZE)`,
`checksum_leaves` a ceiling division of the block count by a per-leaf
capacity, and costs linear in the item count, an insert costing twice an
update. -/
def scenario_fs : btrfs_fs_info where
  sectorsize := 4096
  nodesize := 16384
  testing := false
  extents_needed := fun n => (n + MAX_EXTENT_SIZE - 1) / MAX_EXTENT_SIZE
  checksum_leaves := fun n => (n / 4096 + 4064 - 1) / 4064
  insert_cost := fun n => 16384 * 8 * 2 * n
  update_cost := fun n => 16384 * 8 * n

/-- The same geometry in test mode (`btrfs_is_testing(fs_info)` holds). -/
def scenario_fs_testing : btrfs_fs_info := { scenario_fs with testing := true }

/-- Collaborators that grant every request. -/
def always_ok : Collaborators where
  reserve_data_bytes := fun _ _ _ => 0
  qgroup_reserve_data := fun _ _ _ => 0
  qgroup_reserve_meta_prealloc := fun _ _ => 0
  reserve_metadata_bytes := fun _ _ _ => 0

/-- Collaborators whose metadata pool is exhausted (error 28, `ENOSPC`) while
everything else is granted. -/
def meta_enospc : Collaborators := { always_ok with reserve_metadata_bytes := fun _ _ _ => 28 }

/-- Collaborators whose quota ledger refuses the metadata prealloc (error
122, `EDQUOT`). -/
def meta_edquot : Collaborators :=
  { always_ok with qgroup_reserve_meta_prealloc := fun _ _ => 122 }

/-- Collaborators whose data pool is exhausted (error 28, `ENOSPC`). -/
def data_enospc : Collaborators := { always_ok with reserve_data_bytes := fun _ _ _ => 28 }

/-- Collaborators whose quota ledger returns the positive value 1 for data,
which `btrfs_check_data_free_space` does not take for an error. -/
def data_positive : Collaborators := { always_ok with qgroup_reserve_data := fun _ _ _ => 1 }

/-- Collaborators whose quota ledger refuses data (error 122, `EDQUOT`). -/
def data_edquot : Collaborators := { always_ok with qgroup_reserve_data := fun _ _ _ => -122 }

/-- A file with no outstanding work and empty pools. -/
def fresh_world : World where
  inode := { outstanding_extents := 0, csum_bytes := 0,
             block_rsv := { size := 0, reserved := 0, qgroup_rsv_size := 0,
                            qgroup_rsv_reserved := 0 },
             free_space_inode := false }
  data_bytes_may_use := 0
  meta_bytes_may_use := 0
  qgroup_data_rsv := 0
  qgroup_meta_prealloc := 0
  qgroup_meta_pertrans := 0
  journal_info := false
  transaction_in_commit := false
  timeouts := 0
  assert_failed := false

/-- The sector-aligned length that `btrfs_check_data_free_space` and
`btrfs_free_reserved_data_space` both compute from `(start, len)`. -/
def aligned_len (fs : btrfs_fs_info) (start len : Nat) : Nat :=
  sub64 (round_up (add64 start len) fs.sectorsize) (round_down start fs.sectorsize)

/-- The sector size is a power of two that fits the machine word. -/
def sector_pow2 (fs : btrfs_fs_info) : Prop := ∃ k, k ≤ 64 ∧ fs.sectorsize = 2 ^ k

/-- The spec's formula for `rsv.target_size` (section 4.2), in `u64`
arithmetic: insert cost of the outstanding extents plus one update when there
are any, plus the insert cost of the checksum leaves. -/
def spec_target_size (fs : btrfs_fs_info) (outstanding_extents csum_bytes : Nat) : Nat :=
  add64
    (if outstanding_extents > 0 then
      add64 (btrfs_calc_insert_metadata_size fs outstanding_extents)
        (btrfs_calc_metadata_size fs 1)
     else 0)
    (btrfs_calc_insert_metadata_size fs (btrfs_csum_bytes_to_leaves fs csum_bytes))

/-- The spec's formula for `rsv.quota_target` (section 4.2), in `u64`
arithmetic. -/
def spec_quota_target (fs : btrfs_fs_info) (outstanding_extents : Nat) : Nat :=
  mul64 outstanding_extents fs.nodesize

/-- One call of the metadata protocol on the file. -/
inductive Op where
  | reserve_metadata (num_bytes : Nat)
  | release_metadata (num_bytes : Nat) (qgroup_free : Bool)
  | release_extents (num_bytes : Nat)
  deriving DecidableEq, Repr

/-- The byte count an operation is called with. -/
def Op.num_bytes : Op → Nat
  | Op.reserve_metadata n => n
  | Op.release_metadata n _ => n
  | Op.release_extents n => n

/-- Run a sequence of calls; `none` as soon as a `reserve_metadata` call does
not return 0. -/
def run (fs : btrfs_fs_info) (c : Collaborators) : World → List Op → Option World
  | w, [] => some w
  | w, Op.reserve_metadata n :: ops =>
    if (btrfs_delalloc_reserve_metadata fs c w n).1 = 0 then
      run fs c (btrfs_delalloc_reserve_metadata fs c w n).2 ops
    else none
  | w, Op.release_metadata n q :: ops =>
    run fs c (btrfs_delalloc_release_metadata fs w n q) ops
  | w, Op.release_extents n :: ops =>
    run fs c (btrfs_delalloc_release_extents fs w n) ops

/-- Pairing check with the byte counts still awaiting their
`release_metadata` (`pm`) and their `release_extents` (`pe`): a reserve opens
one of each, a release closes one opened earlier with the same byte count,
and nothing may stay open at the end. -/
def paired_from : List Nat → List Nat → List Op → Bool
  | pm, pe, [] => pm.isEmpty && pe.isEmpty
  | pm, pe, Op.reserve_metadata n :: ops => paired_from (n :: pm) (n :: pe) ops
  | pm, pe, Op.release_metadata n _ :: ops =>
    decide (n ∈ pm) && paired_from (pm.erase n) pe ops
  | pm, pe, Op.release_extents n :: ops =>
    decide (n ∈ pe) && paired_from pm (pe.erase n) ops

/-- Every `reserve_metadata(n)` is paired with exactly one later
`release_metadata(n, _)` and exactly one later `release_extents(n)`, and
every release belongs to such a pair. -/
def paired (ops : List Op) : Bool := paired_from [] [] ops

/-- A call sequence that keeps one reservation open while a second one is
made and released. -/
def example_ops : List Op :=
  [Op.reserve_metadata 1, Op.reserve_metadata 209715200, Op.release_extents 1,
   Op.release_metadata 209715200 false, Op.release_extents 209715200,
   Op.release_metadata 1 true]

/-- The shortest complete life cycle of one reservation. -/
def short_ops : List Op :=
  [Op.reserve_metadata 1, Op.release_metadata 1 false, Op.release_extents 1]

/-- The counters of the file account exactly for the reservations still
open: `csum_bytes` is the sum of the aligned byte counts awaiting
`release_metadata`, `outstanding_extents` the sum of the extent counts
awaiting `release_extents`, and nothing is held once nothing is open. -/
def Balanced (fs : btrfs_fs_info) (w : World) (pm pe : List Nat) : Prop :=
  w.inode.csum_bytes = (pm.map (fun n => ALIGN n fs.sectorsize)).sum % U64_MOD
    ∧ w.inode.outstanding_extents = (pe.map (count_max_extents fs)).sum % U32_MOD
    ∧ (pm = [] → pe = [] →
        w.inode.block_rsv.reserved = 0 ∧ w.inode.block_rsv.qgroup_rsv_reserved = 0)

/-- A world with the counters of scenario A but arbitrary reservation
fields. -/
def stale_world : World :=
  { fresh_world with inode :=
    { outstanding_extents := 1, csum_bytes := 4096,
      block_rsv := { size := 7, reserved := 99, qgroup_rsv_size := 3, qgroup_rsv_reserved := 5 },
      free_space_inode := false } }

/-- A call into the metadata interface of the quota ledger. -/
inductive LedgerCall where
  | free_meta_prealloc (num_bytes : Nat)
  | convert_reserved_meta (num_bytes : Nat)
  deriving DecidableEq, Repr

/-- The effect of one ledger call on the world. -/
def LedgerCall.effect (w : World) : LedgerCall → World
  | LedgerCall.free_meta_prealloc n => btrfs_qgroup_free_meta_prealloc w n
  | LedgerCall.convert_reserved_meta n => btrfs_qgroup_convert_reserved_meta w n

/-- The ledger calls made by `btrfs_inode_rsv_release`, in program order. -/
def btrfs_inode_rsv_release_calls (w : World) (qgroup_free : Bool) : List LedgerCall :=
  let r := btrfs_block_rsv_release w
  let qgroup_to_release := r.2.1
  if qgroup_free then [LedgerCall.free_meta_prealloc qgroup_to_release]
  else [LedgerCall.convert_reserved_meta qgroup_to_release]

/-- The ledger calls made by `btrfs_delalloc_release_metadata`, in program
order. -/
def btrfs_delalloc_release_metadata_calls (fs : btrfs_fs_info) (w : World)
    (num_bytes : Nat) (qgroup_free : Bool) : List LedgerCall :=
  let num_bytes := ALIGN num_bytes fs.sectorsize
  let w := { w with inode := { w.inode with
    csum_bytes := sub64 w.inode.csum_bytes num_bytes } }
  let w := btrfs_calculate_inode_block_rsv_size fs w
  if fs.testing then []
  else btrfs_inode_rsv_release_calls w qgroup_free

/-- The ledger calls made by `btrfs_delalloc_release_extents`, in program
order. -/
def btrfs_delalloc_release_extents_calls (fs : btrfs_fs_info) (w : World)
    (num_bytes : Nat) : List LedgerCall :=
  let num_extents := count_max_extents fs num_bytes
  let w := btrfs_mod_outstanding_extents w (sub32 0 num_extents)
  let w := btrfs_calculate_inode_block_rsv_size fs w
  if fs.testing then []
  else btrfs_inode_rsv_release_calls w true

/-- The world in which `btrfs_delalloc_release_metadata` reaches its test-mode
check: `csum_bytes` lowered and the targets recalculated. -/
def release_metadata_counted (fs : btrfs_fs_info) (w : World) (num_bytes : Nat) : World :=
  btrfs_calculate_inode_block_rsv_size fs
    { w with inode := { w.inode with
      csum_bytes := sub64 w.inode.csum_bytes (ALIGN num_bytes fs.sectorsize) } }

/-- The world in which `btrfs_delalloc_release_extents` reaches its test-mode
check: `outstanding_extents` lowered and the targets recalculated. -/
def release_extents_counted (fs : btrfs_fs_info) (w : World) (num_bytes : Nat) : World :=
  btrfs_calculate_inode_block_rsv_size fs
    (btrfs_mod_outstanding_extents w (sub32 0 (count_max_extents fs num_bytes)))

/-- The excess of `rsv.quota_held` over the quota target of
`outstanding_extents` extents: the amount `btrfs_block_rsv_release` reports
as `qgroup_to_release` once the targets are recalculated. -/
def quota_excess (fs : btrfs_fs_info) (quota_held outstanding_extents : Nat) : Nat :=
  quota_held - spec_quota_target fs outstanding_extents

/-- A test-mode file whose extent count is back at zero while its
reservation and 16384 bytes of quota prealloc are still held: a 1-byte
reservation followed by `release_extents(1)`, both in test mode. -/
def testing_leftover : World :=
  btrfs_delalloc_release_extents scenario_fs_testing
    (btrfs_delalloc_reserve_metadata scenario_fs_testing always_ok fresh_world 1).2 1

/-- The successive worlds of one call of `btrfs_delalloc_reserve_metadata`, in
program order: the world at entry, then the world after each statement that
can change it (the yield, the quota prealloc, the metadata-pool reservation
or the rollback of the prealloc, the update of `outstanding_extents`, the
update of `csum_bytes`, the recalculation, the top-up of `rsv.held`, the
top-up of `rsv.quota_held`). The list ends with the world the call returns. -/
def btrfs_delalloc_reserve_metadata_steps (fs : btrfs_fs_info) (c : Collaborators)
    (w : World) (num_bytes : Nat) : List World :=
  let flush := reserve_metadata_flush w
  let w0 := reserve_metadata_yield w
  let num_bytes := ALIGN num_bytes fs.sectorsize
  let meta_reserve := (calc_inode_reservations fs num_bytes).1
  let qgroup_reserve := (calc_inode_reservations fs num_bytes).2
  let p := btrfs_qgroup_reserve_meta_prealloc c w0 qgroup_reserve
  if p.1 ≠ 0 then [w, w0, p.2]
  else
    let m := btrfs_reserve_metadata_bytes c p.2 meta_reserve flush
    if m.1 ≠ 0 then [w, w0, p.2, m.2, btrfs_qgroup_free_meta_prealloc m.2 qgroup_reserve]
    else
      let nr_extents := count_max_extents fs num_bytes
      let w1 := btrfs_mod_outstanding_extents m.2 nr_extents
      let w2 := { w1 with inode := { w1.inode with
        csum_bytes := add64 w1.inode.csum_bytes num_bytes } }
      let w3 := btrfs_calculate_inode_block_rsv_size fs w2
      let w4 := btrfs_block_rsv_add_bytes w3 meta_reserve
      let w5 := { w4 with inode := { w4.inode with block_rsv := { w4.inode.block_rsv with
        qgroup_rsv_reserved := add64 w4.inode.block_rsv.qgroup_rsv_reserved qgroup_reserve } } }
      [w, w0, p.2, m.2, w1, w2, w3, w4, w5]

/-- In the world `s`, neither `rsv.held` nor `rsv.quota_held` has moved from
its value in `w`. -/
def held_as_before (w s : World) : Prop :=
  s.inode.block_rsv.reserved = w.inode.block_rsv.reserved
    ∧ s.inode.block_rsv.qgroup_rsv_reserved = w.inode.block_rsv.qgroup_rsv_reserved

/-- In the world `s`, the counters of `w` have been raised for `num_bytes`
and the targets are those of the raised counters. -/
def counters_committed (fs : btrfs_fs_info) (w : World) (num_bytes : Nat) (s : World) : Prop :=
  s.inode.outstanding_extents =
      add32 w.inode.outstanding_extents
        (count_max_extents fs (ALIGN num_bytes fs.sectorsize))
    ∧ s.inode.csum_bytes = add64 w.inode.csum_bytes (ALIGN num_bytes fs.sectorsize)
    ∧ s.inode.block_rsv.size =
      spec_target_size fs s.inode.outstanding_extents s.inode.csum_bytes
    ∧ s.inode.block_rsv.qgroup_rsv_size = spec_quota_target fs s.inode.outstanding_extents

/-- A distinct positive number for each flush policy. -/
def flush_code : btrfs_reserve_flush_enum → Nat
  | BTRFS_RESERVE_NO_FLUSH => 1
  | BTRFS_RESERVE_FLUSH_LIMIT => 2
  | BTRFS_RESERVE_FLUSH_ALL => 3
  | BTRFS_RESERVE_FLUSH_DATA => 4
  | BTRFS_RESERVE_FLUSH_FREE_SPACE_INODE => 5

/-- Collaborators whose two pools refuse every request with the code of the
flush policy they were called with, so that the error a caller returns tells
which policy it used; the ledger grants everything. -/
def flush_probe : Collaborators where
  reserve_data_bytes := fun _ _ flush => flush_code flush
  qgroup_reserve_data := fun _ _ _ => 0
  qgroup_reserve_meta_prealloc := fun _ _ => 0
  reserve_metadata_bytes := fun _ _ flush => flush_code flush

/-- The flush policy `btrfs_alloc_data_chunk_ondemand` passes to the data
pool. -/
def alloc_data_chunk_flush (w : World) : btrfs_reserve_flush_enum :=
  if w.inode.free_space_inode then BTRFS_RESERVE_FLUSH_FREE_SPACE_INODE
  else BTRFS_RESERVE_FLUSH_DATA

/-- Collaborators whose metadata pool grants a request only under the
flush-limited policy (error 28 otherwise). -/
def only_flush_limit : Collaborators :=
  { always_ok with
    reserve_metadata_bytes := fun _ _ flush =>
      if flush = BTRFS_RESERVE_FLUSH_LIMIT then 0 else 28 }

/-- A fresh file whose caller holds an open transaction while a commit is in
progress. -/
def in_transaction_world : World :=
  { fresh_world with journal_info := true, transaction_in_commit := true }

/-- A fresh bookkeeping (free-space) file, with an open transaction and a
commit in progress. -/
def bookkeeping_world : World :=
  { in_transaction_world with inode := { fresh_world.inode with free_space_inode := true } }

/-- The insert cost is linear in its item count. -/
def insert_cost_linear (fs : btrfs_fs_info) : Prop :=
  ∀ j k, fs.insert_cost (j + k) = fs.insert_cost j + fs.insert_cost k

/-- The checksum-leaf count is monotone in the byte count. -/
def checksum_leaves_monotone (fs : btrfs_fs_info) : Prop :=
  ∀ x y, x ≤ y → fs.checksum_leaves x ≤ fs.checksum_leaves y

/-- The checksum-leaf count is subadditive in the byte count. -/
def checksum_leaves_subadditive (fs : btrfs_fs_info) : Prop :=
  ∀ x y, fs.checksum_leaves (x + y) ≤ fs.checksum_leaves x + fs.checksum_leaves y

/-- The spec's formula for `rsv.target_size` in plain arithmetic, before any
reduction to 64 bits. -/
def target_raw (fs : btrfs_fs_info) (outstanding_extents csum_bytes : Nat) : Nat :=
  (if outstanding_extents > 0 then
      fs.insert_cost outstanding_extents + fs.update_cost 1
    else 0)
    + fs.insert_cost (fs.checksum_leaves csum_bytes)

/-- The stored `target_size` is the one of the stored counters, and computing
it did not overflow 64 bits. -/
def in_sync (fs : btrfs_fs_info) (w : World) : Prop :=
  w.inode.block_rsv.size = target_raw fs w.inode.outstanding_extents w.inode.csum_bytes
    ∧ target_raw fs w.inode.outstanding_extents w.inode.csum_bytes < U64_MOD
    ∧ fs.checksum_leaves w.inode.csum_bytes < U64_MOD
    ∧ w.inode.outstanding_extents < U32_MOD
    ∧ w.inode.csum_bytes < U64_MOD

/-- Reserving `num_bytes` on `w` overflows none of the C types involved: the
two counters, the leaf counts, the item count handed to the insert cost, and
`rsv.held` after the top-up. -/
def reserve_fits (fs : btrfs_fs_info) (w : World) (num_bytes : Nat) : Prop :=
  w.inode.outstanding_extents + fs.extents_needed (ALIGN num_bytes fs.sectorsize) < U32_MOD
    ∧ w.inode.csum_bytes + ALIGN num_bytes fs.sectorsize < U64_MOD
    ∧ fs.checksum_leaves (ALIGN num_bytes fs.sectorsize) < U64_MOD
    ∧ fs.checksum_leaves (w.inode.csum_bytes + ALIGN num_bytes fs.sectorsize) < U64_MOD
    ∧ fs.extents_needed (ALIGN num_bytes fs.sectorsize)
        + fs.checksum_leaves (ALIGN num_bytes fs.sectorsize) < U64_MOD
    ∧ w.inode.block_rsv.reserved
        + (fs.insert_cost (fs.extents_needed (ALIGN num_bytes fs.sectorsize)
            + fs.checksum_leaves (ALIGN num_bytes fs.sectorsize))
          + fs.update_cost 1) < U64_MOD

/-- A geometry that meets the assumptions on the costs: the scenario geometry
with the checksum-leaf count a plain ceiling division of the byte count by
the bytes one leaf covers (4064 blocks of 4096 bytes). -/
def ceil_fs : btrfs_fs_info :=
  { scenario_fs with checksum_leaves := fun n => (n + 16646144 - 1) / 16646144 }

/-- The scenario geometry with a sector size of one byte, the smallest power
of two. -/
def byte_sector_fs : btrfs_fs_info := { scenario_fs with sectorsize := 1 }

/-! ## Arithmetic lemmas -/

theorem U64_MOD_pos : 0 < U64_MOD := by decide

theorem sector_pow2_pos {fs : btrfs_fs_info} (h : sector_pow2 fs) : 0 < fs.sectorsize := by
  obtain ⟨k, -, hk⟩ := h
  rw [hk]
  exact Nat.pos_pow_of_pos k (by decide)

theorem sector_pow2_dvd {fs : btrfs_fs_info} (h : sector_pow2 fs) :
    fs.sectorsize ∣ U64_MOD := by
  obtain ⟨k, hk64, hk⟩ := h
  rw [hk, U64_MOD]
  exact pow_dvd_pow 2 hk64

theorem round_down_dvd (x y : Nat) : y ∣ round_down x y :=
  Dvd.intro_left _ rfl

theorem round_up_dvd {y : Nat} (x : Nat) (hy : y ∣ U64_MOD) : y ∣ round_up x y :=
  (Nat.dvd_mod_iff hy).2 (Dvd.intro_left _ rfl)

theorem sub64_dvd {y a b : Nat} (hy : y ∣ U64_MOD) (ha : y ∣ a) (hb : y ∣ b) :
    y ∣ sub64 a b := by
  unfold sub64
  have h1 : y ∣ b % U64_MOD := (Nat.dvd_mod_iff hy).2 hb
  have h2 : y ∣ U64_MOD - b % U64_MOD := Nat.dvd_sub' hy h1
  exact (Nat.dvd_mod_iff hy).2 (Nat.dvd_add ha h2)

theorem sub64_lt (a b : Nat) : sub64 a b < U64_MOD :=
  Nat.mod_lt _ U64_MOD_pos

theorem add64_lt (a b : Nat) : add64 a b < U64_MOD :=
  Nat.mod_lt _ U64_MOD_pos

theorem ALIGN_of_dvd {x a : Nat} (ha : 0 < a) (hx : a ∣ x) (hlt : x < U64_MOD) :
    ALIGN x a = x := by
  obtain ⟨q, rfl⟩ := hx
  unfold ALIGN
  have h1 : (a * q + a - 1) / a = q := by
    have h2 : a * q + a - 1 = (a - 1) + a * q := by omega
    rw [h2, Nat.add_mul_div_left _ _ ha, Nat.div_eq_of_lt (by omega)]
    simp
  rw [h1, Nat.mul_comm, Nat.mod_eq_of_lt hlt]

theorem aligned_len_dvd {fs : btrfs_fs_info} (h : sector_pow2 fs) (start len : Nat) :
    fs.sectorsize ∣ aligned_len fs start len :=
  sub64_dvd (sector_pow2_dvd h) (round_up_dvd _ (sector_pow2_dvd h)) (round_down_dvd _ _)

theorem ALIGN_aligned_len {fs : btrfs_fs_info} (h : sector_pow2 fs) (start len : Nat) :
    ALIGN (aligned_len fs start len) fs.sectorsize = aligned_len fs start len :=
  ALIGN_of_dvd (sector_pow2_pos h) (aligned_len_dvd h start len) (sub64_lt _ _)

/-! ## Effect of the data-space functions -/

theorem check_data_free_space_ok {fs : btrfs_fs_info} {c : Collaborators} {w : World}
    {start len : Nat} (h : sector_pow2 fs)
    (hok : ¬ (btrfs_check_data_free_space fs c w start len).1 < 0) :
    btrfs_check_data_free_space fs c w start len =
      (0, { w with
        data_bytes_may_use := w.data_bytes_may_use + aligned_len fs start len
        qgroup_data_rsv := w.qgroup_data_rsv + aligned_len fs start len }) := by
  have hA := ALIGN_aligned_len h start len
  unfold aligned_len at hA
  revert hok
  simp only [btrfs_check_data_free_space, btrfs_alloc_data_chunk_ondemand,
    btrfs_reserve_data_bytes, btrfs_qgroup_reserve_data, aligned_len, hA]
  split_ifs <;> simp_all

theorem free_reserved_data_space_eq (fs : btrfs_fs_info) (w : World) (start len : Nat)
    (h : sector_pow2 fs) :
    btrfs_free_reserved_data_space fs w start len =
      { w with
        data_bytes_may_use := w.data_bytes_may_use - aligned_len fs start len
        qgroup_data_rsv := w.qgroup_data_rsv - aligned_len fs start len } := by
  have hd := aligned_len_dvd h start len
  unfold aligned_len at hd
  have hm := Nat.mod_eq_zero_of_dvd hd
  simp [btrfs_free_reserved_data_space, btrfs_free_reserved_data_space_noquota,
    btrfs_space_info_free_bytes_may_use, btrfs_qgroup_free_data, aligned_len, IS_ALIGNED, hm]

/-! ## Effect of `btrfs_delalloc_reserve_metadata` -/

theorem reserve_metadata_yield_eq (w : World) :
    reserve_metadata_yield w = { w with timeouts := (reserve_metadata_yield w).timeouts } := by
  unfold reserve_metadata_yield
  split_ifs <;> rfl

theorem reserve_metadata_yield_inode (w : World) :
    (reserve_metadata_yield w).inode = w.inode := by
  rw [reserve_metadata_yield_eq]

/-- The world handed to the metadata pool: the prealloc is already held. -/
theorem qgroup_reserve_meta_prealloc_ok {c : Collaborators} {w : World} {n : Nat}
    (h : (btrfs_qgroup_reserve_meta_prealloc c w n).1 = 0) :
    (btrfs_qgroup_reserve_meta_prealloc c w n).2 =
      { w with qgroup_meta_prealloc := w.qgroup_meta_prealloc + n } := by
  revert h
  unfold btrfs_qgroup_reserve_meta_prealloc
  split_ifs with h0
  · intro _; rfl
  · intro h; simp at h; omega

theorem qgroup_reserve_meta_prealloc_fail {c : Collaborators} {w : World} {n : Nat}
    (h : (btrfs_qgroup_reserve_meta_prealloc c w n).1 ≠ 0) :
    (btrfs_qgroup_reserve_meta_prealloc c w n).2 = w := by
  revert h
  unfold btrfs_qgroup_reserve_meta_prealloc
  split_ifs with h0
  · intro h; exact absurd rfl h
  · intro _; rfl

theorem reserve_metadata_bytes_ok {c : Collaborators} {w : World} {n : Nat}
    {flush : btrfs_reserve_flush_enum}
    (h : (btrfs_reserve_metadata_bytes c w n flush).1 = 0) :
    (btrfs_reserve_metadata_bytes c w n flush).2 =
      { w with meta_bytes_may_use := w.meta_bytes_may_use + n } := by
  revert h
  unfold btrfs_reserve_metadata_bytes
  split_ifs with h0
  · intro _; rfl
  · intro h; simp at h; omega

theorem reserve_metadata_bytes_fail {c : Collaborators} {w : World} {n : Nat}
    {flush : btrfs_reserve_flush_enum}
    (h : (btrfs_reserve_metadata_bytes c w n flush).1 ≠ 0) :
    (btrfs_reserve_metadata_bytes c w n flush).2 = w := by
  revert h
  unfold btrfs_reserve_metadata_bytes
  split_ifs with h0
  · intro h; exact absurd rfl h
  · intro _; rfl

/-- A failing `btrfs_delalloc_reserve_metadata` hands back the world it was
given, but for the yield it may have taken. -/
theorem reserve_metadata_fail_world {fs : btrfs_fs_info} {c : Collaborators} {w : World}
    {num_bytes : Nat} (h : (btrfs_delalloc_reserve_metadata fs c w num_bytes).1 ≠ 0) :
    (btrfs_delalloc_reserve_metadata fs c w num_bytes).2 = reserve_metadata_yield w := by
  revert h
  simp only [btrfs_delalloc_reserve_metadata]
  split_ifs with hp hm
  · intro _
    exact qgroup_reserve_meta_prealloc_fail hp
  · intro _
    rw [reserve_metadata_bytes_fail hm, qgroup_reserve_meta_prealloc_ok (not_not.mp hp)]
    simp [btrfs_qgroup_free_meta_prealloc]
  · intro h; exact absurd rfl h

/-! ## C1: rollback of the combined reservation -/

/-- C1: rollback atomicity of `btrfs_delalloc_reserve_space`. When the data
stage succeeds and the metadata stage then fails, the call returns the
metadata stage's error, and the data pool's `bytes_may_use` and the quota
ledger's data reservation are back at their values before the call: the data
stage added the sector-aligned length of `(start, len)` to both, and
`btrfs_free_reserved_data_space` takes that same length from both. Nothing
but the count of yields differs from the world before the call. -/
theorem reserve_space_rollback (fs : btrfs_fs_info) (c : Collaborators) (w : World)
    (start len : Nat) (hS : sector_pow2 fs)
    (hdata : ¬ (btrfs_check_data_free_space fs c w start len).1 < 0)
    (hmeta : (btrfs_delalloc_reserve_metadata fs c
      (btrfs_check_data_free_space fs c w start len).2 len).1 < 0) :
    (btrfs_delalloc_reserve_space fs c w start len).1 =
        (btrfs_delalloc_reserve_metadata fs c
          (btrfs_check_data_free_space fs c w start len).2 len).1
      ∧ (btrfs_delalloc_reserve_space fs c w start len).2.data_bytes_may_use =
        w.data_bytes_may_use
      ∧ (btrfs_delalloc_reserve_space fs c w start len).2.qgroup_data_rsv =
        w.qgroup_data_rsv
      ∧ (btrfs_check_data_free_space fs c w start len).2.data_bytes_may_use =
        w.data_bytes_may_use + aligned_len fs start len
      ∧ (btrfs_check_data_free_space fs c w start len).2.qgroup_data_rsv =
        w.qgroup_data_rsv + aligned_len fs start len
      ∧ (∀ v : World,
          (btrfs_free_reserved_data_space fs v start len).data_bytes_may_use =
            v.data_bytes_may_use - aligned_len fs start len
          ∧ (btrfs_free_reserved_data_space fs v start len).qgroup_data_rsv =
            v.qgroup_data_rsv - aligned_len fs start len)
      ∧ (btrfs_delalloc_reserve_space fs c w start len).2 =
        { w with timeouts := (btrfs_delalloc_reserve_space fs c w start len).2.timeouts } := by
  have hne : (btrfs_delalloc_reserve_metadata fs c
      (btrfs_check_data_free_space fs c w start len).2 len).1 ≠ 0 := by omega
  have hw := reserve_metadata_fail_world hne
  have hd := check_data_free_space_ok hS hdata
  have hrs : btrfs_delalloc_reserve_space fs c w start len =
      ((btrfs_delalloc_reserve_metadata fs c
          (btrfs_check_data_free_space fs c w start len).2 len).1,
        btrfs_free_reserved_data_space fs
          (btrfs_delalloc_reserve_metadata fs c
            (btrfs_check_data_free_space fs c w start len).2 len).2 start len) := by
    simp only [btrfs_delalloc_reserve_space, if_neg hdata, if_pos hmeta]
  have hy := reserve_metadata_yield_eq (btrfs_check_data_free_space fs c w start len).2
  refine ⟨by rw [hrs], ?_, ?_, by rw [hd], by rw [hd], ?_, ?_⟩
  · rw [hrs, free_reserved_data_space_eq _ _ _ _ hS, hw, hy, hd]
    simp
  · rw [hrs, free_reserved_data_space_eq _ _ _ _ hS, hw, hy, hd]
    simp
  · intro v
    rw [free_reserved_data_space_eq _ _ _ _ hS]
    exact ⟨rfl, rfl⟩
  · rw [hrs, free_reserved_data_space_eq _ _ _ _ hS, hw, hy, hd]
    simp

/-- Scenario C at sector size 4096: the range `(4095, 2)` reserves 8192 data
bytes, the metadata pool then refuses, and the call returns `-28` with the
data pool and the ledger empty again. -/
theorem reserve_space_rollback_witness :
    sector_pow2 scenario_fs
      ∧ ¬ (btrfs_check_data_free_space scenario_fs meta_enospc fresh_world 4095 2).1 < 0
      ∧ (btrfs_check_data_free_space scenario_fs meta_enospc fresh_world 4095 2).2.data_bytes_may_use
          = 8192
      ∧ (btrfs_delalloc_reserve_space scenario_fs meta_enospc fresh_world 4095 2).1 = -28
      ∧ (btrfs_delalloc_reserve_space scenario_fs meta_enospc fresh_world 4095 2).2.data_bytes_may_use
          = 0
      ∧ (btrfs_delalloc_reserve_space scenario_fs meta_enospc fresh_world 4095 2).2.qgroup_data_rsv
          = 0 := by
  have hS : sector_pow2 scenario_fs := ⟨12, by decide, rfl⟩
  have h := reserve_space_rollback scenario_fs meta_enospc fresh_world 4095 2 hS
    (by decide) (by decide)
  exact ⟨hS, by decide, by decide, by rw [h.1]; decide, h.2.1, h.2.2.1⟩

/-! ## Effect of recalculation and of the release functions -/

theorem calculate_inode_block_rsv_size_eq (fs : btrfs_fs_info) (w : World) :
    btrfs_calculate_inode_block_rsv_size fs w =
      { w with inode := { w.inode with block_rsv := { w.inode.block_rsv with
          size := spec_target_size fs w.inode.outstanding_extents w.inode.csum_bytes
          qgroup_rsv_size := spec_quota_target fs w.inode.outstanding_extents } } } := by
  unfold btrfs_calculate_inode_block_rsv_size spec_target_size spec_quota_target
  by_cases h : w.inode.outstanding_extents = 0
  · simp [h]
  · simp [h, Nat.pos_of_ne_zero h]

/-- Recalculating changes nothing when the stored targets are already those
of the counters. -/
theorem calculate_inode_block_rsv_size_fixed (fs : btrfs_fs_info) (v : World)
    (h1 : v.inode.block_rsv.size =
      spec_target_size fs v.inode.outstanding_extents v.inode.csum_bytes)
    (h2 : v.inode.block_rsv.qgroup_rsv_size =
      spec_quota_target fs v.inode.outstanding_extents) :
    btrfs_calculate_inode_block_rsv_size fs v = v := by
  rw [calculate_inode_block_rsv_size_eq, ← h1, ← h2]

/-- The inode after `btrfs_delalloc_release_metadata` outside test mode. -/
theorem release_metadata_inode (fs : btrfs_fs_info) (w : World) (n : Nat) (q : Bool)
    (hT : fs.testing = false) :
    (btrfs_delalloc_release_metadata fs w n q).inode =
      { w.inode with
        csum_bytes := sub64 w.inode.csum_bytes (ALIGN n fs.sectorsize)
        block_rsv :=
          { size := spec_target_size fs w.inode.outstanding_extents
              (sub64 w.inode.csum_bytes (ALIGN n fs.sectorsize))
            reserved := min w.inode.block_rsv.reserved
              (spec_target_size fs w.inode.outstanding_extents
                (sub64 w.inode.csum_bytes (ALIGN n fs.sectorsize)))
            qgroup_rsv_size := spec_quota_target fs w.inode.outstanding_extents
            qgroup_rsv_reserved := min w.inode.block_rsv.qgroup_rsv_reserved
              (spec_quota_target fs w.inode.outstanding_extents) } } := by
  simp only [btrfs_delalloc_release_metadata, hT, calculate_inode_block_rsv_size_eq,
    btrfs_inode_rsv_release, btrfs_block_rsv_release, btrfs_qgroup_free_meta_prealloc,
    btrfs_qgroup_convert_reserved_meta]
  cases q <;> simp

/-- The inode after `btrfs_delalloc_release_extents` outside test mode. -/
theorem release_extents_inode (fs : btrfs_fs_info) (w : World) (n : Nat)
    (hT : fs.testing = false) :
    (btrfs_delalloc_release_extents fs w n).inode =
      { w.inode with
        outstanding_extents :=
          add32 w.inode.outstanding_extents (sub32 0 (count_max_extents fs n))
        block_rsv :=
          { size := spec_target_size fs
              (add32 w.inode.outstanding_extents (sub32 0 (count_max_extents fs n)))
              w.inode.csum_bytes
            reserved := min w.inode.block_rsv.reserved
              (spec_target_size fs
                (add32 w.inode.outstanding_extents (sub32 0 (count_max_extents fs n)))
                w.inode.csum_bytes)
            qgroup_rsv_size := spec_quota_target fs
              (add32 w.inode.outstanding_extents (sub32 0 (count_max_extents fs n)))
            qgroup_rsv_reserved := min w.inode.block_rsv.qgroup_rsv_reserved
              (spec_quota_target fs
                (add32 w.inode.outstanding_extents (sub32 0 (count_max_extents fs n)))) } } := by
  simp [btrfs_delalloc_release_extents, hT, calculate_inode_block_rsv_size_eq,
    btrfs_inode_rsv_release, btrfs_block_rsv_release, btrfs_qgroup_free_meta_prealloc,
    btrfs_mod_outstanding_extents]

/-- The inode after a successful `btrfs_delalloc_reserve_metadata`. -/
theorem reserve_metadata_ok_inode {fs : btrfs_fs_info} {c : Collaborators} {w : World}
    {n : Nat} (h : (btrfs_delalloc_reserve_metadata fs c w n).1 = 0) :
    (btrfs_delalloc_reserve_metadata fs c w n).2.inode =
      { w.inode with
        outstanding_extents := add32 w.inode.outstanding_extents
          (count_max_extents fs (ALIGN n fs.sectorsize))
        csum_bytes := add64 w.inode.csum_bytes (ALIGN n fs.sectorsize)
        block_rsv :=
          { size := spec_target_size fs
              (add32 w.inode.outstanding_extents
                (count_max_extents fs (ALIGN n fs.sectorsize)))
              (add64 w.inode.csum_bytes (ALIGN n fs.sectorsize))
            reserved := add64 w.inode.block_rsv.reserved
              (calc_inode_reservations fs (ALIGN n fs.sectorsize)).1
            qgroup_rsv_size := spec_quota_target fs
              (add32 w.inode.outstanding_extents
                (count_max_extents fs (ALIGN n fs.sectorsize)))
            qgroup_rsv_reserved := add64 w.inode.block_rsv.qgroup_rsv_reserved
              (calc_inode_reservations fs (ALIGN n fs.sectorsize)).2 } } := by
  revert h
  simp only [btrfs_delalloc_reserve_metadata]
  split_ifs with hp hm
  · intro h; exact absurd h hp
  · intro h; exact absurd h hm
  · intro _
    rw [reserve_metadata_bytes_ok (not_not.mp hm),
      qgroup_reserve_meta_prealloc_ok (not_not.mp hp)]
    simp [calculate_inode_block_rsv_size_eq, btrfs_block_rsv_add_bytes,
      btrfs_mod_outstanding_extents, reserve_metadata_yield_inode]

/-! ## C2: conservation over paired call sequences -/

theorem add64_mod_left (s a : Nat) : add64 (s % U64_MOD) a = (a + s) % U64_MOD := by
  unfold add64 U64_MOD
  omega

theorem add32_mod_left (s a : Nat) : add32 (s % U32_MOD) a = (a + s) % U32_MOD := by
  unfold add32 U32_MOD
  omega

theorem sub64_cancel (s a : Nat) :
    sub64 ((a + s) % U64_MOD) a = s % U64_MOD := by
  unfold sub64 U64_MOD at *
  omega

theorem sub32_cancel (s a : Nat) :
    add32 ((a + s) % U32_MOD) (sub32 0 a) = s % U32_MOD := by
  unfold add32 sub32 U32_MOD at *
  omega

theorem ALIGN_lt (x a : Nat) : ALIGN x a < U64_MOD :=
  Nat.mod_lt _ U64_MOD_pos

theorem count_max_extents_lt (fs : btrfs_fs_info) (n : Nat) :
    count_max_extents fs n < U32_MOD :=
  Nat.mod_lt _ (by decide)

theorem spec_target_size_zero {fs : btrfs_fs_info}
    (hZ : btrfs_calc_insert_metadata_size fs (btrfs_csum_bytes_to_leaves fs 0) = 0) :
    spec_target_size fs 0 0 = 0 := by
  simp [spec_target_size, hZ, add64]

theorem spec_quota_target_zero (fs : btrfs_fs_info) : spec_quota_target fs 0 = 0 := by
  simp [spec_quota_target, mul64]

/-- Each call keeps the counters balanced against the open reservations, so a
paired sequence ends with every counter at zero. -/
theorem run_balanced (fs : btrfs_fs_info) (c : Collaborators)
    (hT : fs.testing = false)
    (hE : ∀ n, n < U64_MOD →
      count_max_extents fs (ALIGN n fs.sectorsize) = count_max_extents fs n)
    (hZ : btrfs_calc_insert_metadata_size fs (btrfs_csum_bytes_to_leaves fs 0) = 0) :
    ∀ (ops : List Op) (w : World) (pm pe : List Nat) (v : World),
      (∀ op ∈ ops, op.num_bytes < U64_MOD) →
      Balanced fs w pm pe → paired_from pm pe ops = true → run fs c w ops = some v →
      v.inode.outstanding_extents = 0 ∧ v.inode.csum_bytes = 0
        ∧ v.inode.block_rsv.reserved = 0 ∧ v.inode.block_rsv.qgroup_rsv_reserved = 0 := by
  intro ops
  induction ops with
  | nil =>
    intro w pm pe v _ hB hP hR
    simp only [paired_from, Bool.and_eq_true, List.isEmpty_iff] at hP
    simp only [run, Option.some.injEq] at hR
    obtain ⟨hpm, hpe⟩ := hP
    obtain ⟨h1, h2, h3⟩ := hB
    subst hR hpm hpe
    exact ⟨by simpa using h2, by simpa using h1, h3 rfl rfl⟩
  | cons op ops ih =>
    intro w pm pe v hN hB hP hR
    have hN1 : ∀ o ∈ ops, o.num_bytes < U64_MOD := fun o ho =>
      hN o (List.mem_cons_of_mem _ ho)
    have hop : op.num_bytes < U64_MOD := hN op (List.mem_cons_self _ _)
    obtain ⟨h1, h2, h3⟩ := hB
    cases op with
    | reserve_metadata n =>
      simp only [paired_from] at hP
      simp only [run] at hR
      split_ifs at hR with hok
      refine ih _ (n :: pm) (n :: pe) v hN1 ?_ hP hR
      rw [Balanced, reserve_metadata_ok_inode hok]
      refine ⟨?_, ?_, ?_⟩
      · simp only [List.map_cons, List.sum_cons]
        rw [h1, add64_mod_left]
      · simp only [List.map_cons, List.sum_cons]
        rw [h2, add32_mod_left, hE n hop]
      · intro h; exact absurd h (List.cons_ne_nil _ _)
    | release_metadata n q =>
      simp only [paired_from, Bool.and_eq_true, decide_eq_true_eq] at hP
      simp only [run] at hR
      obtain ⟨hmem, hP⟩ := hP
      refine ih _ (pm.erase n) pe v hN1 ?_ hP hR
      have hsum := List.sum_map_erase (fun n => ALIGN n fs.sectorsize) hmem
      have hcs : sub64 w.inode.csum_bytes (ALIGN n fs.sectorsize) =
          ((pm.erase n).map (fun n => ALIGN n fs.sectorsize)).sum % U64_MOD := by
        rw [h1, ← hsum]
        exact sub64_cancel _ _
      rw [Balanced, release_metadata_inode fs w n q hT]
      refine ⟨hcs, h2, ?_⟩
      intro hpm hpe
      have hc0 : sub64 w.inode.csum_bytes (ALIGN n fs.sectorsize) = 0 := by
        rw [hcs, hpm]; rfl
      have ho0 : w.inode.outstanding_extents = 0 := by
        rw [h2, hpe]; rfl
      simp only [hc0, ho0, spec_target_size_zero hZ, spec_quota_target_zero]
      exact ⟨Nat.min_zero _, Nat.min_zero _⟩
    | release_extents n =>
      simp only [paired_from, Bool.and_eq_true, decide_eq_true_eq] at hP
      simp only [run] at hR
      obtain ⟨hmem, hP⟩ := hP
      refine ih _ pm (pe.erase n) v hN1 ?_ hP hR
      have hsum := List.sum_map_erase (count_max_extents fs) hmem
      have hoe : add32 w.inode.outstanding_extents (sub32 0 (count_max_extents fs n)) =
          ((pe.erase n).map (count_max_extents fs)).sum % U32_MOD := by
        rw [h2, ← hsum]
        exact sub32_cancel _ _
      rw [Balanced, release_extents_inode fs w n hT]
      refine ⟨h1, hoe, ?_⟩
      intro hpm hpe
      have hc0 : w.inode.csum_bytes = 0 := by
        rw [h1, hpm]; rfl
      have ho0 : add32 w.inode.outstanding_extents (sub32 0 (count_max_extents fs n)) = 0 := by
        rw [hoe, hpe]; rfl
      simp only [hc0, ho0, spec_target_size_zero hZ, spec_quota_target_zero]
      exact ⟨Nat.min_zero _, Nat.min_zero _⟩

/-- C2, as stated, fails in test mode: the paired sequence `reserve_metadata(1)`,
`release_metadata(1, false)`, `release_extents(1)` on a fresh file brings both
counters back to zero but leaves 655360 bytes held and 16384 bytes of quota
held, because both release functions return before releasing any excess. -/
theorem conservation_fails_in_test_mode :
    paired short_ops = true
      ∧ fresh_world.inode.outstanding_extents = 0
      ∧ fresh_world.inode.csum_bytes = 0
      ∧ fresh_world.inode.block_rsv.reserved = 0
      ∧ fresh_world.inode.block_rsv.qgroup_rsv_reserved = 0
      ∧ (run scenario_fs_testing always_ok fresh_world short_ops).map
          (fun v => (v.inode.outstanding_extents, v.inode.csum_bytes,
            v.inode.block_rsv.reserved, v.inode.block_rsv.qgroup_rsv_reserved))
        = some (0, 0, 655360, 16384) := by
  decide

/-- C2 (amended): conservation outside test mode. On a geometry where sector
alignment does not change the extent count of a byte count and where
inserting the checksum leaves of zero bytes costs nothing, every sequence of
successful `reserve_metadata`, `release_metadata` and `release_extents` calls
that starts with all four quantities at zero and pairs every reserve with
exactly one later release of each kind ends with `outstanding_extents`,
`csum_bytes`, `rsv.held` and `rsv.quota_held` all zero. -/
theorem conservation_outside_test_mode (fs : btrfs_fs_info) (c : Collaborators)
    (w v : World) (ops : List Op)
    (hT : fs.testing = false)
    (hE : ∀ n, n < U64_MOD →
      count_max_extents fs (ALIGN n fs.sectorsize) = count_max_extents fs n)
    (hZ : btrfs_calc_insert_metadata_size fs (btrfs_csum_bytes_to_leaves fs 0) = 0)
    (hoe : w.inode.outstanding_extents = 0) (hcs : w.inode.csum_bytes = 0)
    (hheld : w.inode.block_rsv.reserved = 0)
    (hqheld : w.inode.block_rsv.qgroup_rsv_reserved = 0)
    (hN : ∀ op ∈ ops, op.num_bytes < U64_MOD)
    (hP : paired ops = true)
    (hR : run fs c w ops = some v) :
    v.inode.outstanding_extents = 0 ∧ v.inode.csum_bytes = 0
      ∧ v.inode.block_rsv.reserved = 0 ∧ v.inode.block_rsv.qgroup_rsv_reserved = 0 :=
  run_balanced fs c hT hE hZ ops w [] [] v hN
    ⟨by simpa using hcs, by simpa using hoe, fun _ _ => ⟨hheld, hqheld⟩⟩ hP hR

theorem scenario_fs_extents_aligned (n : Nat) :
    count_max_extents scenario_fs (ALIGN n scenario_fs.sectorsize) =
      count_max_extents scenario_fs n := by
  simp only [count_max_extents, ALIGN, scenario_fs, MAX_EXTENT_SIZE, U64_MOD, U32_MOD]
  omega

/-- Two overlapping reservations (1 byte and 200 MiB at sector size 4096),
released in a different order than they were made, leave nothing behind. -/
theorem conservation_outside_test_mode_witness :
    paired example_ops = true
      ∧ run scenario_fs always_ok fresh_world example_ops = some fresh_world
      ∧ fresh_world.inode.outstanding_extents = 0 ∧ fresh_world.inode.csum_bytes = 0
      ∧ fresh_world.inode.block_rsv.reserved = 0
      ∧ fresh_world.inode.block_rsv.qgroup_rsv_reserved = 0 := by
  have hP : paired example_ops = true := by decide
  have hR : run scenario_fs always_ok fresh_world example_ops = some fresh_world := by decide
  exact ⟨hP, hR,
    conservation_outside_test_mode scenario_fs always_ok fresh_world fresh_world example_ops
      rfl (fun n _ => scenario_fs_extents_aligned n) (by decide) rfl rfl rfl rfl
      (by decide) hP hR⟩

/-! ## C3: a failing metadata reservation leaves nothing behind -/

/-- C3: `btrfs_delalloc_reserve_metadata` leaves no residual state on failure.
(a) If the quota prealloc fails, its error is returned and the inode (both
counters and all four reservation fields), the metadata pool and the ledger
are unchanged. (b) If the prealloc succeeds (the ledger then holds
`quota_reserve` more) and the metadata pool refuses, the pool's error is
returned, the ledger's prealloc total is back at its value before the call,
and the inode, the pool and the rest of the ledger are unchanged. In both
cases only the count of yields can differ from the world before the call. -/
theorem reserve_metadata_failure_no_residue (fs : btrfs_fs_info) (c : Collaborators)
    (w : World) (num_bytes : Nat) :
    ((btrfs_qgroup_reserve_meta_prealloc c (reserve_metadata_yield w)
          (calc_inode_reservations fs (ALIGN num_bytes fs.sectorsize)).2).1 ≠ 0 →
        (btrfs_delalloc_reserve_metadata fs c w num_bytes).1 =
            (btrfs_qgroup_reserve_meta_prealloc c (reserve_metadata_yield w)
              (calc_inode_reservations fs (ALIGN num_bytes fs.sectorsize)).2).1
          ∧ (btrfs_delalloc_reserve_metadata fs c w num_bytes).2.inode = w.inode
          ∧ (btrfs_delalloc_reserve_metadata fs c w num_bytes).2.meta_bytes_may_use =
            w.meta_bytes_may_use
          ∧ (btrfs_delalloc_reserve_metadata fs c w num_bytes).2.qgroup_meta_prealloc =
            w.qgroup_meta_prealloc
          ∧ (btrfs_delalloc_reserve_metadata fs c w num_bytes).2 =
            { w with timeouts := (btrfs_delalloc_reserve_metadata fs c w num_bytes).2.timeouts })
      ∧ ((btrfs_qgroup_reserve_meta_prealloc c (reserve_metadata_yield w)
          (calc_inode_reservations fs (ALIGN num_bytes fs.sectorsize)).2).1 = 0 →
        (btrfs_reserve_metadata_bytes c
          (btrfs_qgroup_reserve_meta_prealloc c (reserve_metadata_yield w)
            (calc_inode_reservations fs (ALIGN num_bytes fs.sectorsize)).2).2
          (calc_inode_reservations fs (ALIGN num_bytes fs.sectorsize)).1
          (reserve_metadata_flush w)).1 ≠ 0 →
        (btrfs_delalloc_reserve_metadata fs c w num_bytes).1 =
            (btrfs_reserve_metadata_bytes c
              (btrfs_qgroup_reserve_meta_prealloc c (reserve_metadata_yield w)
                (calc_inode_reservations fs (ALIGN num_bytes fs.sectorsize)).2).2
              (calc_inode_reservations fs (ALIGN num_bytes fs.sectorsize)).1
              (reserve_metadata_flush w)).1
          ∧ (btrfs_qgroup_reserve_meta_prealloc c (reserve_metadata_yield w)
              (calc_inode_reservations fs (ALIGN num_bytes fs.sectorsize)).2).2.qgroup_meta_prealloc
            = w.qgroup_meta_prealloc
              + (calc_inode_reservations fs (ALIGN num_bytes fs.sectorsize)).2
          ∧ (btrfs_delalloc_reserve_metadata fs c w num_bytes).2.qgroup_meta_prealloc =
            w.qgroup_meta_prealloc
          ∧ (btrfs_delalloc_reserve_metadata fs c w num_bytes).2.inode = w.inode
          ∧ (btrfs_delalloc_reserve_metadata fs c w num_bytes).2.meta_bytes_may_use =
            w.meta_bytes_may_use
          ∧ (btrfs_delalloc_reserve_metadata fs c w num_bytes).2 =
            { w with timeouts := (btrfs_delalloc_reserve_metadata fs c w num_bytes).2.timeouts }) := by
  have hy := reserve_metadata_yield_eq w
  constructor
  · intro hp
    have hret : (btrfs_delalloc_reserve_metadata fs c w num_bytes).1 =
        (btrfs_qgroup_reserve_meta_prealloc c (reserve_metadata_yield w)
          (calc_inode_reservations fs (ALIGN num_bytes fs.sectorsize)).2).1 := by
      simp only [btrfs_delalloc_reserve_metadata, if_pos hp]
    have hw := @reserve_metadata_fail_world fs c w num_bytes (by rw [hret]; exact hp)
    refine ⟨hret, ?_, ?_, ?_, ?_⟩
    · rw [hw, hy]
    · rw [hw, hy]
    · rw [hw, hy]
    · rw [hw]; exact hy
  · intro hp hm
    have hret : (btrfs_delalloc_reserve_metadata fs c w num_bytes).1 =
        (btrfs_reserve_metadata_bytes c
          (btrfs_qgroup_reserve_meta_prealloc c (reserve_metadata_yield w)
            (calc_inode_reservations fs (ALIGN num_bytes fs.sectorsize)).2).2
          (calc_inode_reservations fs (ALIGN num_bytes fs.sectorsize)).1
          (reserve_metadata_flush w)).1 := by
      simp only [btrfs_delalloc_reserve_metadata, if_neg (not_not.mpr hp), if_pos hm]
    have hw := @reserve_metadata_fail_world fs c w num_bytes (by rw [hret]; exact hm)
    refine ⟨hret, ?_, ?_, ?_, ?_, ?_⟩
    · rw [qgroup_reserve_meta_prealloc_ok hp, hy]
    · rw [hw, hy]
    · rw [hw, hy]
    · rw [hw, hy]
    · rw [hw]; exact hy

/-- Both failure paths on a file that already holds a reservation, with a
commit in progress: the ledger refusing the prealloc returns `-122`, the
exhausted metadata pool returns `-28`, and in both cases the inode and the
ledger's prealloc total are as before the call. -/
theorem reserve_metadata_failure_no_residue_witness :
    ((btrfs_delalloc_reserve_metadata scenario_fs meta_edquot
          { (btrfs_delalloc_reserve_metadata scenario_fs always_ok fresh_world 1).2 with
            transaction_in_commit := true } 5000).1 = -122
      ∧ (btrfs_delalloc_reserve_metadata scenario_fs meta_edquot
          { (btrfs_delalloc_reserve_metadata scenario_fs always_ok fresh_world 1).2 with
            transaction_in_commit := true } 5000).2.inode =
          (btrfs_delalloc_reserve_metadata scenario_fs always_ok fresh_world 1).2.inode)
      ∧ ((btrfs_delalloc_reserve_metadata scenario_fs meta_enospc
          { (btrfs_delalloc_reserve_metadata scenario_fs always_ok fresh_world 1).2 with
            transaction_in_commit := true } 5000).1 = -28
      ∧ (btrfs_delalloc_reserve_metadata scenario_fs meta_enospc
          { (btrfs_delalloc_reserve_metadata scenario_fs always_ok fresh_world 1).2 with
            transaction_in_commit := true } 5000).2.qgroup_meta_prealloc = 16384) := by
  have ha := (reserve_metadata_failure_no_residue scenario_fs meta_edquot
    { (btrfs_delalloc_reserve_metadata scenario_fs always_ok fresh_world 1).2 with
      transaction_in_commit := true } 5000).1 (by decide)
  have hb := (reserve_metadata_failure_no_residue scenario_fs meta_enospc
    { (btrfs_delalloc_reserve_metadata scenario_fs always_ok fresh_world 1).2 with
      transaction_in_commit := true } 5000).2 (by decide) (by decide)
  exact ⟨⟨by rw [ha.1]; decide, ha.2.1⟩, ⟨by rw [hb.1]; decide, by rw [hb.2.2.1]; decide⟩⟩

/-! ## C4: what a successful metadata reservation commits -/

theorem reserve_metadata_ret_ok {fs : btrfs_fs_info} {c : Collaborators} {w : World}
    {n : Nat}
    (hp : (btrfs_qgroup_reserve_meta_prealloc c (reserve_metadata_yield w)
      (calc_inode_reservations fs (ALIGN n fs.sectorsize)).2).1 = 0)
    (hm : (btrfs_reserve_metadata_bytes c
      (btrfs_qgroup_reserve_meta_prealloc c (reserve_metadata_yield w)
        (calc_inode_reservations fs (ALIGN n fs.sectorsize)).2).2
      (calc_inode_reservations fs (ALIGN n fs.sectorsize)).1
      (reserve_metadata_flush w)).1 = 0) :
    (btrfs_delalloc_reserve_metadata fs c w n).1 = 0 := by
  simp only [btrfs_delalloc_reserve_metadata, if_neg (not_not.mpr hp), if_neg (not_not.mpr hm)]

/-- The pools and the ledger after a successful
`btrfs_delalloc_reserve_metadata`. -/
theorem reserve_metadata_ok_pools {fs : btrfs_fs_info} {c : Collaborators} {w : World}
    {n : Nat} (h : (btrfs_delalloc_reserve_metadata fs c w n).1 = 0) :
    (btrfs_delalloc_reserve_metadata fs c w n).2.meta_bytes_may_use =
        w.meta_bytes_may_use + (calc_inode_reservations fs (ALIGN n fs.sectorsize)).1
      ∧ (btrfs_delalloc_reserve_metadata fs c w n).2.qgroup_meta_prealloc =
        w.qgroup_meta_prealloc + (calc_inode_reservations fs (ALIGN n fs.sectorsize)).2
      ∧ (btrfs_delalloc_reserve_metadata fs c w n).2.qgroup_meta_pertrans =
        w.qgroup_meta_pertrans
      ∧ (btrfs_delalloc_reserve_metadata fs c w n).2.data_bytes_may_use =
        w.data_bytes_may_use
      ∧ (btrfs_delalloc_reserve_metadata fs c w n).2.qgroup_data_rsv = w.qgroup_data_rsv := by
  have hy := reserve_metadata_yield_eq w
  revert h
  simp only [btrfs_delalloc_reserve_metadata]
  split_ifs with hp hm
  · intro h; exact absurd h hp
  · intro h; exact absurd h hm
  · intro _
    rw [reserve_metadata_bytes_ok (not_not.mp hm),
      qgroup_reserve_meta_prealloc_ok (not_not.mp hp), hy]
    simp [calculate_inode_block_rsv_size_eq, btrfs_block_rsv_add_bytes,
      btrfs_mod_outstanding_extents]

/-- C4: success postcondition of `btrfs_delalloc_reserve_metadata`. When the
quota prealloc and the metadata-pool reservation both succeed the call
returns 0 and, with `a` the byte count rounded up to the sector size,
`outstanding_extents` has grown by `count_max_extents(a)` (as an `unsigned`),
`csum_bytes` by `a`, `rsv.held` by `meta_reserve` and `rsv.quota_held` by
`quota_reserve` (as `u64`), where `(meta_reserve, quota_reserve) =
calc_inode_reservations(a)`; the stored `target_size` and `quota_target` are
those of the new counters (recalculating changes nothing); the metadata pool
and the ledger's prealloc total hold the two amounts. At sector size 4096 and
`MAX_EXTENT_SIZE` 128 MiB, reserving 1 byte on a fresh file gives
`outstanding_extents = 1` and `csum_bytes = 4096`, and reserving 200 MiB adds
2 to `outstanding_extents`. -/
theorem reserve_metadata_success :
    (∀ (fs : btrfs_fs_info) (c : Collaborators) (w : World) (num_bytes : Nat),
      (btrfs_qgroup_reserve_meta_prealloc c (reserve_metadata_yield w)
        (calc_inode_reservations fs (ALIGN num_bytes fs.sectorsize)).2).1 = 0 →
      (btrfs_reserve_metadata_bytes c
        (btrfs_qgroup_reserve_meta_prealloc c (reserve_metadata_yield w)
          (calc_inode_reservations fs (ALIGN num_bytes fs.sectorsize)).2).2
        (calc_inode_reservations fs (ALIGN num_bytes fs.sectorsize)).1
        (reserve_metadata_flush w)).1 = 0 →
      (btrfs_delalloc_reserve_metadata fs c w num_bytes).1 = 0
      ∧ (btrfs_delalloc_reserve_metadata fs c w num_bytes).2.inode.outstanding_extents =
        add32 w.inode.outstanding_extents
          (count_max_extents fs (ALIGN num_bytes fs.sectorsize))
      ∧ (btrfs_delalloc_reserve_metadata fs c w num_bytes).2.inode.csum_bytes =
        add64 w.inode.csum_bytes (ALIGN num_bytes fs.sectorsize)
      ∧ btrfs_calculate_inode_block_rsv_size fs
          (btrfs_delalloc_reserve_metadata fs c w num_bytes).2 =
        (btrfs_delalloc_reserve_metadata fs c w num_bytes).2
      ∧ (btrfs_delalloc_reserve_metadata fs c w num_bytes).2.inode.block_rsv.reserved =
        add64 w.inode.block_rsv.reserved
          (calc_inode_reservations fs (ALIGN num_bytes fs.sectorsize)).1
      ∧ (btrfs_delalloc_reserve_metadata fs c w num_bytes).2.inode.block_rsv.qgroup_rsv_reserved =
        add64 w.inode.block_rsv.qgroup_rsv_reserved
          (calc_inode_reservations fs (ALIGN num_bytes fs.sectorsize)).2
      ∧ (btrfs_delalloc_reserve_metadata fs c w num_bytes).2.meta_bytes_may_use =
        w.meta_bytes_may_use + (calc_inode_reservations fs (ALIGN num_bytes fs.sectorsize)).1
      ∧ (btrfs_delalloc_reserve_metadata fs c w num_bytes).2.qgroup_meta_prealloc =
        w.qgroup_meta_prealloc + (calc_inode_reservations fs (ALIGN num_bytes fs.sectorsize)).2)
    ∧ ((btrfs_delalloc_reserve_metadata scenario_fs always_ok fresh_world 1).2.inode.outstanding_extents
          = 1
      ∧ (btrfs_delalloc_reserve_metadata scenario_fs always_ok fresh_world 1).2.inode.csum_bytes
          = 4096
      ∧ (btrfs_delalloc_reserve_metadata scenario_fs always_ok fresh_world
          (200 * 1024 * 1024)).2.inode.outstanding_extents = 2
      ∧ (btrfs_delalloc_reserve_metadata scenario_fs always_ok
          (btrfs_delalloc_reserve_metadata scenario_fs always_ok fresh_world 1).2
          (200 * 1024 * 1024)).2.inode.outstanding_extents = 1 + 2) := by
  constructor
  · intro fs c w num_bytes hp hm
    have h0 := reserve_metadata_ret_ok hp hm
    have hi := reserve_metadata_ok_inode h0
    have hpools := reserve_metadata_ok_pools h0
    refine ⟨h0, by rw [hi], by rw [hi], ?_, by rw [hi], by rw [hi], hpools.1, hpools.2.1⟩
    exact calculate_inode_block_rsv_size_fixed fs _ (by rw [hi]) (by rw [hi])
  · decide

/-- Scenario A through the general statement: reserving 1 byte on a fresh
file at sector size 4096 returns 0, counts one extent and 4096 checksum
bytes, and holds 655360 metadata bytes and 16384 quota bytes. -/
theorem reserve_metadata_success_witness :
    (btrfs_delalloc_reserve_metadata scenario_fs always_ok fresh_world 1).1 = 0
      ∧ (btrfs_delalloc_reserve_metadata scenario_fs always_ok fresh_world 1).2.inode.outstanding_extents
          = 1
      ∧ (btrfs_delalloc_reserve_metadata scenario_fs always_ok fresh_world 1).2.inode.csum_bytes
          = 4096
      ∧ (btrfs_delalloc_reserve_metadata scenario_fs always_ok fresh_world 1).2.inode.block_rsv.reserved
          = 655360
      ∧ (btrfs_delalloc_reserve_metadata scenario_fs always_ok fresh_world 1).2.inode.block_rsv.qgroup_rsv_reserved
          = 16384 := by
  have h := reserve_metadata_success.1 scenario_fs always_ok fresh_world 1
    (by decide) (by decide)
  exact ⟨h.1, by rw [h.2.1]; decide, by rw [h.2.2.1]; decide,
    by rw [h.2.2.2.2.1]; decide, by rw [h.2.2.2.2.2.1]; decide⟩

/-! ## C5: error handling of the data reservation -/

theorem alloc_data_chunk_ondemand_fail {fs : btrfs_fs_info} {c : Collaborators} {w : World}
    {bytes : Nat} (h : (btrfs_alloc_data_chunk_ondemand fs c w bytes).1 < 0) :
    (btrfs_alloc_data_chunk_ondemand fs c w bytes).2 = w := by
  revert h
  simp only [btrfs_alloc_data_chunk_ondemand, btrfs_reserve_data_bytes]
  split_ifs <;> simp

theorem alloc_data_chunk_ondemand_ok {fs : btrfs_fs_info} {c : Collaborators} {w : World}
    {bytes : Nat} (h : ¬ (btrfs_alloc_data_chunk_ondemand fs c w bytes).1 < 0) :
    (btrfs_alloc_data_chunk_ondemand fs c w bytes).2 =
      { w with data_bytes_may_use := w.data_bytes_may_use + ALIGN bytes fs.sectorsize } := by
  revert h
  simp only [btrfs_alloc_data_chunk_ondemand, btrfs_reserve_data_bytes]
  split_ifs <;> intro h <;> first | rfl | (exfalso; apply h; simp; omega)

/-- The data-pool call of `btrfs_check_data_free_space` does not consult the
ledger's oracle. -/
theorem alloc_data_chunk_ondemand_ledger (fs : btrfs_fs_info) (c : Collaborators)
    (w : World) (bytes : Nat) (q : World → Nat → Nat → Int) :
    btrfs_alloc_data_chunk_ondemand fs { c with qgroup_reserve_data := q } w bytes =
      btrfs_alloc_data_chunk_ondemand fs c w bytes := rfl

/-- C5: error handling of `btrfs_check_data_free_space`, with `L` the aligned
length of `(start, len)`. (a) If the data pool refuses, its error is returned
unchanged, the world is untouched, and the result is the same whatever the
ledger would have answered (it is not asked). (b) If the pool grants `L`
bytes and the ledger then refuses, the ledger's error is returned and the
pool's `bytes_may_use` is back at its value before the call: exactly the `L`
bytes just reserved are freed, and the world is as before the call. (c) If
both succeed the result is exactly 0, whatever non-negative value the ledger
returned, and the pool and the ledger each hold `L` more bytes. -/
theorem check_data_free_space_errors :
    (∀ (fs : btrfs_fs_info) (c : Collaborators) (w : World) (start len : Nat),
      (btrfs_alloc_data_chunk_ondemand fs c w (aligned_len fs start len)).1 < 0 →
      btrfs_check_data_free_space fs c w start len =
          ((btrfs_alloc_data_chunk_ondemand fs c w (aligned_len fs start len)).1, w)
        ∧ ∀ q : World → Nat → Nat → Int,
          btrfs_check_data_free_space fs { c with qgroup_reserve_data := q } w start len =
            btrfs_check_data_free_space fs c w start len)
    ∧ (∀ (fs : btrfs_fs_info) (c : Collaborators) (w : World) (start len : Nat),
      sector_pow2 fs →
      ¬ (btrfs_alloc_data_chunk_ondemand fs c w (aligned_len fs start len)).1 < 0 →
      (btrfs_qgroup_reserve_data c
        (btrfs_alloc_data_chunk_ondemand fs c w (aligned_len fs start len)).2
        (round_down start fs.sectorsize) (aligned_len fs start len)).1 < 0 →
      (btrfs_alloc_data_chunk_ondemand fs c w (aligned_len fs start len)).2.data_bytes_may_use
          = w.data_bytes_may_use + aligned_len fs start len
        ∧ (btrfs_check_data_free_space fs c w start len).1 =
          (btrfs_qgroup_reserve_data c
            (btrfs_alloc_data_chunk_ondemand fs c w (aligned_len fs start len)).2
            (round_down start fs.sectorsize) (aligned_len fs start len)).1
        ∧ (btrfs_check_data_free_space fs c w start len).2.data_bytes_may_use =
          w.data_bytes_may_use
        ∧ (btrfs_check_data_free_space fs c w start len).2 = w)
    ∧ (∀ (fs : btrfs_fs_info) (c : Collaborators) (w : World) (start len : Nat),
      sector_pow2 fs →
      ¬ (btrfs_alloc_data_chunk_ondemand fs c w (aligned_len fs start len)).1 < 0 →
      ¬ (btrfs_qgroup_reserve_data c
        (btrfs_alloc_data_chunk_ondemand fs c w (aligned_len fs start len)).2
        (round_down start fs.sectorsize) (aligned_len fs start len)).1 < 0 →
      (btrfs_check_data_free_space fs c w start len).1 = 0
        ∧ (btrfs_check_data_free_space fs c w start len).2.data_bytes_may_use =
          w.data_bytes_may_use + aligned_len fs start len
        ∧ (btrfs_check_data_free_space fs c w start len).2.qgroup_data_rsv =
          w.qgroup_data_rsv + aligned_len fs start len) := by
  refine ⟨?_, ?_, ?_⟩
  · intro fs c w start len hfail
    have hw := alloc_data_chunk_ondemand_fail hfail
    have hr : btrfs_check_data_free_space fs c w start len =
        ((btrfs_alloc_data_chunk_ondemand fs c w (aligned_len fs start len)).1, w) := by
      unfold aligned_len at hfail hw
      simp only [btrfs_check_data_free_space, aligned_len, if_pos hfail]
      exact Prod.ext rfl hw
    refine ⟨hr, ?_⟩
    intro q
    rw [hr]
    have hfail2 : (btrfs_alloc_data_chunk_ondemand fs { c with qgroup_reserve_data := q } w
        (aligned_len fs start len)).1 < 0 := by
      rw [alloc_data_chunk_ondemand_ledger]; exact hfail
    have hw2 := alloc_data_chunk_ondemand_fail hfail2
    unfold aligned_len at hfail2 hw2
    simp only [btrfs_check_data_free_space, aligned_len, if_pos hfail2]
    exact Prod.ext rfl hw2
  · intro fs c w start len hS hok hq
    have hA := ALIGN_aligned_len hS start len
    have hw := alloc_data_chunk_ondemand_ok hok
    rw [hA] at hw
    have hd := Nat.mod_eq_zero_of_dvd (aligned_len_dvd hS start len)
    have hqw : (btrfs_qgroup_reserve_data c
        (btrfs_alloc_data_chunk_ondemand fs c w (aligned_len fs start len)).2
        (round_down start fs.sectorsize) (aligned_len fs start len)).2 =
        (btrfs_alloc_data_chunk_ondemand fs c w (aligned_len fs start len)).2 := by
      revert hq
      simp only [btrfs_qgroup_reserve_data]
      split_ifs with h0
      · intro _; rfl
      · intro h; exact absurd h h0
    have hr0 : btrfs_check_data_free_space fs c w start len =
        ((btrfs_qgroup_reserve_data c
            (btrfs_alloc_data_chunk_ondemand fs c w (aligned_len fs start len)).2
            (round_down start fs.sectorsize) (aligned_len fs start len)).1,
          btrfs_free_reserved_data_space_noquota fs
            (btrfs_qgroup_reserve_data c
              (btrfs_alloc_data_chunk_ondemand fs c w (aligned_len fs start len)).2
              (round_down start fs.sectorsize) (aligned_len fs start len)).2
            (aligned_len fs start len)) := by
      have hok1 := hok
      have hq1 := hq
      unfold aligned_len at hok1 hq1
      simp only [btrfs_check_data_free_space, aligned_len, if_neg hok1, if_pos hq1]
    have hr : btrfs_check_data_free_space fs c w start len =
        ((btrfs_qgroup_reserve_data c
            (btrfs_alloc_data_chunk_ondemand fs c w (aligned_len fs start len)).2
            (round_down start fs.sectorsize) (aligned_len fs start len)).1,
          btrfs_free_reserved_data_space_noquota fs
            (btrfs_alloc_data_chunk_ondemand fs c w (aligned_len fs start len)).2
            (aligned_len fs start len)) := by
      rw [hr0, hqw]
    refine ⟨by rw [hw], by rw [hr], ?_, ?_⟩
    · rw [hr, hw]
      simp [btrfs_free_reserved_data_space_noquota, btrfs_space_info_free_bytes_may_use]
    · rw [hr, hw]
      simp [btrfs_free_reserved_data_space_noquota, btrfs_space_info_free_bytes_may_use,
        IS_ALIGNED, hd]
  · intro fs c w start len hS hok hq
    have hok2 : ¬ (btrfs_check_data_free_space fs c w start len).1 < 0 := by
      unfold aligned_len at hok hq
      simp only [btrfs_check_data_free_space, if_neg hok, if_neg hq]
      decide
    have hr := check_data_free_space_ok hS hok2
    rw [hr]
    exact ⟨rfl, rfl, rfl⟩

/-- The three outcomes at sector size 4096 on the range `(4095, 2)`, whose
aligned length is 8192: an exhausted pool returns `-28` and changes nothing, a
refusing ledger returns `-122` and the pool is empty again, and a ledger that
answers with the positive value 1 still yields 0 with 8192 bytes held by
both. -/
theorem check_data_free_space_errors_witness :
    btrfs_check_data_free_space scenario_fs data_enospc fresh_world 4095 2 = (-28, fresh_world)
      ∧ ((btrfs_check_data_free_space scenario_fs data_edquot fresh_world 4095 2).1 = -122
        ∧ (btrfs_check_data_free_space scenario_fs data_edquot fresh_world 4095 2).2 = fresh_world)
      ∧ ((btrfs_check_data_free_space scenario_fs data_positive fresh_world 4095 2).1 = 0
        ∧ (btrfs_check_data_free_space scenario_fs data_positive fresh_world 4095 2).2.data_bytes_may_use
            = 8192
        ∧ (btrfs_check_data_free_space scenario_fs data_positive fresh_world 4095 2).2.qgroup_data_rsv
            = 8192) := by
  have hS : sector_pow2 scenario_fs := ⟨12, by decide, rfl⟩
  have ha := (check_data_free_space_errors.1 scenario_fs data_enospc fresh_world 4095 2
    (by decide)).1
  have hb := check_data_free_space_errors.2.1 scenario_fs data_edquot fresh_world 4095 2 hS
    (by decide) (by decide)
  have hc := check_data_free_space_errors.2.2 scenario_fs data_positive fresh_world 4095 2 hS
    (by decide) (by decide)
  exact ⟨by rw [ha]; decide, ⟨by rw [hb.2.1]; decide, hb.2.2.2⟩,
    ⟨hc.1, by rw [hc.2.1]; decide, by rw [hc.2.2]; decide⟩⟩

/-! ## C6: what recalculation stores -/

/-- C6: `btrfs_calculate_inode_block_rsv_size` stores exactly the specified
formula. For every world, after the call `rsv.target_size` is
`(if outstanding_extents > 0 then insert_cost(outstanding_extents) +
update_cost(1) else 0) + insert_cost(checksum_leaves(csum_bytes))` and
`rsv.quota_target` is `outstanding_extents * NODE_SIZE`, both computed in 64
bits (which is the spec's section 4.2 formula); `outstanding_extents`,
`csum_bytes`, `rsv.held`, `rsv.quota_held` and everything outside the block
reservation are unchanged. When no intermediate value exceeds 64 bits the
stored values are the formula's values in plain arithmetic. -/
theorem recalculate_stores_formula :
    (∀ (fs : btrfs_fs_info) (w : World),
      (btrfs_calculate_inode_block_rsv_size fs w).inode.block_rsv.size =
          ((if w.inode.outstanding_extents > 0 then
              btrfs_calc_insert_metadata_size fs w.inode.outstanding_extents
                + btrfs_calc_metadata_size fs 1
            else 0)
            + btrfs_calc_insert_metadata_size fs
                (btrfs_csum_bytes_to_leaves fs w.inode.csum_bytes)) % U64_MOD
        ∧ (btrfs_calculate_inode_block_rsv_size fs w).inode.block_rsv.qgroup_rsv_size =
          (w.inode.outstanding_extents * fs.nodesize) % U64_MOD
        ∧ (btrfs_calculate_inode_block_rsv_size fs w).inode.block_rsv.size =
          spec_target_size fs w.inode.outstanding_extents w.inode.csum_bytes
        ∧ (btrfs_calculate_inode_block_rsv_size fs w).inode.block_rsv.qgroup_rsv_size =
          spec_quota_target fs w.inode.outstanding_extents
        ∧ (btrfs_calculate_inode_block_rsv_size fs w).inode.outstanding_extents =
          w.inode.outstanding_extents
        ∧ (btrfs_calculate_inode_block_rsv_size fs w).inode.csum_bytes = w.inode.csum_bytes
        ∧ (btrfs_calculate_inode_block_rsv_size fs w).inode.block_rsv.reserved =
          w.inode.block_rsv.reserved
        ∧ (btrfs_calculate_inode_block_rsv_size fs w).inode.block_rsv.qgroup_rsv_reserved =
          w.inode.block_rsv.qgroup_rsv_reserved
        ∧ btrfs_calculate_inode_block_rsv_size fs w =
          { w with inode := { w.inode with block_rsv := { w.inode.block_rsv with
              size := (btrfs_calculate_inode_block_rsv_size fs w).inode.block_rsv.size
              qgroup_rsv_size :=
                (btrfs_calculate_inode_block_rsv_size fs w).inode.block_rsv.qgroup_rsv_size } } })
    ∧ (∀ (fs : btrfs_fs_info) (w : World),
      fs.checksum_leaves w.inode.csum_bytes < U64_MOD →
      (if w.inode.outstanding_extents > 0 then
          fs.insert_cost w.inode.outstanding_extents + fs.update_cost 1
        else 0)
        + fs.insert_cost (fs.checksum_leaves w.inode.csum_bytes) < U64_MOD →
      w.inode.outstanding_extents * fs.nodesize < U64_MOD →
      (btrfs_calculate_inode_block_rsv_size fs w).inode.block_rsv.size =
          (if w.inode.outstanding_extents > 0 then
              fs.insert_cost w.inode.outstanding_extents + fs.update_cost 1
            else 0)
            + fs.insert_cost (fs.checksum_leaves w.inode.csum_bytes)
        ∧ (btrfs_calculate_inode_block_rsv_size fs w).inode.block_rsv.qgroup_rsv_size =
          w.inode.outstanding_extents * fs.nodesize) := by
  constructor
  · intro fs w
    rw [calculate_inode_block_rsv_size_eq]
    refine ⟨?_, rfl, rfl, rfl, rfl, rfl, rfl, rfl, rfl⟩
    simp only [spec_target_size, add64]
    split_ifs
    · simp only [Nat.mod_add_mod]
    · rfl
  · intro fs w h1 h2 h3
    rw [calculate_inode_block_rsv_size_eq]
    simp only [spec_target_size, spec_quota_target, add64, mul64,
      btrfs_calc_insert_metadata_size, btrfs_calc_metadata_size, btrfs_csum_bytes_to_leaves,
      Nat.mod_eq_of_lt h1, Nat.mod_eq_of_lt h3]
    refine ⟨?_, trivial⟩
    revert h2
    unfold U64_MOD
    split_ifs <;> intro h2 <;> omega

/-- Recalculating the file that holds a 1-byte and a 200 MiB reservation:
three extents and 209719296 checksum bytes give a target of 4325376 bytes and
a quota target of 49152 bytes. -/
theorem recalculate_stores_formula_witness :
    (btrfs_calculate_inode_block_rsv_size scenario_fs
        (btrfs_delalloc_reserve_metadata scenario_fs always_ok
          (btrfs_delalloc_reserve_metadata scenario_fs always_ok fresh_world 1).2
          (200 * 1024 * 1024)).2).inode.block_rsv.size = 4325376
      ∧ (btrfs_calculate_inode_block_rsv_size scenario_fs
        (btrfs_delalloc_reserve_metadata scenario_fs always_ok
          (btrfs_delalloc_reserve_metadata scenario_fs always_ok fresh_world 1).2
          (200 * 1024 * 1024)).2).inode.block_rsv.qgroup_rsv_size = 49152 := by
  have h := recalculate_stores_formula.2 scenario_fs
    (btrfs_delalloc_reserve_metadata scenario_fs always_ok
      (btrfs_delalloc_reserve_metadata scenario_fs always_ok fresh_world 1).2
      (200 * 1024 * 1024)).2 (by decide) (by decide) (by decide)
  exact ⟨by rw [h.1]; decide, by rw [h.2]; decide⟩

/-! ## C7: recalculation is idempotent -/

/-- C7: idempotence of `btrfs_calculate_inode_block_rsv_size`. Recalculating
twice gives the same world as recalculating once, so `target_size` and
`quota_target` after the second call equal those after the first; and for two
worlds with the same `outstanding_extents` and `csum_bytes` the stored
`target_size` and `quota_target` agree, whatever the previous `target_size`,
`quota_target`, `held` and `quota_held` were. -/
theorem recalculate_idempotent :
    (∀ (fs : btrfs_fs_info) (w : World),
      btrfs_calculate_inode_block_rsv_size fs (btrfs_calculate_inode_block_rsv_size fs w) =
        btrfs_calculate_inode_block_rsv_size fs w)
    ∧ (∀ (fs : btrfs_fs_info) (w1 w2 : World),
      w1.inode.outstanding_extents = w2.inode.outstanding_extents →
      w1.inode.csum_bytes = w2.inode.csum_bytes →
      (btrfs_calculate_inode_block_rsv_size fs w1).inode.block_rsv.size =
          (btrfs_calculate_inode_block_rsv_size fs w2).inode.block_rsv.size
        ∧ (btrfs_calculate_inode_block_rsv_size fs w1).inode.block_rsv.qgroup_rsv_size =
          (btrfs_calculate_inode_block_rsv_size fs w2).inode.block_rsv.qgroup_rsv_size) := by
  constructor
  · intro fs w
    apply calculate_inode_block_rsv_size_fixed
    · rw [calculate_inode_block_rsv_size_eq]
    · rw [calculate_inode_block_rsv_size_eq]
  · intro fs w1 w2 h1 h2
    rw [calculate_inode_block_rsv_size_eq, calculate_inode_block_rsv_size_eq]
    simp only [h1, h2, and_self]

/-- The stale reservation fields of `stale_world` do not matter: it
recalculates to the same targets as the world reached by reserving 1 byte on
a fresh file, 655360 and 16384. -/
theorem recalculate_idempotent_witness :
    (btrfs_calculate_inode_block_rsv_size scenario_fs stale_world).inode.block_rsv.size = 655360
      ∧ (btrfs_calculate_inode_block_rsv_size scenario_fs stale_world).inode.block_rsv.qgroup_rsv_size
          = 16384 := by
  have h := recalculate_idempotent.2 scenario_fs stale_world
    (btrfs_delalloc_reserve_metadata scenario_fs always_ok fresh_world 1).2
    (by decide) (by decide)
  exact ⟨by rw [h.1]; decide, by rw [h.2]; decide⟩

/-! ## C8: the sizes a reservation asks for -/

/-- C8: the formula of `calc_inode_reservations`. With `nr_extents =
count_max_extents(num_bytes)` and `csum_leaves =
btrfs_csum_bytes_to_leaves(num_bytes)`, the function returns `meta_reserve =
insert_cost(nr_extents + csum_leaves) + update_cost(1)` and `quota_reserve =
nr_extents * NODE_SIZE`, each operation in 64 bits; when no intermediate
value exceeds its C type these are the formula's values in plain
arithmetic. -/
theorem calc_inode_reservations_formula :
    (∀ (fs : btrfs_fs_info) (num_bytes : Nat),
      (calc_inode_reservations fs num_bytes).1 =
          (btrfs_calc_insert_metadata_size fs
              ((count_max_extents fs num_bytes + btrfs_csum_bytes_to_leaves fs num_bytes)
                % U64_MOD)
            + btrfs_calc_metadata_size fs 1) % U64_MOD
        ∧ (calc_inode_reservations fs num_bytes).2 =
          (count_max_extents fs num_bytes * fs.nodesize) % U64_MOD)
    ∧ (∀ (fs : btrfs_fs_info) (num_bytes : Nat),
      fs.extents_needed num_bytes < U32_MOD →
      fs.extents_needed num_bytes + fs.checksum_leaves num_bytes < U64_MOD →
      fs.insert_cost (fs.extents_needed num_bytes + fs.checksum_leaves num_bytes)
        + fs.update_cost 1 < U64_MOD →
      fs.extents_needed num_bytes * fs.nodesize < U64_MOD →
      calc_inode_reservations fs num_bytes =
        (fs.insert_cost (fs.extents_needed num_bytes + fs.checksum_leaves num_bytes)
            + fs.update_cost 1,
          fs.extents_needed num_bytes * fs.nodesize)) := by
  constructor
  · intro fs num_bytes
    exact ⟨rfl, rfl⟩
  · intro fs num_bytes h1 h2 h3 h4
    have h5 : fs.checksum_leaves num_bytes < U64_MOD := by omega
    have h6 : fs.insert_cost (fs.extents_needed num_bytes + fs.checksum_leaves num_bytes)
        < U64_MOD := by omega
    have h7 : fs.update_cost 1 < U64_MOD := by omega
    simp only [calc_inode_reservations, count_max_extents, btrfs_csum_bytes_to_leaves,
      btrfs_calc_insert_metadata_size, btrfs_calc_metadata_size, add64, mul64,
      Nat.mod_eq_of_lt h1, Nat.mod_eq_of_lt h2, Nat.mod_eq_of_lt h3, Nat.mod_eq_of_lt h4,
      Nat.mod_eq_of_lt h5, Nat.mod_eq_of_lt h6, Nat.mod_eq_of_lt h7]

/-- At the scenario geometry, 200 MiB need 2 extents and 13 checksum leaves:
`meta_reserve` is 15 inserts and one update, 4063232 bytes, and
`quota_reserve` is two nodes, 32768 bytes. -/
theorem calc_inode_reservations_formula_witness :
    calc_inode_reservations scenario_fs (200 * 1024 * 1024) = (4063232, 32768) := by
  have h := calc_inode_reservations_formula.2 scenario_fs (200 * 1024 * 1024)
    (by decide) (by decide) (by decide) (by decide)
  rw [h]
  decide

/-! ## C9: alignment of a data range -/

/-- C9, as stated for every 64-bit `start` and `len`, fails when the round-up
wraps: at sector size 4096 the range `(0, 2^64 - 1)`, whose end `2^64 - 1`
still fits in 64 bits, gets the aligned start 0 and the aligned length 0, so
the aligned range does not cover it (neither as integers nor in 64-bit
arithmetic). -/
theorem alignment_fails_on_wrap :
    scenario_fs.sectorsize = 2 ^ 12
      ∧ round_down 0 scenario_fs.sectorsize = 0
      ∧ aligned_len scenario_fs 0 (2 ^ 64 - 1) = 0
      ∧ ¬ (0 + (2 ^ 64 - 1) ≤
          round_down 0 scenario_fs.sectorsize + aligned_len scenario_fs 0 (2 ^ 64 - 1))
      ∧ ¬ (add64 0 (2 ^ 64 - 1) ≤
          add64 (round_down 0 scenario_fs.sectorsize) (aligned_len scenario_fs 0 (2 ^ 64 - 1))) := by
  decide

theorem round_down_le (x y : Nat) : round_down x y ≤ x :=
  Nat.div_mul_le_self x y

theorem lt_round_down_add {x y : Nat} (hy : 0 < y) : x < round_down x y + y :=
  Nat.lt_div_mul_add hy

/-- Without wrap-around the aligned length is the distance from the start
rounded down to the end rounded up. -/
theorem aligned_len_bounds {fs : btrfs_fs_info} (hS : 0 < fs.sectorsize) {start len : Nat}
    (hfit : start + len + fs.sectorsize ≤ U64_MOD) :
    start + len ≤ round_down start fs.sectorsize + aligned_len fs start len
      ∧ round_down start fs.sectorsize + aligned_len fs start len
          < start + len + fs.sectorsize := by
  have hD := round_down_le start fs.sectorsize
  have hR1 : (start + len + fs.sectorsize - 1) / fs.sectorsize * fs.sectorsize
      ≤ start + len + fs.sectorsize - 1 := Nat.div_mul_le_self _ _
  have hR2 : start + len + fs.sectorsize - 1
      < (start + len + fs.sectorsize - 1) / fs.sectorsize * fs.sectorsize + fs.sectorsize :=
    Nat.lt_div_mul_add hS
  have hsum : add64 start len = start + len := by
    unfold add64
    exact Nat.mod_eq_of_lt (by omega)
  unfold aligned_len sub64 round_up
  rw [hsum]
  unfold round_down U64_MOD at *
  omega

/-- C9 (amended): alignment of a data range whose rounded-up end fits in 64
bits. For a power-of-two sector size `S` and `start + len <= 2^64 - S`, the
aligned range computed by `btrfs_check_data_free_space` and
`btrfs_free_reserved_data_space`, `start' = round_down(start, S)` and `len' =
round_up(start + len, S) - round_down(start, S)`, satisfies `start' <= start`,
`start' + len' >= start + len`, `len'` is a multiple of `S`, `start - start' <
S` and `(start' + len') - (start + len) < S`. -/
theorem alignment_covers_minimally (fs : btrfs_fs_info) (start len : Nat)
    (hS : sector_pow2 fs) (hfit : start + len + fs.sectorsize ≤ U64_MOD) :
    round_down start fs.sectorsize ≤ start
      ∧ start + len ≤ round_down start fs.sectorsize + aligned_len fs start len
      ∧ fs.sectorsize ∣ aligned_len fs start len
      ∧ start - round_down start fs.sectorsize < fs.sectorsize
      ∧ (round_down start fs.sectorsize + aligned_len fs start len) - (start + len)
          < fs.sectorsize := by
  have hpos := sector_pow2_pos hS
  have hb := aligned_len_bounds hpos hfit
  have h1 := round_down_le start fs.sectorsize
  have h2 := @lt_round_down_add start fs.sectorsize hpos
  refine ⟨h1, hb.1, aligned_len_dvd hS start len, ?_, ?_⟩
  · omega
  · omega

/-- The range `(4095, 2)` at sector size 4096 straddles a sector boundary:
it is aligned to start 0 and length 8192, one byte short of a full sector of
slack on each side. -/
theorem alignment_covers_minimally_witness :
    sector_pow2 scenario_fs
      ∧ 4095 + 2 + scenario_fs.sectorsize ≤ U64_MOD
      ∧ round_down 4095 scenario_fs.sectorsize = 0
      ∧ aligned_len scenario_fs 4095 2 = 8192
      ∧ 4095 - round_down 4095 scenario_fs.sectorsize < scenario_fs.sectorsize
      ∧ (round_down 4095 scenario_fs.sectorsize + aligned_len scenario_fs 4095 2) - (4095 + 2)
          < scenario_fs.sectorsize := by
  have hS : sector_pow2 scenario_fs := ⟨12, by decide, rfl⟩
  have h := alignment_covers_minimally scenario_fs 4095 2 hS (by decide)
  exact ⟨hS, by decide, by decide, by decide, h.2.2.2.1, h.2.2.2.2⟩

/-! ## C10: releasing metadata only ever lowers what is held -/

/-- The metadata pool after `btrfs_delalloc_release_metadata` outside test
mode: the excess of what was held over the new target goes back to it. -/
theorem release_metadata_pool (fs : btrfs_fs_info) (w : World) (n : Nat) (q : Bool)
    (hT : fs.testing = false) :
    (btrfs_delalloc_release_metadata fs w n q).meta_bytes_may_use =
      w.meta_bytes_may_use - (w.inode.block_rsv.reserved
        - spec_target_size fs w.inode.outstanding_extents
            (sub64 w.inode.csum_bytes (ALIGN n fs.sectorsize))) := by
  simp only [btrfs_delalloc_release_metadata, hT, calculate_inode_block_rsv_size_eq,
    btrfs_inode_rsv_release, btrfs_block_rsv_release, btrfs_qgroup_free_meta_prealloc,
    btrfs_qgroup_convert_reserved_meta]
  cases q <;> simp

/-- C10: monotonic excess release. Outside test mode, for every world, byte
count and `qgroup_free`, after `btrfs_delalloc_release_metadata` the stored
`target_size` is the one freshly recomputed from the decremented `csum_bytes`,
`rsv.held` is at most that target, `rsv.held` equals its value before the
call whenever that value did not exceed the new target (the excess was zero),
`rsv.held` never increases, and the bytes taken from `rsv.held` are exactly
the excess, returned to the metadata pool. -/
theorem release_metadata_monotonic (fs : btrfs_fs_info) (w : World) (num_bytes : Nat)
    (qgroup_free : Bool) (hT : fs.testing = false) :
    (btrfs_delalloc_release_metadata fs w num_bytes qgroup_free).inode.block_rsv.size =
        spec_target_size fs w.inode.outstanding_extents
          (sub64 w.inode.csum_bytes (ALIGN num_bytes fs.sectorsize))
      ∧ ((btrfs_delalloc_release_metadata fs w num_bytes qgroup_free).inode.block_rsv.reserved
            ≤ (btrfs_delalloc_release_metadata fs w num_bytes qgroup_free).inode.block_rsv.size
          ∨ (btrfs_delalloc_release_metadata fs w num_bytes qgroup_free).inode.block_rsv.reserved
            = w.inode.block_rsv.reserved)
      ∧ (btrfs_delalloc_release_metadata fs w num_bytes qgroup_free).inode.block_rsv.reserved
          ≤ (btrfs_delalloc_release_metadata fs w num_bytes qgroup_free).inode.block_rsv.size
      ∧ (w.inode.block_rsv.reserved
            ≤ (btrfs_delalloc_release_metadata fs w num_bytes qgroup_free).inode.block_rsv.size →
          (btrfs_delalloc_release_metadata fs w num_bytes qgroup_free).inode.block_rsv.reserved
            = w.inode.block_rsv.reserved)
      ∧ (btrfs_delalloc_release_metadata fs w num_bytes qgroup_free).inode.block_rsv.reserved
          ≤ w.inode.block_rsv.reserved
      ∧ (btrfs_delalloc_release_metadata fs w num_bytes qgroup_free).meta_bytes_may_use =
          w.meta_bytes_may_use - (w.inode.block_rsv.reserved
            - (btrfs_delalloc_release_metadata fs w num_bytes qgroup_free).inode.block_rsv.size)
      ∧ (btrfs_delalloc_release_metadata fs w num_bytes qgroup_free).inode.block_rsv.reserved =
          w.inode.block_rsv.reserved - (w.inode.block_rsv.reserved
            - (btrfs_delalloc_release_metadata fs w num_bytes qgroup_free).inode.block_rsv.size) := by
  have hp := release_metadata_pool fs w num_bytes qgroup_free hT
  have hi := release_metadata_inode fs w num_bytes qgroup_free hT
  refine ⟨by rw [hi], Or.inl ?_, ?_, ?_, ?_, ?_, ?_⟩
  · rw [hi]; exact Nat.min_le_right _ _
  · rw [hi]; exact Nat.min_le_right _ _
  · rw [hi]; intro h; exact Nat.min_eq_left h
  · rw [hi]; exact Nat.min_le_left _ _
  · rw [hp, hi]
  · rw [hi]; dsimp only; omega

/-- Releasing the 1-byte reservation of scenario A: the target drops from
655360 to 393216 (one checksum leaf less) and so does what is held, 262144
bytes going back to the pool; releasing nothing more afterwards finds no
excess and leaves 393216 held. -/
theorem release_metadata_monotonic_witness :
    scenario_fs.testing = false
      ∧ (btrfs_delalloc_reserve_metadata scenario_fs always_ok fresh_world 1).2.inode.block_rsv.reserved
          = 655360
      ∧ (btrfs_delalloc_release_metadata scenario_fs
          (btrfs_delalloc_reserve_metadata scenario_fs always_ok fresh_world 1).2 1
            false).inode.block_rsv.size = 393216
      ∧ (btrfs_delalloc_release_metadata scenario_fs
          (btrfs_delalloc_reserve_metadata scenario_fs always_ok fresh_world 1).2 1
            false).inode.block_rsv.reserved = 393216
      ∧ (btrfs_delalloc_release_metadata scenario_fs
          (btrfs_delalloc_release_metadata scenario_fs
            (btrfs_delalloc_reserve_metadata scenario_fs always_ok fresh_world 1).2 1 false)
          0 false).inode.block_rsv.reserved = 393216 := by
  have h1 := release_metadata_monotonic scenario_fs
    (btrfs_delalloc_reserve_metadata scenario_fs always_ok fresh_world 1).2 1 false rfl
  have h2 := release_metadata_monotonic scenario_fs
    (btrfs_delalloc_release_metadata scenario_fs
      (btrfs_delalloc_reserve_metadata scenario_fs always_ok fresh_world 1).2 1 false)
    0 false rfl
  refine ⟨rfl, by decide, by rw [h1.1]; decide, ?_, ?_⟩
  · rw [h1.2.2.2.2.2.2]; decide
  · rw [h2.2.2.2.1 (by decide)]; decide

/-! ## C11: the quota amount is freed or converted -/

theorem release_metadata_counted_inode (fs : btrfs_fs_info) (w : World) (n : Nat) :
    (release_metadata_counted fs w n).inode =
      { w.inode with
        csum_bytes := sub64 w.inode.csum_bytes (ALIGN n fs.sectorsize)
        block_rsv := { w.inode.block_rsv with
          size := spec_target_size fs w.inode.outstanding_extents
            (sub64 w.inode.csum_bytes (ALIGN n fs.sectorsize))
          qgroup_rsv_size := spec_quota_target fs w.inode.outstanding_extents } } := by
  simp [release_metadata_counted, calculate_inode_block_rsv_size_eq]

/-- The function `btrfs_delalloc_release_metadata` in test mode stops at the
counted world. -/
theorem release_metadata_testing (fs : btrfs_fs_info) (w : World) (n : Nat) (q : Bool)
    (hT : fs.testing = true) :
    btrfs_delalloc_release_metadata fs w n q = release_metadata_counted fs w n := by
  simp [btrfs_delalloc_release_metadata, release_metadata_counted, hT]

/-- The ledger after `btrfs_delalloc_release_metadata` outside test mode. -/
theorem release_metadata_ledger (fs : btrfs_fs_info) (w : World) (n : Nat) (q : Bool)
    (hT : fs.testing = false) :
    (btrfs_delalloc_release_metadata fs w n q).qgroup_meta_prealloc =
        w.qgroup_meta_prealloc
          - quota_excess fs w.inode.block_rsv.qgroup_rsv_reserved w.inode.outstanding_extents
      ∧ (btrfs_delalloc_release_metadata fs w n q).qgroup_meta_pertrans =
        (if q then w.qgroup_meta_pertrans
         else w.qgroup_meta_pertrans
          + quota_excess fs w.inode.block_rsv.qgroup_rsv_reserved w.inode.outstanding_extents)
      ∧ (btrfs_delalloc_release_metadata fs w n q).qgroup_data_rsv = w.qgroup_data_rsv
      ∧ (btrfs_delalloc_release_metadata fs w n q).data_bytes_may_use =
        w.data_bytes_may_use := by
  simp only [btrfs_delalloc_release_metadata, hT, calculate_inode_block_rsv_size_eq,
    btrfs_inode_rsv_release, btrfs_block_rsv_release, btrfs_qgroup_free_meta_prealloc,
    btrfs_qgroup_convert_reserved_meta, quota_excess]
  cases q <;> simp

/-- The ledger calls of `btrfs_delalloc_release_metadata` outside test mode. -/
theorem release_metadata_calls_eq (fs : btrfs_fs_info) (w : World) (n : Nat) (q : Bool)
    (hT : fs.testing = false) :
    btrfs_delalloc_release_metadata_calls fs w n q =
      [if q then
        LedgerCall.free_meta_prealloc
          (quota_excess fs w.inode.block_rsv.qgroup_rsv_reserved w.inode.outstanding_extents)
       else
        LedgerCall.convert_reserved_meta
          (quota_excess fs w.inode.block_rsv.qgroup_rsv_reserved
            w.inode.outstanding_extents)] := by
  simp only [btrfs_delalloc_release_metadata_calls, hT, calculate_inode_block_rsv_size_eq,
    btrfs_inode_rsv_release_calls, btrfs_block_rsv_release, quota_excess]
  cases q <;> simp

/-- The world after `btrfs_delalloc_release_metadata` is the world after the
excess release with the recorded ledger calls applied to it. -/
theorem release_metadata_calls_effect (fs : btrfs_fs_info) (w : World) (n : Nat) (q : Bool)
    (hT : fs.testing = false) :
    btrfs_delalloc_release_metadata fs w n q =
      (btrfs_delalloc_release_metadata_calls fs w n q).foldl LedgerCall.effect
        (btrfs_block_rsv_release (release_metadata_counted fs w n)).2.2 := by
  simp only [btrfs_delalloc_release_metadata, btrfs_delalloc_release_metadata_calls, hT,
    btrfs_inode_rsv_release, btrfs_inode_rsv_release_calls, release_metadata_counted]
  cases q <;> simp [LedgerCall.effect]

/-- C11, as stated for every file state, fails in test mode: on a file whose
`rsv.quota_held` (16384) exceeds its recalculated quota target (0),
`btrfs_delalloc_release_metadata` invokes neither ledger operation, whatever
`qgroup_free` is, and the ledger's prealloc total (16384) and per-transaction
total (0) stay as they were; outside test mode the same call converts the
16384 bytes. -/
theorem quota_release_skipped_in_test_mode :
    scenario_fs_testing.testing = true
      ∧ testing_leftover.inode.block_rsv.qgroup_rsv_reserved = 16384
      ∧ (release_metadata_counted scenario_fs_testing testing_leftover
          1).inode.block_rsv.qgroup_rsv_size = 0
      ∧ btrfs_delalloc_release_metadata_calls scenario_fs_testing testing_leftover 1 false = []
      ∧ btrfs_delalloc_release_metadata_calls scenario_fs_testing testing_leftover 1 true = []
      ∧ ¬ (btrfs_delalloc_release_metadata_calls scenario_fs_testing testing_leftover 1
            false).length = 1
      ∧ testing_leftover.qgroup_meta_prealloc = 16384
      ∧ (btrfs_delalloc_release_metadata scenario_fs_testing testing_leftover 1
          false).qgroup_meta_prealloc = 16384
      ∧ (btrfs_delalloc_release_metadata scenario_fs_testing testing_leftover 1
          false).qgroup_meta_pertrans = 0
      ∧ btrfs_delalloc_release_metadata_calls scenario_fs testing_leftover 1 false =
          [LedgerCall.convert_reserved_meta 16384] := by
  decide

/-- C11 (amended): quota free-versus-convert in
`btrfs_delalloc_release_metadata` outside test mode. With `X` the excess of
`rsv.quota_held` over the recalculated quota target (the amount released from
`rsv.quota_held` together with the excess), the call with `qgroup_free =
false` invokes exactly the convert operation with `X`, lowering the ledger's
prealloc total by `X` and raising its per-transaction total by `X`; the call
with `qgroup_free = true` invokes exactly the free operation with `X`,
lowering the prealloc total by `X` and leaving the per-transaction total
unchanged. The ledger floors its totals at zero, so the prealloc total drops
by exactly `X` whenever it holds at least `X`. -/
theorem quota_free_versus_convert (fs : btrfs_fs_info) (w : World) (num_bytes : Nat)
    (hT : fs.testing = false) :
    btrfs_delalloc_release_metadata_calls fs w num_bytes false =
        [LedgerCall.convert_reserved_meta
          (quota_excess fs w.inode.block_rsv.qgroup_rsv_reserved w.inode.outstanding_extents)]
      ∧ btrfs_delalloc_release_metadata_calls fs w num_bytes true =
        [LedgerCall.free_meta_prealloc
          (quota_excess fs w.inode.block_rsv.qgroup_rsv_reserved w.inode.outstanding_extents)]
      ∧ (∀ q : Bool,
          btrfs_delalloc_release_metadata fs w num_bytes q =
            (btrfs_delalloc_release_metadata_calls fs w num_bytes q).foldl LedgerCall.effect
              (btrfs_block_rsv_release (release_metadata_counted fs w num_bytes)).2.2
          ∧ (btrfs_block_rsv_release (release_metadata_counted fs w num_bytes)).2.1 =
            quota_excess fs w.inode.block_rsv.qgroup_rsv_reserved w.inode.outstanding_extents
          ∧ (btrfs_delalloc_release_metadata fs w num_bytes q).inode.block_rsv.qgroup_rsv_reserved
            = w.inode.block_rsv.qgroup_rsv_reserved
              - quota_excess fs w.inode.block_rsv.qgroup_rsv_reserved
                  w.inode.outstanding_extents)
      ∧ (btrfs_delalloc_release_metadata fs w num_bytes false).qgroup_meta_prealloc =
        w.qgroup_meta_prealloc
          - quota_excess fs w.inode.block_rsv.qgroup_rsv_reserved w.inode.outstanding_extents
      ∧ (btrfs_delalloc_release_metadata fs w num_bytes false).qgroup_meta_pertrans =
        w.qgroup_meta_pertrans
          + quota_excess fs w.inode.block_rsv.qgroup_rsv_reserved w.inode.outstanding_extents
      ∧ (btrfs_delalloc_release_metadata fs w num_bytes true).qgroup_meta_prealloc =
        w.qgroup_meta_prealloc
          - quota_excess fs w.inode.block_rsv.qgroup_rsv_reserved w.inode.outstanding_extents
      ∧ (btrfs_delalloc_release_metadata fs w num_bytes true).qgroup_meta_pertrans =
        w.qgroup_meta_pertrans
      ∧ (quota_excess fs w.inode.block_rsv.qgroup_rsv_reserved w.inode.outstanding_extents
            ≤ w.qgroup_meta_prealloc →
          (btrfs_delalloc_release_metadata fs w num_bytes false).qgroup_meta_prealloc
              + quota_excess fs w.inode.block_rsv.qgroup_rsv_reserved
                  w.inode.outstanding_extents = w.qgroup_meta_prealloc
            ∧ (btrfs_delalloc_release_metadata fs w num_bytes true).qgroup_meta_prealloc
              + quota_excess fs w.inode.block_rsv.qgroup_rsv_reserved
                  w.inode.outstanding_extents = w.qgroup_meta_prealloc) := by
  have hf := release_metadata_ledger fs w num_bytes false hT
  have ht := release_metadata_ledger fs w num_bytes true hT
  refine ⟨release_metadata_calls_eq fs w num_bytes false hT,
    release_metadata_calls_eq fs w num_bytes true hT, ?_, hf.1, by simpa using hf.2.1,
    ht.1, by simpa using ht.2.1, ?_⟩
  · intro q
    refine ⟨release_metadata_calls_effect fs w num_bytes q hT, ?_, ?_⟩
    · simp [btrfs_block_rsv_release, release_metadata_counted_inode, quota_excess]
    · rw [release_metadata_inode fs w num_bytes q hT]
      simp only [quota_excess]
      omega
  · intro hle
    rw [hf.1, ht.1]
    omega

/-- Scenario D outside test mode, on the file left over with 16384 bytes of
quota held against a quota target of 0: `qgroup_free = false` converts them
(prealloc 16384 to 0, per-transaction 0 to 16384), `qgroup_free = true` frees
them (prealloc to 0, per-transaction stays 0). -/
theorem quota_free_versus_convert_witness :
    scenario_fs.testing = false
      ∧ testing_leftover.qgroup_meta_prealloc = 16384
      ∧ testing_leftover.qgroup_meta_pertrans = 0
      ∧ btrfs_delalloc_release_metadata_calls scenario_fs testing_leftover 1 false =
          [LedgerCall.convert_reserved_meta 16384]
      ∧ (btrfs_delalloc_release_metadata scenario_fs testing_leftover 1
          false).qgroup_meta_prealloc = 0
      ∧ (btrfs_delalloc_release_metadata scenario_fs testing_leftover 1
          false).qgroup_meta_pertrans = 16384
      ∧ (btrfs_delalloc_release_metadata scenario_fs testing_leftover 1
          true).qgroup_meta_prealloc = 0
      ∧ (btrfs_delalloc_release_metadata scenario_fs testing_leftover 1
          true).qgroup_meta_pertrans = 0 := by
  have h := quota_free_versus_convert scenario_fs testing_leftover 1 rfl
  refine ⟨rfl, by decide, by decide, ?_, ?_, ?_, ?_, ?_⟩
  · rw [h.1]; decide
  · rw [h.2.2.2.1]; decide
  · rw [h.2.2.2.2.1]; decide
  · rw [h.2.2.2.2.2.1]; decide
  · rw [h.2.2.2.2.2.2.1]; decide

/-! ## C12: releasing extents -/

theorem add32_sub32_zero (a b : Nat) : add32 a (sub32 0 b) = sub32 a b := by
  unfold add32 sub32 U32_MOD
  omega

theorem sub32_of_le {a b : Nat} (hb : b ≤ a) (ha : a < U32_MOD) : sub32 a b = a - b := by
  unfold sub32 U32_MOD at *
  omega

theorem sub64_of_le {a b : Nat} (hb : b ≤ a) (ha : a < U64_MOD) : sub64 a b = a - b := by
  unfold sub64 U64_MOD at *
  omega

theorem sub64_of_lt {a b : Nat} (hb : a < b) (hlt : b < U64_MOD) :
    sub64 a b = a + U64_MOD - b := by
  unfold sub64 U64_MOD at *
  omega

theorem release_extents_counted_inode (fs : btrfs_fs_info) (w : World) (n : Nat) :
    (release_extents_counted fs w n).inode =
      { w.inode with
        outstanding_extents := sub32 w.inode.outstanding_extents (count_max_extents fs n)
        block_rsv := { w.inode.block_rsv with
          size := spec_target_size fs
            (sub32 w.inode.outstanding_extents (count_max_extents fs n)) w.inode.csum_bytes
          qgroup_rsv_size := spec_quota_target fs
            (sub32 w.inode.outstanding_extents (count_max_extents fs n)) } } := by
  simp [release_extents_counted, calculate_inode_block_rsv_size_eq,
    btrfs_mod_outstanding_extents, add32_sub32_zero]

/-- The function `btrfs_delalloc_release_extents` in test mode stops at the
counted world. -/
theorem release_extents_testing (fs : btrfs_fs_info) (w : World) (n : Nat)
    (hT : fs.testing = true) :
    btrfs_delalloc_release_extents fs w n = release_extents_counted fs w n := by
  simp [btrfs_delalloc_release_extents, release_extents_counted, hT]

/-- The pools and the ledger after `btrfs_delalloc_release_extents` outside
test mode. -/
theorem release_extents_pools (fs : btrfs_fs_info) (w : World) (n : Nat)
    (hT : fs.testing = false) :
    (btrfs_delalloc_release_extents fs w n).meta_bytes_may_use =
        w.meta_bytes_may_use - (w.inode.block_rsv.reserved
          - spec_target_size fs (sub32 w.inode.outstanding_extents (count_max_extents fs n))
              w.inode.csum_bytes)
      ∧ (btrfs_delalloc_release_extents fs w n).qgroup_meta_prealloc =
        w.qgroup_meta_prealloc
          - quota_excess fs w.inode.block_rsv.qgroup_rsv_reserved
              (sub32 w.inode.outstanding_extents (count_max_extents fs n))
      ∧ (btrfs_delalloc_release_extents fs w n).qgroup_meta_pertrans = w.qgroup_meta_pertrans
      ∧ (btrfs_delalloc_release_extents fs w n).qgroup_data_rsv = w.qgroup_data_rsv
      ∧ (btrfs_delalloc_release_extents fs w n).data_bytes_may_use = w.data_bytes_may_use := by
  simp [btrfs_delalloc_release_extents, hT, calculate_inode_block_rsv_size_eq,
    btrfs_inode_rsv_release, btrfs_block_rsv_release, btrfs_qgroup_free_meta_prealloc,
    btrfs_mod_outstanding_extents, quota_excess, add32_sub32_zero]

/-- The ledger calls of `btrfs_delalloc_release_extents` outside test mode. -/
theorem release_extents_calls_eq (fs : btrfs_fs_info) (w : World) (n : Nat)
    (hT : fs.testing = false) :
    btrfs_delalloc_release_extents_calls fs w n =
      [LedgerCall.free_meta_prealloc
        (quota_excess fs w.inode.block_rsv.qgroup_rsv_reserved
          (sub32 w.inode.outstanding_extents (count_max_extents fs n)))] := by
  simp [btrfs_delalloc_release_extents_calls, hT, calculate_inode_block_rsv_size_eq,
    btrfs_inode_rsv_release_calls, btrfs_block_rsv_release, quota_excess,
    btrfs_mod_outstanding_extents, add32_sub32_zero]

/-- The world after `btrfs_delalloc_release_extents` is the world after the
excess release with the recorded ledger calls applied to it. -/
theorem release_extents_calls_effect (fs : btrfs_fs_info) (w : World) (n : Nat)
    (hT : fs.testing = false) :
    btrfs_delalloc_release_extents fs w n =
      (btrfs_delalloc_release_extents_calls fs w n).foldl LedgerCall.effect
        (btrfs_block_rsv_release (release_extents_counted fs w n)).2.2 := by
  simp [btrfs_delalloc_release_extents, btrfs_delalloc_release_extents_calls, hT,
    btrfs_inode_rsv_release, btrfs_inode_rsv_release_calls, release_extents_counted,
    LedgerCall.effect]

/-- C12, as stated for every file state, fails in test mode: after a 1-byte
reservation, `btrfs_delalloc_release_extents(1)` lowers `outstanding_extents`
from 1 to 0 and recalculates the target to 262144, but `rsv.held` stays at
655360, above the new target; no ledger operation is invoked and the 16384
bytes of quota held above the new quota target of 0 are not freed. -/
theorem release_extents_keeps_excess_in_test_mode :
    scenario_fs_testing.testing = true
      ∧ (btrfs_delalloc_reserve_metadata scenario_fs_testing always_ok fresh_world
          1).2.inode.outstanding_extents = 1
      ∧ (btrfs_delalloc_release_extents scenario_fs_testing
          (btrfs_delalloc_reserve_metadata scenario_fs_testing always_ok fresh_world 1).2
          1).inode.outstanding_extents = 0
      ∧ (btrfs_delalloc_release_extents scenario_fs_testing
          (btrfs_delalloc_reserve_metadata scenario_fs_testing always_ok fresh_world 1).2
          1).inode.block_rsv.size = 262144
      ∧ (btrfs_delalloc_release_extents scenario_fs_testing
          (btrfs_delalloc_reserve_metadata scenario_fs_testing always_ok fresh_world 1).2
          1).inode.block_rsv.reserved = 655360
      ∧ ¬ ((btrfs_delalloc_release_extents scenario_fs_testing
          (btrfs_delalloc_reserve_metadata scenario_fs_testing always_ok fresh_world 1).2
          1).inode.block_rsv.reserved
        ≤ (btrfs_delalloc_release_extents scenario_fs_testing
          (btrfs_delalloc_reserve_metadata scenario_fs_testing always_ok fresh_world 1).2
          1).inode.block_rsv.size)
      ∧ btrfs_delalloc_release_extents_calls scenario_fs_testing
          (btrfs_delalloc_reserve_metadata scenario_fs_testing always_ok fresh_world 1).2 1 = []
      ∧ (btrfs_delalloc_release_extents scenario_fs_testing
          (btrfs_delalloc_reserve_metadata scenario_fs_testing always_ok fresh_world 1).2
          1).inode.block_rsv.qgroup_rsv_size = 0
      ∧ (btrfs_delalloc_release_extents scenario_fs_testing
          (btrfs_delalloc_reserve_metadata scenario_fs_testing always_ok fresh_world 1).2
          1).inode.block_rsv.qgroup_rsv_reserved = 16384
      ∧ (btrfs_delalloc_release_extents scenario_fs_testing
          (btrfs_delalloc_reserve_metadata scenario_fs_testing always_ok fresh_world 1).2
          1).qgroup_meta_prealloc = 16384 := by
  decide

/-- C12 (amended): `btrfs_delalloc_release_extents` outside test mode. The
call lowers `outstanding_extents` by `count_max_extents(num_bytes)` (as an
`unsigned`; by plain subtraction when the count does not exceed it), leaves
`csum_bytes` unchanged, stores the `target_size` and `quota_target` of the new
counters, releases the excess of `rsv.held` over the new target to the
metadata pool, and always frees, never converts, the excess `X` of
`rsv.quota_held` over the new quota target: the free operation is the only
ledger call, the prealloc total drops by `X` and the per-transaction total is
unchanged. -/
theorem release_extents_frees (fs : btrfs_fs_info) (w : World) (num_bytes : Nat)
    (hT : fs.testing = false) :
    (btrfs_delalloc_release_extents fs w num_bytes).inode.outstanding_extents =
        sub32 w.inode.outstanding_extents (count_max_extents fs num_bytes)
      ∧ (count_max_extents fs num_bytes ≤ w.inode.outstanding_extents →
          w.inode.outstanding_extents < U32_MOD →
          (btrfs_delalloc_release_extents fs w num_bytes).inode.outstanding_extents =
            w.inode.outstanding_extents - count_max_extents fs num_bytes)
      ∧ (btrfs_delalloc_release_extents fs w num_bytes).inode.csum_bytes = w.inode.csum_bytes
      ∧ (btrfs_delalloc_release_extents fs w num_bytes).inode.block_rsv.size =
        spec_target_size fs
          (btrfs_delalloc_release_extents fs w num_bytes).inode.outstanding_extents
          (btrfs_delalloc_release_extents fs w num_bytes).inode.csum_bytes
      ∧ (btrfs_delalloc_release_extents fs w num_bytes).inode.block_rsv.qgroup_rsv_size =
        spec_quota_target fs
          (btrfs_delalloc_release_extents fs w num_bytes).inode.outstanding_extents
      ∧ (btrfs_delalloc_release_extents fs w num_bytes).inode.block_rsv.reserved =
        min w.inode.block_rsv.reserved
          (btrfs_delalloc_release_extents fs w num_bytes).inode.block_rsv.size
      ∧ (btrfs_delalloc_release_extents fs w num_bytes).meta_bytes_may_use =
        w.meta_bytes_may_use - (w.inode.block_rsv.reserved
          - (btrfs_delalloc_release_extents fs w num_bytes).inode.block_rsv.size)
      ∧ (btrfs_delalloc_release_extents fs w num_bytes).inode.block_rsv.qgroup_rsv_reserved =
        w.inode.block_rsv.qgroup_rsv_reserved
          - quota_excess fs w.inode.block_rsv.qgroup_rsv_reserved
              (btrfs_delalloc_release_extents fs w num_bytes).inode.outstanding_extents
      ∧ btrfs_delalloc_release_extents_calls fs w num_bytes =
        [LedgerCall.free_meta_prealloc
          (quota_excess fs w.inode.block_rsv.qgroup_rsv_reserved
            (btrfs_delalloc_release_extents fs w num_bytes).inode.outstanding_extents)]
      ∧ (btrfs_delalloc_release_extents fs w num_bytes).qgroup_meta_prealloc =
        w.qgroup_meta_prealloc
          - quota_excess fs w.inode.block_rsv.qgroup_rsv_reserved
              (btrfs_delalloc_release_extents fs w num_bytes).inode.outstanding_extents
      ∧ (btrfs_delalloc_release_extents fs w num_bytes).qgroup_meta_pertrans =
        w.qgroup_meta_pertrans
      ∧ btrfs_delalloc_release_extents fs w num_bytes =
        (btrfs_delalloc_release_extents_calls fs w num_bytes).foldl LedgerCall.effect
          (btrfs_block_rsv_release (release_extents_counted fs w num_bytes)).2.2 := by
  have hi := release_extents_inode fs w num_bytes hT
  rw [add32_sub32_zero] at hi
  have hp := release_extents_pools fs w num_bytes hT
  have hc := release_extents_calls_eq fs w num_bytes hT
  refine ⟨by rw [hi], ?_, by rw [hi], by rw [hi], by rw [hi], by rw [hi], ?_, ?_, ?_, ?_,
    hp.2.2.1, release_extents_calls_effect fs w num_bytes hT⟩
  · intro hle hlt
    rw [hi]
    exact sub32_of_le hle hlt
  · rw [hp.1, hi]
  · rw [hi]
    simp only [quota_excess]
    omega
  · rw [hc, hi]
  · rw [hp.2.1, hi]

/-- Outside test mode the same call on the same file releases the excess:
`outstanding_extents` goes from 1 to 0, the target and what is held both
become 262144, and the 16384 bytes of quota prealloc are freed, not
converted. -/
theorem release_extents_frees_witness :
    scenario_fs.testing = false
      ∧ (btrfs_delalloc_release_extents scenario_fs
          (btrfs_delalloc_reserve_metadata scenario_fs always_ok fresh_world 1).2
          1).inode.outstanding_extents = 0
      ∧ (btrfs_delalloc_release_extents scenario_fs
          (btrfs_delalloc_reserve_metadata scenario_fs always_ok fresh_world 1).2
          1).inode.block_rsv.size = 262144
      ∧ (btrfs_delalloc_release_extents scenario_fs
          (btrfs_delalloc_reserve_metadata scenario_fs always_ok fresh_world 1).2
          1).inode.block_rsv.reserved = 262144
      ∧ btrfs_delalloc_release_extents_calls scenario_fs
          (btrfs_delalloc_reserve_metadata scenario_fs always_ok fresh_world 1).2 1 =
          [LedgerCall.free_meta_prealloc 16384]
      ∧ (btrfs_delalloc_release_extents scenario_fs
          (btrfs_delalloc_reserve_metadata scenario_fs always_ok fresh_world 1).2
          1).qgroup_meta_prealloc = 0
      ∧ (btrfs_delalloc_release_extents scenario_fs
          (btrfs_delalloc_reserve_metadata scenario_fs always_ok fresh_world 1).2
          1).qgroup_meta_pertrans = 0 := by
  have h := release_extents_frees scenario_fs
    (btrfs_delalloc_reserve_metadata scenario_fs always_ok fresh_world 1).2 1 rfl
  refine ⟨rfl, ?_, by decide, by decide, ?_, by decide, ?_⟩
  · rw [h.2.1 (by decide) (by decide)]; decide
  · rw [h.2.2.2.2.2.2.2.2.1]; decide
  · rw [h.2.2.2.2.2.2.2.2.2.2.1]; decide

/-! ## C13: the counter step of a metadata release and test mode -/

/-- The inode counters and targets after `btrfs_delalloc_release_metadata`,
in either mode. -/
theorem release_metadata_counters (fs : btrfs_fs_info) (w : World) (n : Nat) (q : Bool) :
    (btrfs_delalloc_release_metadata fs w n q).inode.csum_bytes =
        sub64 w.inode.csum_bytes (ALIGN n fs.sectorsize)
      ∧ (btrfs_delalloc_release_metadata fs w n q).inode.outstanding_extents =
        w.inode.outstanding_extents
      ∧ (btrfs_delalloc_release_metadata fs w n q).inode.block_rsv.size =
        spec_target_size fs w.inode.outstanding_extents
          (sub64 w.inode.csum_bytes (ALIGN n fs.sectorsize))
      ∧ (btrfs_delalloc_release_metadata fs w n q).inode.block_rsv.qgroup_rsv_size =
        spec_quota_target fs w.inode.outstanding_extents := by
  cases hT : fs.testing
  · rw [release_metadata_inode fs w n q hT]
    exact ⟨rfl, rfl, rfl, rfl⟩
  · rw [release_metadata_testing fs w n q hT, release_metadata_counted_inode]
    exact ⟨rfl, rfl, rfl, rfl⟩

/-- C13: the counter step of `btrfs_delalloc_release_metadata` and its
test-mode short-circuit. In either mode the call lowers `csum_bytes` by the
byte count rounded up to the sector size, without clamping (plain subtraction
when it fits, otherwise the difference wrapped around `2^64`), leaves
`outstanding_extents` unchanged and stores the `target_size` and
`quota_target` of the new counters. In test mode it does exactly this: the
result is the world with `csum_bytes` and the two targets replaced, so
`rsv.held`, `rsv.quota_held`, the metadata pool and the quota ledger are
unchanged, and no ledger operation is invoked. -/
theorem release_metadata_counter_step :
    (∀ (fs : btrfs_fs_info) (w : World) (num_bytes : Nat) (qgroup_free : Bool),
      (btrfs_delalloc_release_metadata fs w num_bytes qgroup_free).inode.csum_bytes =
          sub64 w.inode.csum_bytes (ALIGN num_bytes fs.sectorsize)
        ∧ (ALIGN num_bytes fs.sectorsize ≤ w.inode.csum_bytes →
            w.inode.csum_bytes < U64_MOD →
            (btrfs_delalloc_release_metadata fs w num_bytes qgroup_free).inode.csum_bytes =
              w.inode.csum_bytes - ALIGN num_bytes fs.sectorsize)
        ∧ (w.inode.csum_bytes < ALIGN num_bytes fs.sectorsize →
            (btrfs_delalloc_release_metadata fs w num_bytes qgroup_free).inode.csum_bytes =
              w.inode.csum_bytes + U64_MOD - ALIGN num_bytes fs.sectorsize)
        ∧ (btrfs_delalloc_release_metadata fs w num_bytes qgroup_free).inode.outstanding_extents
            = w.inode.outstanding_extents
        ∧ (btrfs_delalloc_release_metadata fs w num_bytes qgroup_free).inode.block_rsv.size =
          spec_target_size fs
            (btrfs_delalloc_release_metadata fs w num_bytes qgroup_free).inode.outstanding_extents
            (btrfs_delalloc_release_metadata fs w num_bytes qgroup_free).inode.csum_bytes
        ∧ (btrfs_delalloc_release_metadata fs w num_bytes qgroup_free).inode.block_rsv.qgroup_rsv_size
            = spec_quota_target fs
              (btrfs_delalloc_release_metadata fs w num_bytes
                qgroup_free).inode.outstanding_extents)
    ∧ (∀ (fs : btrfs_fs_info) (w : World) (num_bytes : Nat) (qgroup_free : Bool),
      fs.testing = true →
      btrfs_delalloc_release_metadata fs w num_bytes qgroup_free =
          { w with inode := { w.inode with
              csum_bytes := sub64 w.inode.csum_bytes (ALIGN num_bytes fs.sectorsize)
              block_rsv := { w.inode.block_rsv with
                size := spec_target_size fs w.inode.outstanding_extents
                  (sub64 w.inode.csum_bytes (ALIGN num_bytes fs.sectorsize))
                qgroup_rsv_size := spec_quota_target fs w.inode.outstanding_extents } } }
        ∧ (btrfs_delalloc_release_metadata fs w num_bytes qgroup_free).inode.block_rsv.reserved
            = w.inode.block_rsv.reserved
        ∧ (btrfs_delalloc_release_metadata fs w num_bytes
            qgroup_free).inode.block_rsv.qgroup_rsv_reserved
            = w.inode.block_rsv.qgroup_rsv_reserved
        ∧ (btrfs_delalloc_release_metadata fs w num_bytes qgroup_free).meta_bytes_may_use =
          w.meta_bytes_may_use
        ∧ (btrfs_delalloc_release_metadata fs w num_bytes qgroup_free).qgroup_meta_prealloc =
          w.qgroup_meta_prealloc
        ∧ (btrfs_delalloc_release_metadata fs w num_bytes qgroup_free).qgroup_meta_pertrans =
          w.qgroup_meta_pertrans
        ∧ (btrfs_delalloc_release_metadata fs w num_bytes qgroup_free).qgroup_data_rsv =
          w.qgroup_data_rsv
        ∧ btrfs_delalloc_release_metadata_calls fs w num_bytes qgroup_free = []) := by
  constructor
  · intro fs w n q
    have h := release_metadata_counters fs w n q
    refine ⟨h.1, ?_, ?_, h.2.1, ?_, ?_⟩
    · intro hle hlt
      rw [h.1]
      exact sub64_of_le hle hlt
    · intro hlt
      rw [h.1]
      exact sub64_of_lt hlt (ALIGN_lt _ _)
    · rw [h.2.2.1, h.2.1, h.1]
    · rw [h.2.2.2, h.2.1]
  · intro fs w n q hT
    have hw : btrfs_delalloc_release_metadata fs w n q =
        { w with inode := { w.inode with
            csum_bytes := sub64 w.inode.csum_bytes (ALIGN n fs.sectorsize)
            block_rsv := { w.inode.block_rsv with
              size := spec_target_size fs w.inode.outstanding_extents
                (sub64 w.inode.csum_bytes (ALIGN n fs.sectorsize))
              qgroup_rsv_size := spec_quota_target fs w.inode.outstanding_extents } } } := by
      rw [release_metadata_testing fs w n q hT]
      simp [release_metadata_counted, calculate_inode_block_rsv_size_eq]
    refine ⟨hw, by rw [hw], by rw [hw], by rw [hw], by rw [hw], by rw [hw], by rw [hw], ?_⟩
    simp [btrfs_delalloc_release_metadata_calls, hT]

/-- Releasing 1 byte from the test-mode file of scenario A takes the 4096
checksum bytes back to 0 (target 393216) and touches nothing else; releasing
1 byte more wraps `csum_bytes` around to `2^64 - 4096`. -/
theorem release_metadata_counter_step_witness :
    scenario_fs_testing.testing = true
      ∧ (btrfs_delalloc_release_metadata scenario_fs_testing
          (btrfs_delalloc_reserve_metadata scenario_fs_testing always_ok fresh_world 1).2
          1 false).inode.csum_bytes = 0
      ∧ (btrfs_delalloc_release_metadata scenario_fs_testing
          (btrfs_delalloc_reserve_metadata scenario_fs_testing always_ok fresh_world 1).2
          1 false).inode.block_rsv.size = 393216
      ∧ (btrfs_delalloc_release_metadata scenario_fs_testing
          (btrfs_delalloc_reserve_metadata scenario_fs_testing always_ok fresh_world 1).2
          1 false).inode.block_rsv.reserved = 655360
      ∧ (btrfs_delalloc_release_metadata scenario_fs_testing
          (btrfs_delalloc_reserve_metadata scenario_fs_testing always_ok fresh_world 1).2
          1 false).meta_bytes_may_use = 655360
      ∧ (btrfs_delalloc_release_metadata scenario_fs fresh_world 1 false).inode.csum_bytes =
          2 ^ 64 - 4096 := by
  have hg := release_metadata_counter_step.1 scenario_fs_testing
    (btrfs_delalloc_reserve_metadata scenario_fs_testing always_ok fresh_world 1).2 1 false
  have ht := release_metadata_counter_step.2 scenario_fs_testing
    (btrfs_delalloc_reserve_metadata scenario_fs_testing always_ok fresh_world 1).2 1 false rfl
  have hwrap := (release_metadata_counter_step.1 scenario_fs fresh_world 1 false).2.2.1
    (by decide)
  refine ⟨rfl, ?_, by decide, ?_, ?_, ?_⟩
  · rw [hg.2.1 (by decide) (by decide)]; decide
  · rw [ht.2.1]; decide
  · rw [ht.2.2.2.1]; decide
  · rw [hwrap]; decide

/-! ## C14: counters are committed before the reservation is topped up -/

/-- A call that returns 0 got 0 from both of its sub-reservations. -/
theorem reserve_metadata_ok_parts {fs : btrfs_fs_info} {c : Collaborators} {w : World}
    {n : Nat} (h : (btrfs_delalloc_reserve_metadata fs c w n).1 = 0) :
    (btrfs_qgroup_reserve_meta_prealloc c (reserve_metadata_yield w)
        (calc_inode_reservations fs (ALIGN n fs.sectorsize)).2).1 = 0
      ∧ (btrfs_reserve_metadata_bytes c
        (btrfs_qgroup_reserve_meta_prealloc c (reserve_metadata_yield w)
          (calc_inode_reservations fs (ALIGN n fs.sectorsize)).2).2
        (calc_inode_reservations fs (ALIGN n fs.sectorsize)).1
        (reserve_metadata_flush w)).1 = 0 := by
  revert h
  simp only [btrfs_delalloc_reserve_metadata]
  split_ifs with hp hm
  · intro h; exact absurd h hp
  · intro h; exact absurd h hm
  · intro _; exact ⟨not_not.mp hp, not_not.mp hm⟩

/-- The list of steps always ends with the world the call returns. -/
theorem reserve_metadata_steps_last (fs : btrfs_fs_info) (c : Collaborators) (w : World)
    (n : Nat) :
    (btrfs_delalloc_reserve_metadata_steps fs c w n).getLast? =
      some (btrfs_delalloc_reserve_metadata fs c w n).2 := by
  simp only [btrfs_delalloc_reserve_metadata_steps, btrfs_delalloc_reserve_metadata]
  split_ifs <;> simp

/-- The steps of a successful call. -/
theorem reserve_metadata_steps_ok {fs : btrfs_fs_info} {c : Collaborators} {w : World}
    {n : Nat} (h : (btrfs_delalloc_reserve_metadata fs c w n).1 = 0) :
    btrfs_delalloc_reserve_metadata_steps fs c w n =
      [w, reserve_metadata_yield w,
        { reserve_metadata_yield w with
          qgroup_meta_prealloc := (reserve_metadata_yield w).qgroup_meta_prealloc
            + (calc_inode_reservations fs (ALIGN n fs.sectorsize)).2 },
        { reserve_metadata_yield w with
          qgroup_meta_prealloc := (reserve_metadata_yield w).qgroup_meta_prealloc
            + (calc_inode_reservations fs (ALIGN n fs.sectorsize)).2
          meta_bytes_may_use := (reserve_metadata_yield w).meta_bytes_may_use
            + (calc_inode_reservations fs (ALIGN n fs.sectorsize)).1 },
        btrfs_mod_outstanding_extents
          { reserve_metadata_yield w with
            qgroup_meta_prealloc := (reserve_metadata_yield w).qgroup_meta_prealloc
              + (calc_inode_reservations fs (ALIGN n fs.sectorsize)).2
            meta_bytes_may_use := (reserve_metadata_yield w).meta_bytes_may_use
              + (calc_inode_reservations fs (ALIGN n fs.sectorsize)).1 }
          (count_max_extents fs (ALIGN n fs.sectorsize)),
        { reserve_metadata_yield w with
          qgroup_meta_prealloc := (reserve_metadata_yield w).qgroup_meta_prealloc
            + (calc_inode_reservations fs (ALIGN n fs.sectorsize)).2
          meta_bytes_may_use := (reserve_metadata_yield w).meta_bytes_may_use
            + (calc_inode_reservations fs (ALIGN n fs.sectorsize)).1
          inode := { w.inode with
            outstanding_extents := add32 w.inode.outstanding_extents
              (count_max_extents fs (ALIGN n fs.sectorsize))
            csum_bytes := add64 w.inode.csum_bytes (ALIGN n fs.sectorsize) } },
        { reserve_metadata_yield w with
          qgroup_meta_prealloc := (reserve_metadata_yield w).qgroup_meta_prealloc
            + (calc_inode_reservations fs (ALIGN n fs.sectorsize)).2
          meta_bytes_may_use := (reserve_metadata_yield w).meta_bytes_may_use
            + (calc_inode_reservations fs (ALIGN n fs.sectorsize)).1
          inode := { w.inode with
            outstanding_extents := add32 w.inode.outstanding_extents
              (count_max_extents fs (ALIGN n fs.sectorsize))
            csum_bytes := add64 w.inode.csum_bytes (ALIGN n fs.sectorsize)
            block_rsv := { w.inode.block_rsv with
              size := spec_target_size fs
                (add32 w.inode.outstanding_extents
                  (count_max_extents fs (ALIGN n fs.sectorsize)))
                (add64 w.inode.csum_bytes (ALIGN n fs.sectorsize))
              qgroup_rsv_size := spec_quota_target fs
                (add32 w.inode.outstanding_extents
                  (count_max_extents fs (ALIGN n fs.sectorsize))) } } },
        { reserve_metadata_yield w with
          qgroup_meta_prealloc := (reserve_metadata_yield w).qgroup_meta_prealloc
            + (calc_inode_reservations fs (ALIGN n fs.sectorsize)).2
          meta_bytes_may_use := (reserve_metadata_yield w).meta_bytes_may_use
            + (calc_inode_reservations fs (ALIGN n fs.sectorsize)).1
          inode := { w.inode with
            outstanding_extents := add32 w.inode.outstanding_extents
              (count_max_extents fs (ALIGN n fs.sectorsize))
            csum_bytes := add64 w.inode.csum_bytes (ALIGN n fs.sectorsize)
            block_rsv := { w.inode.block_rsv with
              size := spec_target_size fs
                (add32 w.inode.outstanding_extents
                  (count_max_extents fs (ALIGN n fs.sectorsize)))
                (add64 w.inode.csum_bytes (ALIGN n fs.sectorsize))
              qgroup_rsv_size := spec_quota_target fs
                (add32 w.inode.outstanding_extents
                  (count_max_extents fs (ALIGN n fs.sectorsize)))
              reserved := add64 w.inode.block_rsv.reserved
                (calc_inode_reservations fs (ALIGN n fs.sectorsize)).1 } } },
        (btrfs_delalloc_reserve_metadata fs c w n).2] := by
  obtain ⟨hp, hm⟩ := reserve_metadata_ok_parts h
  simp only [btrfs_delalloc_reserve_metadata_steps, btrfs_delalloc_reserve_metadata,
    if_neg (not_not.mpr hp), if_neg (not_not.mpr hm)]
  rw [reserve_metadata_bytes_ok hm, qgroup_reserve_meta_prealloc_ok hp]
  simp [calculate_inode_block_rsv_size_eq, btrfs_block_rsv_add_bytes,
    btrfs_mod_outstanding_extents, reserve_metadata_yield_inode]

/-- C14: counters-before-top-up ordering in `btrfs_delalloc_reserve_metadata`.
On the success path, listing the world after every statement of the call in
program order: in every listed world either `rsv.held` and `rsv.quota_held`
still have their values from before the call, or `outstanding_extents` and
`csum_bytes` are already raised and `target_size` and `quota_target` are
already those of the raised counters; so no intermediate world has the new
bytes in `rsv.held` while the counters or the targets are still the old ones.
The counters come strictly first: one listed world has the counters and
targets committed while nothing has been added to `rsv.held` or
`rsv.quota_held` yet. The list ends with the returned world, in which the
counters are committed and both held amounts are topped up. -/
theorem counters_before_top_up (fs : btrfs_fs_info) (c : Collaborators) (w : World)
    (num_bytes : Nat) (h : (btrfs_delalloc_reserve_metadata fs c w num_bytes).1 = 0) :
    (btrfs_delalloc_reserve_metadata_steps fs c w num_bytes).getLast? =
        some (btrfs_delalloc_reserve_metadata fs c w num_bytes).2
      ∧ (btrfs_delalloc_reserve_metadata_steps fs c w num_bytes).length = 9
      ∧ (∀ s ∈ btrfs_delalloc_reserve_metadata_steps fs c w num_bytes,
          held_as_before w s ∨ counters_committed fs w num_bytes s)
      ∧ (∃ s ∈ btrfs_delalloc_reserve_metadata_steps fs c w num_bytes,
          held_as_before w s ∧ counters_committed fs w num_bytes s)
      ∧ counters_committed fs w num_bytes (btrfs_delalloc_reserve_metadata fs c w num_bytes).2
      ∧ (btrfs_delalloc_reserve_metadata fs c w num_bytes).2.inode.block_rsv.reserved =
        add64 w.inode.block_rsv.reserved
          (calc_inode_reservations fs (ALIGN num_bytes fs.sectorsize)).1
      ∧ (btrfs_delalloc_reserve_metadata fs c w num_bytes).2.inode.block_rsv.qgroup_rsv_reserved
        = add64 w.inode.block_rsv.qgroup_rsv_reserved
            (calc_inode_reservations fs (ALIGN num_bytes fs.sectorsize)).2 := by
  have hi := reserve_metadata_ok_inode h
  have hfin : counters_committed fs w num_bytes
      (btrfs_delalloc_reserve_metadata fs c w num_bytes).2 := by
    unfold counters_committed
    rw [hi]
    exact ⟨rfl, rfl, rfl, rfl⟩
  refine ⟨reserve_metadata_steps_last fs c w num_bytes, ?_, ?_, ?_, hfin, by rw [hi],
    by rw [hi]⟩
  · rw [reserve_metadata_steps_ok h]
    rfl
  · rw [reserve_metadata_steps_ok h]
    intro s hs
    simp only [List.mem_cons, List.mem_singleton, List.not_mem_nil, or_false] at hs
    rcases hs with rfl | rfl | rfl | rfl | rfl | rfl | rfl | rfl | rfl
    · exact Or.inl ⟨rfl, rfl⟩
    · exact Or.inl ⟨by rw [reserve_metadata_yield_inode], by rw [reserve_metadata_yield_inode]⟩
    · exact Or.inl ⟨by simp only [reserve_metadata_yield_inode],
        by simp only [reserve_metadata_yield_inode]⟩
    · exact Or.inl ⟨by simp only [reserve_metadata_yield_inode],
        by simp only [reserve_metadata_yield_inode]⟩
    · exact Or.inl ⟨by simp only [btrfs_mod_outstanding_extents, reserve_metadata_yield_inode],
        by simp only [btrfs_mod_outstanding_extents, reserve_metadata_yield_inode]⟩
    · exact Or.inl ⟨rfl, rfl⟩
    · exact Or.inl ⟨rfl, rfl⟩
    · exact Or.inr ⟨rfl, rfl, rfl, rfl⟩
    · exact Or.inr hfin
  · rw [reserve_metadata_steps_ok h]
    refine ⟨_, List.mem_cons_of_mem _ (List.mem_cons_of_mem _ (List.mem_cons_of_mem _
      (List.mem_cons_of_mem _ (List.mem_cons_of_mem _ (List.mem_cons_of_mem _
        (List.mem_cons_self _ _)))))), ⟨rfl, rfl⟩, ⟨rfl, rfl, rfl, rfl⟩⟩

/-- The nine steps of scenario A, as `(outstanding_extents, csum_bytes,
target_size, held)`: the counters and the target are committed in steps five
to seven while `rsv.held` is still 0, and only then are the 655360 bytes
added. -/
theorem counters_before_top_up_witness :
    (btrfs_delalloc_reserve_metadata scenario_fs always_ok fresh_world 1).1 = 0
      ∧ (btrfs_delalloc_reserve_metadata_steps scenario_fs always_ok fresh_world 1).map
          (fun s => (s.inode.outstanding_extents, s.inode.csum_bytes, s.inode.block_rsv.size,
            s.inode.block_rsv.reserved))
        = [(0, 0, 0, 0), (0, 0, 0, 0), (0, 0, 0, 0), (0, 0, 0, 0), (1, 0, 0, 0),
           (1, 4096, 0, 0), (1, 4096, 655360, 0), (1, 4096, 655360, 655360),
           (1, 4096, 655360, 655360)]
      ∧ (held_as_before fresh_world
            (btrfs_delalloc_reserve_metadata scenario_fs always_ok fresh_world 1).2
          ∨ counters_committed scenario_fs fresh_world 1
            (btrfs_delalloc_reserve_metadata scenario_fs always_ok fresh_world 1).2) :=
  ⟨by decide, by decide,
    (counters_before_top_up scenario_fs always_ok fresh_world 1 (by decide)).2.2.1 _
      (by decide)⟩

/-! ## C15: choice of the flush policy -/

/-- The yield count after `btrfs_delalloc_reserve_metadata`, on every path. -/
theorem reserve_metadata_timeouts (fs : btrfs_fs_info) (c : Collaborators) (w : World)
    (n : Nat) :
    (btrfs_delalloc_reserve_metadata fs c w n).2.timeouts =
      (reserve_metadata_yield w).timeouts := by
  by_cases h : (btrfs_delalloc_reserve_metadata fs c w n).1 = 0
  · obtain ⟨hp, hm⟩ := reserve_metadata_ok_parts h
    simp only [btrfs_delalloc_reserve_metadata, if_neg (not_not.mpr hp),
      if_neg (not_not.mpr hm)]
    rw [reserve_metadata_bytes_ok hm, qgroup_reserve_meta_prealloc_ok hp]
    simp [calculate_inode_block_rsv_size_eq, btrfs_block_rsv_add_bytes,
      btrfs_mod_outstanding_extents]
  · rw [reserve_metadata_fail_world h]

theorem flush_code_pos (f : btrfs_reserve_flush_enum) : flush_code f ≠ 0 := by
  cases f <;> decide

/-- C15: flush-policy selection. The policy `btrfs_delalloc_reserve_metadata`
passes to the metadata pool is no-flush for a bookkeeping file whatever the
transaction state, otherwise flush-limited when the caller holds an open
transaction, otherwise flush-all; the policy `btrfs_check_data_free_space`
passes to the data pool is the free-space-exempt one for a bookkeeping file
and flush-data otherwise. Each function consults its pool under that policy
only: against pools that answer with the code of the policy they are asked
under, the returned error is the code of the stated policy, and collaborators
that agree under that policy give the same result. The yield is taken exactly
for a non-bookkeeping file with a commit in progress, and the commit state
does not enter the policy. -/
theorem flush_policy_selection :
    (∀ w : World,
      reserve_metadata_flush w =
          (if w.inode.free_space_inode then BTRFS_RESERVE_NO_FLUSH
           else if w.journal_info then BTRFS_RESERVE_FLUSH_LIMIT
           else BTRFS_RESERVE_FLUSH_ALL)
        ∧ alloc_data_chunk_flush w =
          (if w.inode.free_space_inode then BTRFS_RESERVE_FLUSH_FREE_SPACE_INODE
           else BTRFS_RESERVE_FLUSH_DATA))
    ∧ (∀ (fs : btrfs_fs_info) (w : World) (num_bytes : Nat),
      (btrfs_delalloc_reserve_metadata fs flush_probe w num_bytes).1 =
        -(flush_code (reserve_metadata_flush w) : Int))
    ∧ (∀ (fs : btrfs_fs_info) (w : World) (start len : Nat),
      (btrfs_check_data_free_space fs flush_probe w start len).1 =
        -(flush_code (alloc_data_chunk_flush w) : Int))
    ∧ (∀ (fs : btrfs_fs_info) (c d : Collaborators) (w : World) (num_bytes : Nat),
      d.qgroup_reserve_meta_prealloc = c.qgroup_reserve_meta_prealloc →
      (∀ v k, d.reserve_metadata_bytes v k (reserve_metadata_flush w) =
        c.reserve_metadata_bytes v k (reserve_metadata_flush w)) →
      btrfs_delalloc_reserve_metadata fs d w num_bytes =
        btrfs_delalloc_reserve_metadata fs c w num_bytes)
    ∧ (∀ (fs : btrfs_fs_info) (c d : Collaborators) (w : World) (start len : Nat),
      d.qgroup_reserve_data = c.qgroup_reserve_data →
      (∀ v k, d.reserve_data_bytes v k (alloc_data_chunk_flush w) =
        c.reserve_data_bytes v k (alloc_data_chunk_flush w)) →
      btrfs_check_data_free_space fs d w start len =
        btrfs_check_data_free_space fs c w start len)
    ∧ (∀ (fs : btrfs_fs_info) (c : Collaborators) (w : World) (num_bytes : Nat),
      (btrfs_delalloc_reserve_metadata fs c w num_bytes).2.timeouts =
        (if w.inode.free_space_inode then w.timeouts
         else if w.transaction_in_commit then w.timeouts + 1
         else w.timeouts))
    ∧ (∀ (w : World) (b : Bool),
      reserve_metadata_flush { w with transaction_in_commit := b } = reserve_metadata_flush w
        ∧ alloc_data_chunk_flush { w with transaction_in_commit := b } =
          alloc_data_chunk_flush w)
    ∧ (∀ w v : World,
      v.inode.free_space_inode = w.inode.free_space_inode →
      v.journal_info = w.journal_info →
      reserve_metadata_flush v = reserve_metadata_flush w
        ∧ alloc_data_chunk_flush v = alloc_data_chunk_flush w)
    ∧ (∀ w : World, w.inode.free_space_inode = true →
      reserve_metadata_flush w = BTRFS_RESERVE_NO_FLUSH
        ∧ alloc_data_chunk_flush w = BTRFS_RESERVE_FLUSH_FREE_SPACE_INODE
        ∧ reserve_metadata_yield w = w) := by
  refine ⟨fun w => ⟨rfl, rfl⟩, ?_, ?_, ?_, ?_, ?_, fun w b => ⟨rfl, rfl⟩, ?_, ?_⟩
  · intro fs w n
    have hc := flush_code_pos (reserve_metadata_flush w)
    simp [btrfs_delalloc_reserve_metadata, btrfs_qgroup_reserve_meta_prealloc,
      btrfs_reserve_metadata_bytes, flush_probe, hc]
  · intro fs w start len
    have hc := flush_code_pos (alloc_data_chunk_flush w)
    have hlt : -(flush_code (alloc_data_chunk_flush w) : Int) < 0 := by
      have : 0 < flush_code (alloc_data_chunk_flush w) := Nat.pos_of_ne_zero hc
      omega
    unfold alloc_data_chunk_flush at hc hlt
    simp only [btrfs_check_data_free_space, btrfs_alloc_data_chunk_ondemand,
      btrfs_reserve_data_bytes, flush_probe, alloc_data_chunk_flush, if_neg hc, if_pos hlt]
  · intro fs c d w n h1 h2
    simp only [btrfs_delalloc_reserve_metadata, btrfs_qgroup_reserve_meta_prealloc,
      btrfs_reserve_metadata_bytes, h1, h2]
  · intro fs c d w start len h1 h2
    unfold alloc_data_chunk_flush at h2
    simp only [btrfs_check_data_free_space, btrfs_alloc_data_chunk_ondemand,
      btrfs_reserve_data_bytes, btrfs_qgroup_reserve_data, h1, h2]
  · intro fs c w n
    rw [reserve_metadata_timeouts]
    unfold reserve_metadata_yield
    split_ifs <;> rfl
  · intro w v h1 h2
    simp only [reserve_metadata_flush, alloc_data_chunk_flush, h1, h2, and_self]
  · intro w hb
    simp only [reserve_metadata_flush, alloc_data_chunk_flush, reserve_metadata_yield, hb,
      if_true, and_self]

/-- With a metadata pool that grants only flush-limited requests: the caller
inside a transaction succeeds and yields once to the commit in progress; the
bookkeeping file in the same transaction state is refused, because it asks
under no-flush, and does not yield. The data stage of a bookkeeping file asks
under the free-space-exempt policy (code 5), that of an ordinary file under
flush-data (code 4). -/
theorem flush_policy_selection_witness :
    (btrfs_delalloc_reserve_metadata scenario_fs only_flush_limit in_transaction_world 1).1 = 0
      ∧ (btrfs_delalloc_reserve_metadata scenario_fs only_flush_limit in_transaction_world
          1).2.timeouts = 1
      ∧ (btrfs_delalloc_reserve_metadata scenario_fs only_flush_limit bookkeeping_world 1).1
          = -28
      ∧ (btrfs_delalloc_reserve_metadata scenario_fs only_flush_limit bookkeeping_world
          1).2.timeouts = 0
      ∧ (btrfs_delalloc_reserve_metadata scenario_fs flush_probe in_transaction_world 1).1 = -2
      ∧ (btrfs_delalloc_reserve_metadata scenario_fs flush_probe bookkeeping_world 1).1 = -1
      ∧ (btrfs_delalloc_reserve_metadata scenario_fs flush_probe fresh_world 1).1 = -3
      ∧ (btrfs_check_data_free_space scenario_fs flush_probe bookkeeping_world 0 1).1 = -5
      ∧ (btrfs_check_data_free_space scenario_fs flush_probe fresh_world 0 1).1 = -4
      ∧ btrfs_delalloc_reserve_metadata scenario_fs only_flush_limit in_transaction_world 1 =
          btrfs_delalloc_reserve_metadata scenario_fs always_ok in_transaction_world 1
      ∧ reserve_metadata_flush bookkeeping_world = BTRFS_RESERVE_NO_FLUSH
      ∧ reserve_metadata_flush { bookkeeping_world with journal_info := false } =
          BTRFS_RESERVE_NO_FLUSH := by
  have h := flush_policy_selection
  have hind := h.2.2.2.1 scenario_fs always_ok only_flush_limit in_transaction_world 1 rfl
    (fun _ _ => rfl)
  have hb1 := (h.2.2.2.2.2.2.2.2 bookkeeping_world rfl).1
  have hb2 := (h.2.2.2.2.2.2.2.2 { bookkeeping_world with journal_info := false } rfl).1
  refine ⟨by decide, ?_, by decide, ?_, ?_, ?_, ?_, ?_, ?_, hind, hb1, hb2⟩
  · rw [h.2.2.2.2.2.1]; decide
  · rw [h.2.2.2.2.2.1]; decide
  · rw [h.2.1]; decide
  · rw [h.2.1]; decide
  · rw [h.2.1]; decide
  · rw [h.2.2.1]; decide
  · rw [h.2.2.1]; decide

/-! ## C16: the extent count of a reservation is undone exactly -/

/-- The extent count after `btrfs_delalloc_release_extents`, in either mode. -/
theorem release_extents_outstanding (fs : btrfs_fs_info) (w : World) (n : Nat) :
    (btrfs_delalloc_release_extents fs w n).inode.outstanding_extents =
      sub32 w.inode.outstanding_extents (count_max_extents fs n) := by
  cases hT : fs.testing
  · rw [release_extents_inode fs w n hT, add32_sub32_zero]
  · rw [release_extents_testing fs w n hT, release_extents_counted_inode]

theorem sub32_add32_cancel {a : Nat} (e : Nat) (ha : a < U32_MOD) :
    sub32 (add32 a e) e = a := by
  unfold sub32 add32 U32_MOD at *
  omega

/-- Rounding up to a multiple of `s` does not change a ceiling division by a
multiple of `s`. -/
theorem ceil_div_round_up (n s m : Nat) (hs : 0 < s) (hm : 0 < m) :
    ((n + s - 1) / s * s + s * m - 1) / (s * m) = (n + s * m - 1) / (s * m) := by
  have hk : ∃ k, m = k + 1 := ⟨m - 1, by omega⟩
  obtain ⟨k, rfl⟩ := hk
  have e1 : (n + s - 1) / s * s + s * (k + 1) - 1
      = (s - 1) + s * ((n + s - 1) / s + k) := by
    have : s * ((n + s - 1) / s + k) = (n + s - 1) / s * s + s * k := by
      rw [Nat.mul_add, Nat.mul_comm s ((n + s - 1) / s)]
    rw [this, Nat.mul_succ]
    omega
  have e2 : n + s * (k + 1) - 1 = (n + s - 1) + s * k := by
    rw [Nat.mul_succ]
    omega
  rw [← Nat.div_div_eq_div_mul, ← Nat.div_div_eq_div_mul, e1, e2,
    Nat.add_mul_div_left _ _ hs, Nat.add_mul_div_left _ _ hs,
    Nat.div_eq_of_lt (by omega : s - 1 < s), Nat.zero_add]

/-- C16: `btrfs_delalloc_release_extents` exactly undoes the extent count of
`btrfs_delalloc_reserve_metadata`, although only the latter aligns its byte
count. When `count_max_extents(n)` is `ceil(n / MAX_EXTENT_SIZE)`,
`MAX_EXTENT_SIZE` is a positive multiple of the sector size and rounding
`num_bytes` up to the sector size does not overflow 64 bits, the extent count
of the aligned byte count equals that of `num_bytes` itself, so a successful
`btrfs_delalloc_reserve_metadata(num_bytes)` followed by
`btrfs_delalloc_release_extents(num_bytes)` restores `outstanding_extents`. -/
theorem release_extents_undoes_reserve (fs : btrfs_fs_info) (c : Collaborators) (w : World)
    (num_bytes max_extent_size : Nat)
    (hS : 0 < fs.sectorsize) (hM : 0 < max_extent_size)
    (hdvd : fs.sectorsize ∣ max_extent_size)
    (hE : ∀ x, fs.extents_needed x = (x + max_extent_size - 1) / max_extent_size)
    (hfit : num_bytes + fs.sectorsize ≤ U64_MOD)
    (hoe : w.inode.outstanding_extents < U32_MOD)
    (hok : (btrfs_delalloc_reserve_metadata fs c w num_bytes).1 = 0) :
    count_max_extents fs (ALIGN num_bytes fs.sectorsize) = count_max_extents fs num_bytes
      ∧ (btrfs_delalloc_reserve_metadata fs c w num_bytes).2.inode.outstanding_extents =
        add32 w.inode.outstanding_extents
          (count_max_extents fs (ALIGN num_bytes fs.sectorsize))
      ∧ (btrfs_delalloc_release_extents fs
          (btrfs_delalloc_reserve_metadata fs c w num_bytes).2 num_bytes).inode.outstanding_extents
        = sub32 (btrfs_delalloc_reserve_metadata fs c w num_bytes).2.inode.outstanding_extents
            (count_max_extents fs num_bytes)
      ∧ (btrfs_delalloc_release_extents fs
          (btrfs_delalloc_reserve_metadata fs c w num_bytes).2 num_bytes).inode.outstanding_extents
        = w.inode.outstanding_extents := by
  obtain ⟨m, rfl⟩ := hdvd
  have hm : 0 < m := Nat.pos_of_mul_pos_left hM
  have hA : ALIGN num_bytes fs.sectorsize
      = (num_bytes + fs.sectorsize - 1) / fs.sectorsize * fs.sectorsize := by
    unfold ALIGN
    apply Nat.mod_eq_of_lt
    have := Nat.div_mul_le_self (num_bytes + fs.sectorsize - 1) fs.sectorsize
    omega
  have hcount : count_max_extents fs (ALIGN num_bytes fs.sectorsize)
      = count_max_extents fs num_bytes := by
    unfold count_max_extents
    rw [hE, hE, hA, ceil_div_round_up num_bytes fs.sectorsize m hS hm]
  have hi := reserve_metadata_ok_inode hok
  have hr := release_extents_outstanding fs
    (btrfs_delalloc_reserve_metadata fs c w num_bytes).2 num_bytes
  refine ⟨hcount, by rw [hi], hr, ?_⟩
  rw [hr, hi]
  show sub32 (add32 w.inode.outstanding_extents
    (count_max_extents fs (ALIGN num_bytes fs.sectorsize))) (count_max_extents fs num_bytes)
    = w.inode.outstanding_extents
  rw [hcount]
  exact sub32_add32_cancel _ hoe

/-- At sector size 4096 and `MAX_EXTENT_SIZE` 128 MiB, one byte more than 128
MiB is aligned up to 128 MiB + 4096 for the reservation and not aligned for
the release; both count 2 extents, and the file of scenario A is back at 1
outstanding extent after the pair of calls. -/
theorem release_extents_undoes_reserve_witness :
    ALIGN (MAX_EXTENT_SIZE + 1) scenario_fs.sectorsize = MAX_EXTENT_SIZE + 4096
      ∧ count_max_extents scenario_fs (MAX_EXTENT_SIZE + 4096) = 2
      ∧ count_max_extents scenario_fs (MAX_EXTENT_SIZE + 1) = 2
      ∧ (btrfs_delalloc_reserve_metadata scenario_fs always_ok fresh_world
          1).2.inode.outstanding_extents = 1
      ∧ (btrfs_delalloc_reserve_metadata scenario_fs always_ok
          (btrfs_delalloc_reserve_metadata scenario_fs always_ok fresh_world 1).2
          (MAX_EXTENT_SIZE + 1)).2.inode.outstanding_extents = 3
      ∧ (btrfs_delalloc_release_extents scenario_fs
          (btrfs_delalloc_reserve_metadata scenario_fs always_ok
            (btrfs_delalloc_reserve_metadata scenario_fs always_ok fresh_world 1).2
            (MAX_EXTENT_SIZE + 1)).2 (MAX_EXTENT_SIZE + 1)).inode.outstanding_extents = 1 := by
  have h := release_extents_undoes_reserve scenario_fs always_ok
    (btrfs_delalloc_reserve_metadata scenario_fs always_ok fresh_world 1).2
    (MAX_EXTENT_SIZE + 1) MAX_EXTENT_SIZE (by decide) (by decide) ⟨32768, by decide⟩
    (fun _ => rfl) (by decide) (by decide) (by decide)
  refine ⟨by decide, by decide, by decide, by decide, by decide, ?_⟩
  rw [h.2.2.2]
  decide

/-! ## C17: the reservation never runs short -/

theorem insert_cost_zero {fs : btrfs_fs_info} (hlin : insert_cost_linear fs) :
    fs.insert_cost 0 = 0 := by
  have h := hlin 0 0
  simp only [Nat.add_zero] at h
  omega

theorem insert_cost_mono {fs : btrfs_fs_info} (hlin : insert_cost_linear fs) {j k : Nat}
    (h : j ≤ k) : fs.insert_cost j ≤ fs.insert_cost k := by
  obtain ⟨d, rfl⟩ := Nat.exists_eq_add_of_le h
  rw [hlin]
  exact Nat.le_add_right _ _

/-- Without overflow the stored target is the plain formula. -/
theorem spec_target_size_raw {fs : btrfs_fs_info} {oe csum : Nat}
    (hL : fs.checksum_leaves csum < U64_MOD) (hT : target_raw fs oe csum < U64_MOD) :
    spec_target_size fs oe csum = target_raw fs oe csum := by
  revert hT
  simp only [spec_target_size, target_raw, add64, btrfs_calc_insert_metadata_size,
    btrfs_calc_metadata_size, btrfs_csum_bytes_to_leaves, Nat.mod_eq_of_lt hL]
  unfold U64_MOD
  split_ifs <;> intro hT <;> omega

theorem ceil_fs_linear : insert_cost_linear ceil_fs := by
  intro j k
  simp only [ceil_fs, scenario_fs]
  omega

theorem ceil_fs_monotone : checksum_leaves_monotone ceil_fs := by
  intro x y h
  simp only [ceil_fs, scenario_fs]
  omega

theorem ceil_fs_subadditive : checksum_leaves_subadditive ceil_fs := by
  intro x y
  simp only [ceil_fs, scenario_fs]
  omega

/-- The target of the raised counters exceeds the old target by at most what
a reservation adds to `rsv.held`. -/
theorem target_raw_reserve_le {fs : btrfs_fs_info} (hlin : insert_cost_linear fs)
    (hsub : checksum_leaves_subadditive fs) (oe csum e a : Nat) :
    target_raw fs (oe + e) (csum + a) ≤
      target_raw fs oe csum
        + (fs.insert_cost (e + fs.checksum_leaves a) + fs.update_cost 1) := by
  have h1 := hlin oe e
  have h2 := hlin e (fs.checksum_leaves a)
  have h3 := hlin (fs.checksum_leaves csum) (fs.checksum_leaves a)
  have h4 := insert_cost_mono hlin (hsub csum a)
  have h0 := insert_cost_zero hlin
  unfold target_raw
  rcases Nat.eq_zero_or_pos oe with hz | hpos
  · subst hz
    rw [Nat.zero_add] at h1 ⊢
    simp only [Nat.lt_irrefl, if_false]
    split_ifs <;> omega
  · have hpos2 : oe + e > 0 := by omega
    simp only [hpos, hpos2, if_true]
    omega

/-- A successful reservation keeps `rsv.held` at or above the target. -/
theorem reserve_metadata_keeps_cover {fs : btrfs_fs_info} {c : Collaborators} {w : World}
    {n : Nat} (hlin : insert_cost_linear fs) (hsub : checksum_leaves_subadditive fs)
    (hsync : in_sync fs w) (hfit : reserve_fits fs w n)
    (hcov : w.inode.block_rsv.size ≤ w.inode.block_rsv.reserved)
    (hok : (btrfs_delalloc_reserve_metadata fs c w n).1 = 0) :
    (btrfs_delalloc_reserve_metadata fs c w n).2.inode.block_rsv.size ≤
        (btrfs_delalloc_reserve_metadata fs c w n).2.inode.block_rsv.reserved
      ∧ in_sync fs (btrfs_delalloc_reserve_metadata fs c w n).2 := by
  obtain ⟨hs1, hs2, hs3, hs4, hs5⟩ := hsync
  obtain ⟨f1, f2, f3, f4, f5, f6⟩ := hfit
  have hK := target_raw_reserve_le hlin hsub w.inode.outstanding_extents w.inode.csum_bytes
    (fs.extents_needed (ALIGN n fs.sectorsize)) (ALIGN n fs.sectorsize)
  have hE : count_max_extents fs (ALIGN n fs.sectorsize) =
      fs.extents_needed (ALIGN n fs.sectorsize) :=
    Nat.mod_eq_of_lt (by omega)
  have hoe : add32 w.inode.outstanding_extents (count_max_extents fs (ALIGN n fs.sectorsize))
      = w.inode.outstanding_extents + fs.extents_needed (ALIGN n fs.sectorsize) := by
    rw [hE]
    exact Nat.mod_eq_of_lt f1
  have hcs : add64 w.inode.csum_bytes (ALIGN n fs.sectorsize)
      = w.inode.csum_bytes + ALIGN n fs.sectorsize := Nat.mod_eq_of_lt f2
  have hMR : (calc_inode_reservations fs (ALIGN n fs.sectorsize)).1 =
      fs.insert_cost (fs.extents_needed (ALIGN n fs.sectorsize)
          + fs.checksum_leaves (ALIGN n fs.sectorsize))
        + fs.update_cost 1 := by
    have g1 : fs.insert_cost (fs.extents_needed (ALIGN n fs.sectorsize)
        + fs.checksum_leaves (ALIGN n fs.sectorsize)) < U64_MOD := by omega
    have g2 : fs.update_cost 1 < U64_MOD := by omega
    have g3 : fs.insert_cost (fs.extents_needed (ALIGN n fs.sectorsize)
        + fs.checksum_leaves (ALIGN n fs.sectorsize)) + fs.update_cost 1 < U64_MOD := by omega
    simp only [calc_inode_reservations, hE, btrfs_csum_bytes_to_leaves,
      btrfs_calc_insert_metadata_size, btrfs_calc_metadata_size, add64,
      Nat.mod_eq_of_lt f3, Nat.mod_eq_of_lt f5, Nat.mod_eq_of_lt g1, Nat.mod_eq_of_lt g2,
      Nat.mod_eq_of_lt g3]
  have hT : target_raw fs
      (w.inode.outstanding_extents + fs.extents_needed (ALIGN n fs.sectorsize))
      (w.inode.csum_bytes + ALIGN n fs.sectorsize) < U64_MOD := by omega
  have hheld : add64 w.inode.block_rsv.reserved
      (calc_inode_reservations fs (ALIGN n fs.sectorsize)).1
      = w.inode.block_rsv.reserved
        + (fs.insert_cost (fs.extents_needed (ALIGN n fs.sectorsize)
            + fs.checksum_leaves (ALIGN n fs.sectorsize))
          + fs.update_cost 1) := by
    rw [hMR]
    exact Nat.mod_eq_of_lt f6
  have hi := reserve_metadata_ok_inode hok
  rw [hoe, hcs, hheld, spec_target_size_raw f4 hT] at hi
  unfold in_sync
  rw [hi]
  have hgoal : target_raw fs
      (w.inode.outstanding_extents + fs.extents_needed (ALIGN n fs.sectorsize))
      (w.inode.csum_bytes + ALIGN n fs.sectorsize)
      ≤ w.inode.block_rsv.reserved
        + (fs.insert_cost (fs.extents_needed (ALIGN n fs.sectorsize)
            + fs.checksum_leaves (ALIGN n fs.sectorsize))
          + fs.update_cost 1) := by omega
  exact ⟨hgoal, rfl, hT, f4, f1, f2⟩

/-- Outside test mode a metadata release that does not drive `csum_bytes`
below zero leaves exactly the new target held. -/
theorem release_metadata_meets_target {fs : btrfs_fs_info} {w : World} (n : Nat) (q : Bool)
    (hT : fs.testing = false) (hlin : insert_cost_linear fs)
    (hmono : checksum_leaves_monotone fs) (hsync : in_sync fs w)
    (hcov : w.inode.block_rsv.size ≤ w.inode.block_rsv.reserved)
    (hunder : ALIGN n fs.sectorsize ≤ w.inode.csum_bytes) :
    (btrfs_delalloc_release_metadata fs w n q).inode.block_rsv.reserved =
        (btrfs_delalloc_release_metadata fs w n q).inode.block_rsv.size
      ∧ in_sync fs (btrfs_delalloc_release_metadata fs w n q) := by
  obtain ⟨hs1, hs2, hs3, hs4, hs5⟩ := hsync
  have hcs : sub64 w.inode.csum_bytes (ALIGN n fs.sectorsize)
      = w.inode.csum_bytes - ALIGN n fs.sectorsize := sub64_of_le hunder hs5
  have hL := hmono (w.inode.csum_bytes - ALIGN n fs.sectorsize) w.inode.csum_bytes
    (Nat.sub_le _ _)
  have hI := insert_cost_mono hlin hL
  have hle : target_raw fs w.inode.outstanding_extents
      (w.inode.csum_bytes - ALIGN n fs.sectorsize)
      ≤ target_raw fs w.inode.outstanding_extents w.inode.csum_bytes := by
    unfold target_raw
    omega
  have hL2 : fs.checksum_leaves (w.inode.csum_bytes - ALIGN n fs.sectorsize) < U64_MOD := by
    omega
  have hT2 : target_raw fs w.inode.outstanding_extents
      (w.inode.csum_bytes - ALIGN n fs.sectorsize) < U64_MOD := by omega
  have hi := release_metadata_inode fs w n q hT
  rw [hcs, spec_target_size_raw hL2 hT2] at hi
  have hmin : min w.inode.block_rsv.reserved
      (target_raw fs w.inode.outstanding_extents
        (w.inode.csum_bytes - ALIGN n fs.sectorsize))
      = target_raw fs w.inode.outstanding_extents
        (w.inode.csum_bytes - ALIGN n fs.sectorsize) := by omega
  rw [hmin] at hi
  unfold in_sync
  rw [hi]
  have hcs2 : w.inode.csum_bytes - ALIGN n fs.sectorsize < U64_MOD := by omega
  exact ⟨rfl, rfl, hT2, hL2, hs4, hcs2⟩

/-- Outside test mode an extent release that does not drive
`outstanding_extents` below zero leaves exactly the new target held. -/
theorem release_extents_meets_target {fs : btrfs_fs_info} {w : World} (n : Nat)
    (hT : fs.testing = false) (hlin : insert_cost_linear fs) (hsync : in_sync fs w)
    (hcov : w.inode.block_rsv.size ≤ w.inode.block_rsv.reserved)
    (hunder : count_max_extents fs n ≤ w.inode.outstanding_extents) :
    (btrfs_delalloc_release_extents fs w n).inode.block_rsv.reserved =
        (btrfs_delalloc_release_extents fs w n).inode.block_rsv.size
      ∧ in_sync fs (btrfs_delalloc_release_extents fs w n) := by
  obtain ⟨hs1, hs2, hs3, hs4, hs5⟩ := hsync
  have hoe : sub32 w.inode.outstanding_extents (count_max_extents fs n)
      = w.inode.outstanding_extents - count_max_extents fs n := sub32_of_le hunder hs4
  have hI := insert_cost_mono hlin
    (Nat.sub_le w.inode.outstanding_extents (count_max_extents fs n))
  have hle : target_raw fs (w.inode.outstanding_extents - count_max_extents fs n)
      w.inode.csum_bytes
      ≤ target_raw fs w.inode.outstanding_extents w.inode.csum_bytes := by
    unfold target_raw
    split_ifs <;> omega
  have hT2 : target_raw fs (w.inode.outstanding_extents - count_max_extents fs n)
      w.inode.csum_bytes < U64_MOD := by omega
  have hi := release_extents_inode fs w n hT
  rw [add32_sub32_zero, hoe, spec_target_size_raw hs3 hT2] at hi
  have hmin : min w.inode.block_rsv.reserved
      (target_raw fs (w.inode.outstanding_extents - count_max_extents fs n)
        w.inode.csum_bytes)
      = target_raw fs (w.inode.outstanding_extents - count_max_extents fs n)
        w.inode.csum_bytes := by omega
  rw [hmin] at hi
  unfold in_sync
  rw [hi]
  have hoe2 : w.inode.outstanding_extents - count_max_extents fs n < U32_MOD := by omega
  exact ⟨rfl, rfl, hT2, hs3, hoe2, hs5⟩

/-- A first reservation that needs at least one extent holds exactly its
target. -/
theorem reserve_metadata_fresh_exact {fs : btrfs_fs_info} {c : Collaborators} {w : World}
    {n : Nat} (hlin : insert_cost_linear fs)
    (hoe : w.inode.outstanding_extents = 0) (hcs : w.inode.csum_bytes = 0)
    (hheld : w.inode.block_rsv.reserved = 0)
    (hpos : 0 < count_max_extents fs (ALIGN n fs.sectorsize))
    (hfit : count_max_extents fs (ALIGN n fs.sectorsize)
      + btrfs_csum_bytes_to_leaves fs (ALIGN n fs.sectorsize) < U64_MOD)
    (hok : (btrfs_delalloc_reserve_metadata fs c w n).1 = 0) :
    (btrfs_delalloc_reserve_metadata fs c w n).2.inode.block_rsv.reserved =
      (btrfs_delalloc_reserve_metadata fs c w n).2.inode.block_rsv.size := by
  have hi := reserve_metadata_ok_inode hok
  rw [hi, hoe, hcs, hheld]
  have hE := count_max_extents_lt fs (ALIGN n fs.sectorsize)
  have hA := ALIGN_lt n fs.sectorsize
  have h1 : add32 0 (count_max_extents fs (ALIGN n fs.sectorsize))
      = count_max_extents fs (ALIGN n fs.sectorsize) := by
    unfold add32
    rw [Nat.zero_add]
    exact Nat.mod_eq_of_lt hE
  have h2 : add64 0 (ALIGN n fs.sectorsize) = ALIGN n fs.sectorsize := by
    unfold add64
    rw [Nat.zero_add]
    exact Nat.mod_eq_of_lt hA
  have h3 := hlin (count_max_extents fs (ALIGN n fs.sectorsize))
    (btrfs_csum_bytes_to_leaves fs (ALIGN n fs.sectorsize))
  show add64 0 (calc_inode_reservations fs (ALIGN n fs.sectorsize)).1
    = spec_target_size fs (add32 0 (count_max_extents fs (ALIGN n fs.sectorsize)))
        (add64 0 (ALIGN n fs.sectorsize))
  rw [h1, h2]
  simp only [calc_inode_reservations, spec_target_size, hpos, if_true, add64,
    btrfs_calc_insert_metadata_size, btrfs_calc_metadata_size, Nat.mod_eq_of_lt hfit, h3]
  unfold U64_MOD
  omega

/-- C17, as stated, fails for a reservation of zero bytes: on a geometry with
linear insert cost and a ceiling-division leaf count, reserving 0 bytes on a
fresh all-zero file succeeds, counts no extent and no checksum byte, so the
target stays 0, yet 131072 bytes (one metadata update) are added to
`rsv.held`: after this single reservation `rsv.held` is above, not equal to,
`rsv.target_size`. -/
theorem fresh_reservation_not_exact_for_zero_bytes :
    fresh_world.inode.outstanding_extents = 0
      ∧ fresh_world.inode.csum_bytes = 0
      ∧ fresh_world.inode.block_rsv.reserved = 0
      ∧ fresh_world.inode.block_rsv.size = 0
      ∧ (btrfs_delalloc_reserve_metadata ceil_fs always_ok fresh_world 0).1 = 0
      ∧ (btrfs_delalloc_reserve_metadata ceil_fs always_ok fresh_world
          0).2.inode.outstanding_extents = 0
      ∧ (btrfs_delalloc_reserve_metadata ceil_fs always_ok fresh_world
          0).2.inode.block_rsv.size = 0
      ∧ (btrfs_delalloc_reserve_metadata ceil_fs always_ok fresh_world
          0).2.inode.block_rsv.reserved = 131072
      ∧ ¬ ((btrfs_delalloc_reserve_metadata ceil_fs always_ok fresh_world
          0).2.inode.block_rsv.reserved
        = (btrfs_delalloc_reserve_metadata ceil_fs always_ok fresh_world
          0).2.inode.block_rsv.size) := by
  decide

/-- C17 (amended): the per-file reservation never runs short. Assume the
insert cost is linear in its item count and the checksum-leaf count is
monotone and subadditive, and take a file whose stored `target_size` is the
one of its counters, with nothing overflowing 64 bits. Then `rsv.held >=
rsv.target_size` is preserved by every successful
`btrfs_delalloc_reserve_metadata`; outside test mode, after
`btrfs_delalloc_release_metadata` and after `btrfs_delalloc_release_extents`
that do not drive their counter below zero, `rsv.held == rsv.target_size`;
and after a single successful reservation on a file with zero counters and
nothing held, `rsv.held == rsv.target_size` exactly, provided the reservation
counts at least one extent. Each operation leaves the stored target in step
with the counters again. -/
theorem reservation_never_short :
    (∀ (fs : btrfs_fs_info) (c : Collaborators) (w : World) (num_bytes : Nat),
      insert_cost_linear fs → checksum_leaves_subadditive fs →
      in_sync fs w → reserve_fits fs w num_bytes →
      w.inode.block_rsv.size ≤ w.inode.block_rsv.reserved →
      (btrfs_delalloc_reserve_metadata fs c w num_bytes).1 = 0 →
      (btrfs_delalloc_reserve_metadata fs c w num_bytes).2.inode.block_rsv.size ≤
          (btrfs_delalloc_reserve_metadata fs c w num_bytes).2.inode.block_rsv.reserved
        ∧ in_sync fs (btrfs_delalloc_reserve_metadata fs c w num_bytes).2)
    ∧ (∀ (fs : btrfs_fs_info) (w : World) (num_bytes : Nat) (qgroup_free : Bool),
      fs.testing = false → insert_cost_linear fs → checksum_leaves_monotone fs →
      in_sync fs w →
      w.inode.block_rsv.size ≤ w.inode.block_rsv.reserved →
      ALIGN num_bytes fs.sectorsize ≤ w.inode.csum_bytes →
      (btrfs_delalloc_release_metadata fs w num_bytes qgroup_free).inode.block_rsv.reserved =
          (btrfs_delalloc_release_metadata fs w num_bytes qgroup_free).inode.block_rsv.size
        ∧ in_sync fs (btrfs_delalloc_release_metadata fs w num_bytes qgroup_free))
    ∧ (∀ (fs : btrfs_fs_info) (w : World) (num_bytes : Nat),
      fs.testing = false → insert_cost_linear fs →
      in_sync fs w →
      w.inode.block_rsv.size ≤ w.inode.block_rsv.reserved →
      count_max_extents fs num_bytes ≤ w.inode.outstanding_extents →
      (btrfs_delalloc_release_extents fs w num_bytes).inode.block_rsv.reserved =
          (btrfs_delalloc_release_extents fs w num_bytes).inode.block_rsv.size
        ∧ in_sync fs (btrfs_delalloc_release_extents fs w num_bytes))
    ∧ (∀ (fs : btrfs_fs_info) (c : Collaborators) (w : World) (num_bytes : Nat),
      insert_cost_linear fs →
      w.inode.outstanding_extents = 0 → w.inode.csum_bytes = 0 →
      w.inode.block_rsv.reserved = 0 →
      0 < count_max_extents fs (ALIGN num_bytes fs.sectorsize) →
      count_max_extents fs (ALIGN num_bytes fs.sectorsize)
        + btrfs_csum_bytes_to_leaves fs (ALIGN num_bytes fs.sectorsize) < U64_MOD →
      (btrfs_delalloc_reserve_metadata fs c w num_bytes).1 = 0 →
      (btrfs_delalloc_reserve_metadata fs c w num_bytes).2.inode.block_rsv.reserved =
        (btrfs_delalloc_reserve_metadata fs c w num_bytes).2.inode.block_rsv.size) :=
  ⟨fun _ _ _ _ hlin hsub hsync hfit hcov hok =>
      reserve_metadata_keeps_cover hlin hsub hsync hfit hcov hok,
    fun _ _ n q hT hlin hmono hsync hcov hunder =>
      release_metadata_meets_target n q hT hlin hmono hsync hcov hunder,
    fun _ _ n hT hlin hsync hcov hunder =>
      release_extents_meets_target n hT hlin hsync hcov hunder,
    fun _ _ _ _ hlin hoe hcs hheld hpos hfit hok =>
      reserve_metadata_fresh_exact hlin hoe hcs hheld hpos hfit hok⟩

/-- On the ceiling-division geometry the fresh file and the file with one
byte reserved are in step with their counters, and a further 200 MiB fit. -/
theorem ceil_fs_example_in_sync :
    in_sync ceil_fs fresh_world
      ∧ in_sync ceil_fs (btrfs_delalloc_reserve_metadata ceil_fs always_ok fresh_world 1).2
      ∧ reserve_fits ceil_fs (btrfs_delalloc_reserve_metadata ceil_fs always_ok fresh_world 1).2
          209715200 := by
  unfold in_sync reserve_fits
  decide

/-- On the ceiling-division geometry: 1 byte reserved on a fresh file holds
exactly its target, 655360; 200 MiB more keep `rsv.held` (4718592) above the
target (4325376); releasing the 200 MiB of metadata, or the extent of the
first byte, leaves exactly the new target held (1179648 and 4063232). -/
theorem reservation_never_short_witness :
    (btrfs_delalloc_reserve_metadata ceil_fs always_ok fresh_world 1).2.inode.block_rsv.reserved
        = 655360
      ∧ (btrfs_delalloc_reserve_metadata ceil_fs always_ok fresh_world 1).2.inode.block_rsv.size
        = 655360
      ∧ (btrfs_delalloc_reserve_metadata ceil_fs always_ok
          (btrfs_delalloc_reserve_metadata ceil_fs always_ok fresh_world 1).2
          209715200).2.inode.block_rsv.size
        ≤ (btrfs_delalloc_reserve_metadata ceil_fs always_ok
          (btrfs_delalloc_reserve_metadata ceil_fs always_ok fresh_world 1).2
          209715200).2.inode.block_rsv.reserved
      ∧ (btrfs_delalloc_release_metadata ceil_fs
          (btrfs_delalloc_reserve_metadata ceil_fs always_ok
            (btrfs_delalloc_reserve_metadata ceil_fs always_ok fresh_world 1).2
            209715200).2 209715200 false).inode.block_rsv.reserved = 1179648
      ∧ (btrfs_delalloc_release_extents ceil_fs
          (btrfs_delalloc_reserve_metadata ceil_fs always_ok
            (btrfs_delalloc_reserve_metadata ceil_fs always_ok fresh_world 1).2
            209715200).2 1).inode.block_rsv.reserved = 4063232 := by
  have h := reservation_never_short
  have hs := ceil_fs_example_in_sync
  have hF := h.2.2.2 ceil_fs always_ok fresh_world 1 ceil_fs_linear rfl rfl rfl
    (by decide) (by decide) (by decide)
  have hR := h.1 ceil_fs always_ok
    (btrfs_delalloc_reserve_metadata ceil_fs always_ok fresh_world 1).2 209715200
    ceil_fs_linear ceil_fs_subadditive hs.2.1 hs.2.2 (by decide) (by decide)
  have hM := h.2.1 ceil_fs
    (btrfs_delalloc_reserve_metadata ceil_fs always_ok
      (btrfs_delalloc_reserve_metadata ceil_fs always_ok fresh_world 1).2 209715200).2
    209715200 false rfl ceil_fs_linear ceil_fs_monotone hR.2 hR.1 (by decide)
  have hE := h.2.2.1 ceil_fs
    (btrfs_delalloc_reserve_metadata ceil_fs always_ok
      (btrfs_delalloc_reserve_metadata ceil_fs always_ok fresh_world 1).2 209715200).2
    1 rfl ceil_fs_linear hR.2 hR.1 (by decide)
  refine ⟨by rw [hF]; decide, by decide, hR.1, by rw [hM.1]; decide, by rw [hE.1]; decide⟩

/-! ## C18: the alignment assertion holds for this file's callers -/

/-- The function `btrfs_delalloc_reserve_metadata` never touches the
assertion flag. -/
theorem reserve_metadata_assert (fs : btrfs_fs_info) (c : Collaborators) (w : World)
    (n : Nat) :
    (btrfs_delalloc_reserve_metadata fs c w n).2.assert_failed = w.assert_failed := by
  have hy : (reserve_metadata_yield w).assert_failed = w.assert_failed := by
    rw [reserve_metadata_yield_eq]
  by_cases h : (btrfs_delalloc_reserve_metadata fs c w n).1 = 0
  · obtain ⟨hp, hm⟩ := reserve_metadata_ok_parts h
    simp only [btrfs_delalloc_reserve_metadata, if_neg (not_not.mpr hp),
      if_neg (not_not.mpr hm)]
    rw [reserve_metadata_bytes_ok hm, qgroup_reserve_meta_prealloc_ok hp]
    simpa [calculate_inode_block_rsv_size_eq, btrfs_block_rsv_add_bytes,
      btrfs_mod_outstanding_extents] using hy
  · rw [reserve_metadata_fail_world h, hy]

/-- The function `btrfs_delalloc_release_metadata` touches neither the
assertion flag nor the data pool nor the ledger's data reservation, in either
mode. -/
theorem release_metadata_data (fs : btrfs_fs_info) (w : World) (n : Nat) (q : Bool) :
    (btrfs_delalloc_release_metadata fs w n q).assert_failed = w.assert_failed
      ∧ (btrfs_delalloc_release_metadata fs w n q).data_bytes_may_use = w.data_bytes_may_use
      ∧ (btrfs_delalloc_release_metadata fs w n q).qgroup_data_rsv = w.qgroup_data_rsv := by
  simp only [btrfs_delalloc_release_metadata, calculate_inode_block_rsv_size_eq,
    btrfs_inode_rsv_release, btrfs_block_rsv_release, btrfs_qgroup_free_meta_prealloc,
    btrfs_qgroup_convert_reserved_meta]
  cases fs.testing <;> cases q <;> simp

/-- The function `btrfs_check_data_free_space` leaves the assertion flag as it
was when the sector size is a power of two. -/
theorem check_data_free_space_assert {fs : btrfs_fs_info} (hS : sector_pow2 fs)
    (c : Collaborators) (w : World) (start len : Nat) :
    (btrfs_check_data_free_space fs c w start len).2.assert_failed = w.assert_failed := by
  have hd := Nat.mod_eq_zero_of_dvd (aligned_len_dvd hS start len)
  unfold aligned_len at hd
  simp only [btrfs_check_data_free_space, btrfs_alloc_data_chunk_ondemand,
    btrfs_reserve_data_bytes, btrfs_qgroup_reserve_data,
    btrfs_free_reserved_data_space_noquota, btrfs_space_info_free_bytes_may_use]
  split_ifs <;> simp [IS_ALIGNED, hd]

/-- C18: the alignment assertion of `btrfs_free_reserved_data_space_noquota`
is never violated by this file's own callers. For every power-of-two sector
size and all `start` and `len`, wrapped or not, the length that
`btrfs_free_reserved_data_space`, the quota-failure rollback of
`btrfs_check_data_free_space`, the metadata-failure rollback of
`btrfs_delalloc_reserve_space` and `btrfs_delalloc_release_space` pass on is
the aligned length of `(start, len)`, a multiple of the sector size; so none
of the four functions raises the assertion flag, which
`btrfs_free_reserved_data_space_noquota` raises exactly when it is given a
length that is not a multiple of the sector size. -/
theorem free_noquota_always_aligned (fs : btrfs_fs_info) (c : Collaborators) (w : World)
    (start len : Nat) (qgroup_free : Bool) (hS : sector_pow2 fs) :
    fs.sectorsize ∣ aligned_len fs start len
      ∧ IS_ALIGNED (aligned_len fs start len) fs.sectorsize = true
      ∧ (∀ (v : World) (l : Nat),
          (btrfs_free_reserved_data_space_noquota fs v l).assert_failed =
            (v.assert_failed || !IS_ALIGNED l fs.sectorsize))
      ∧ (∀ v : World, btrfs_free_reserved_data_space fs v start len =
          btrfs_qgroup_free_data
            (btrfs_free_reserved_data_space_noquota fs v (aligned_len fs start len))
            (round_down start fs.sectorsize) (aligned_len fs start len))
      ∧ (btrfs_free_reserved_data_space fs w start len).assert_failed = w.assert_failed
      ∧ (btrfs_check_data_free_space fs c w start len).2.assert_failed = w.assert_failed
      ∧ (btrfs_delalloc_reserve_space fs c w start len).2.assert_failed = w.assert_failed
      ∧ (btrfs_delalloc_release_space fs w start len qgroup_free).assert_failed =
          w.assert_failed := by
  have hd := aligned_len_dvd hS start len
  have hfree : ∀ v : World,
      (btrfs_free_reserved_data_space fs v start len).assert_failed = v.assert_failed := by
    intro v
    rw [free_reserved_data_space_eq fs v start len hS]
  have hcheck := check_data_free_space_assert hS c w start len
  refine ⟨hd, ?_, fun _ _ => rfl, fun _ => rfl, hfree w, hcheck, ?_, ?_⟩
  · simp [IS_ALIGNED, Nat.mod_eq_zero_of_dvd hd]
  · simp only [btrfs_delalloc_reserve_space]
    split_ifs
    · exact hcheck
    · rw [hfree, reserve_metadata_assert, hcheck]
    · rw [reserve_metadata_assert, hcheck]
  · simp only [btrfs_delalloc_release_space]
    rw [hfree, (release_metadata_data fs w len qgroup_free).1]

/-- At sector size 4096, the range `(2^64 - 1, 2^64 - 1)`, where both the sum
and the round-up wrap, is given the aligned length 4096; the metadata-failure
rollback and the release pass it on without raising the assertion flag, while
a direct call with the unaligned length 5 raises it. -/
theorem free_noquota_always_aligned_witness :
    sector_pow2 scenario_fs
      ∧ aligned_len scenario_fs (2 ^ 64 - 1) (2 ^ 64 - 1) = 4096
      ∧ (btrfs_delalloc_reserve_space scenario_fs meta_enospc fresh_world (2 ^ 64 - 1)
          (2 ^ 64 - 1)).2.assert_failed = false
      ∧ (btrfs_delalloc_release_space scenario_fs fresh_world (2 ^ 64 - 1) (2 ^ 64 - 1)
          false).assert_failed = false
      ∧ (btrfs_free_reserved_data_space_noquota scenario_fs fresh_world 5).assert_failed
          = true := by
  have hS : sector_pow2 scenario_fs := ⟨12, by decide, rfl⟩
  have h1 := free_noquota_always_aligned scenario_fs meta_enospc fresh_world (2 ^ 64 - 1)
    (2 ^ 64 - 1) false hS
  refine ⟨hS, by decide, ?_, ?_, by decide⟩
  · rw [h1.2.2.2.2.2.2.1]; rfl
  · rw [h1.2.2.2.2.2.2.2]; rfl

/-! ## C19: the data and the metadata stage size a request differently -/

/-- Without wrap-around `ALIGN` is the least multiple of `a` that is at least
`x`. -/
theorem ALIGN_bounds {x a : Nat} (ha : 0 < a) (hfit : x + a ≤ U64_MOD) :
    x ≤ ALIGN x a ∧ ALIGN x a < x + a ∧ a ∣ ALIGN x a := by
  have h1 : (x + a - 1) / a * a ≤ x + a - 1 := Nat.div_mul_le_self _ _
  have h2 : x + a - 1 < (x + a - 1) / a * a + a := Nat.lt_div_mul_add ha
  have hA : ALIGN x a = (x + a - 1) / a * a := by
    unfold ALIGN
    exact Nat.mod_eq_of_lt (by omega)
  rw [hA]
  exact ⟨by omega, by omega, Dvd.intro_left _ rfl⟩

/-- Two multiples of `s` whose difference lies strictly between `-s` and
`2 * s` are equal or one `s` apart. -/
theorem multiples_close {s x y : Nat} (hx : s ∣ x) (hy : s ∣ y)
    (h1 : y < x + s) (h2 : x < y + 2 * s) : y ≤ x ∧ (x = y ∨ x = y + s) := by
  obtain ⟨d, rfl⟩ := hx
  obtain ⟨m, rfl⟩ := hy
  have hs : 0 < s := by
    rcases Nat.eq_zero_or_pos s with h0 | h0
    · subst h0; simp at h1
    · exact h0
  have e1 : s * m < s * (d + 1) := by rw [Nat.mul_succ]; exact h1
  have e2 : s * d < s * (m + 2) := by
    rw [Nat.mul_add, Nat.mul_comm s 2]; exact h2
  have f1 : m < d + 1 := Nat.lt_of_mul_lt_mul_left e1
  have f2 : d < m + 2 := Nat.lt_of_mul_lt_mul_left e2
  have hcase : d = m ∨ d = m + 1 := by omega
  rcases hcase with h | h
  · subst h
    exact ⟨Nat.le_refl _, Or.inl rfl⟩
  · subst h
    rw [Nat.mul_succ]
    exact ⟨Nat.le_add_right _ _, Or.inr rfl⟩

/-- The aligned length of a range is the aligned byte count or one sector
more. -/
theorem aligned_len_vs_ALIGN {fs : btrfs_fs_info} (hS : sector_pow2 fs) {start len : Nat}
    (hfit : start + len + fs.sectorsize ≤ U64_MOD) :
    ALIGN len fs.sectorsize ≤ aligned_len fs start len
      ∧ (aligned_len fs start len = ALIGN len fs.sectorsize
        ∨ aligned_len fs start len = ALIGN len fs.sectorsize + fs.sectorsize) := by
  have hpos := sector_pow2_pos hS
  have hb := aligned_len_bounds hpos hfit
  have hr1 := round_down_le start fs.sectorsize
  have hr2 := @lt_round_down_add start fs.sectorsize hpos
  have hA := @ALIGN_bounds len fs.sectorsize hpos (by omega)
  exact multiples_close (aligned_len_dvd hS start len) hA.2.2 (by omega) (by omega)

/-- The range `(S - 1, 2)` straddles a sector boundary. -/
theorem straddling_range {fs : btrfs_fs_info} (h2 : 2 ≤ fs.sectorsize)
    (hfit : 2 * fs.sectorsize < U64_MOD) :
    aligned_len fs (fs.sectorsize - 1) 2 = 2 * fs.sectorsize
      ∧ ALIGN 2 fs.sectorsize = fs.sectorsize := by
  have hpos : 0 < fs.sectorsize := by omega
  have hsum : add64 (fs.sectorsize - 1) 2 = fs.sectorsize + 1 := by
    unfold add64
    rw [Nat.mod_eq_of_lt (by omega)]
    omega
  have hup : round_up (fs.sectorsize + 1) fs.sectorsize = 2 * fs.sectorsize := by
    unfold round_up
    have e : fs.sectorsize + 1 + fs.sectorsize - 1 = 2 * fs.sectorsize := by omega
    rw [e, Nat.mul_div_cancel _ hpos, Nat.mod_eq_of_lt hfit]
  have hdown : round_down (fs.sectorsize - 1) fs.sectorsize = 0 := by
    unfold round_down
    rw [Nat.div_eq_of_lt (by omega), Nat.zero_mul]
  have hal : ALIGN 2 fs.sectorsize = fs.sectorsize := by
    unfold ALIGN
    have e : 2 + fs.sectorsize - 1 = 1 + fs.sectorsize * 1 := by omega
    rw [e, Nat.add_mul_div_left _ _ hpos, Nat.div_eq_of_lt (by omega), Nat.zero_add,
      Nat.one_mul, Nat.mod_eq_of_lt (by omega)]
  refine ⟨?_, hal⟩
  unfold aligned_len
  rw [hsum, hup, hdown]
  unfold sub64 U64_MOD at *
  omega

/-- A combined reservation that returns 0 is the metadata stage run on the
world the data stage left, both having succeeded. -/
theorem reserve_space_ok {fs : btrfs_fs_info} {c : Collaborators} {w : World}
    {start len : Nat} (h : (btrfs_delalloc_reserve_space fs c w start len).1 = 0) :
    ¬ (btrfs_check_data_free_space fs c w start len).1 < 0
      ∧ (btrfs_delalloc_reserve_metadata fs c
          (btrfs_check_data_free_space fs c w start len).2 len).1 = 0
      ∧ btrfs_delalloc_reserve_space fs c w start len =
        btrfs_delalloc_reserve_metadata fs c
          (btrfs_check_data_free_space fs c w start len).2 len := by
  revert h
  simp only [btrfs_delalloc_reserve_space]
  split_ifs with h1 h2
  · intro h; omega
  · intro h
    simp only at h
    omega
  · intro h; exact ⟨h1, h, rfl⟩

/-- C19, as stated for every power-of-two sector size, fails in its example
at the sector size `S = 1`: `start = S - 1 = 0` and `len = 2` give `D = 2 = 2
* S`, but `M = ALIGN(2, 1) = 2`, which is not `S`; `D - M` is 0 there. -/
theorem straddling_example_fails_for_byte_sectors :
    byte_sector_fs.sectorsize = 2 ^ 0
      ∧ (byte_sector_fs.sectorsize - 1) + 2 + byte_sector_fs.sectorsize ≤ U64_MOD
      ∧ aligned_len byte_sector_fs (byte_sector_fs.sectorsize - 1) 2
          = 2 * byte_sector_fs.sectorsize
      ∧ ALIGN 2 byte_sector_fs.sectorsize = 2
      ∧ ¬ (ALIGN 2 byte_sector_fs.sectorsize = byte_sector_fs.sectorsize) := by
  decide

/-- C19 (amended): the data and the metadata stage of
`btrfs_delalloc_reserve_space` size the same request differently. For a
power-of-two sector size `S` and `start + len <= 2^64 - S`, the data stage
reserves `D = round_up(start + len, S) - round_down(start, S)` bytes and the
metadata stage adds `M = ALIGN(len, S)` to `csum_bytes`; `D >= M` and `D - M`
is 0 or `S`; and `btrfs_delalloc_release_space` with the same `(start, len)`
takes `D` from the data pool and `M` from `csum_bytes`. For `S >= 2` (and `2
* S` within 64 bits), `start = S - 1` and `len = 2` give `D = 2 * S` and `M =
S`. -/
theorem data_and_metadata_sizes :
    (∀ (fs : btrfs_fs_info) (c : Collaborators) (w : World) (start len : Nat)
        (qgroup_free : Bool),
      sector_pow2 fs → start + len + fs.sectorsize ≤ U64_MOD →
      ALIGN len fs.sectorsize ≤ aligned_len fs start len
        ∧ (aligned_len fs start len - ALIGN len fs.sectorsize = 0
          ∨ aligned_len fs start len - ALIGN len fs.sectorsize = fs.sectorsize)
        ∧ (¬ (btrfs_check_data_free_space fs c w start len).1 < 0 →
            (btrfs_check_data_free_space fs c w start len).2.data_bytes_may_use =
              w.data_bytes_may_use + aligned_len fs start len)
        ∧ ((btrfs_delalloc_reserve_space fs c w start len).1 = 0 →
            (btrfs_delalloc_reserve_space fs c w start len).2.data_bytes_may_use =
                w.data_bytes_may_use + aligned_len fs start len
              ∧ (btrfs_delalloc_reserve_space fs c w start len).2.inode.csum_bytes =
                add64 w.inode.csum_bytes (ALIGN len fs.sectorsize))
        ∧ (btrfs_delalloc_release_space fs w start len qgroup_free).data_bytes_may_use =
            w.data_bytes_may_use - aligned_len fs start len
        ∧ (aligned_len fs start len ≤ w.data_bytes_may_use →
            (btrfs_delalloc_release_space fs w start len qgroup_free).data_bytes_may_use
              + aligned_len fs start len = w.data_bytes_may_use)
        ∧ (btrfs_delalloc_release_space fs w start len qgroup_free).inode.csum_bytes =
            sub64 w.inode.csum_bytes (ALIGN len fs.sectorsize)
        ∧ (ALIGN len fs.sectorsize ≤ w.inode.csum_bytes → w.inode.csum_bytes < U64_MOD →
            (btrfs_delalloc_release_space fs w start len qgroup_free).inode.csum_bytes =
              w.inode.csum_bytes - ALIGN len fs.sectorsize))
    ∧ (∀ fs : btrfs_fs_info,
      2 ≤ fs.sectorsize → 2 * fs.sectorsize < U64_MOD →
      aligned_len fs (fs.sectorsize - 1) 2 = 2 * fs.sectorsize
        ∧ ALIGN 2 fs.sectorsize = fs.sectorsize) := by
  constructor
  · intro fs c w start len q hS hfit
    have hcmp := aligned_len_vs_ALIGN hS hfit
    have hrel_data :
        (btrfs_delalloc_release_space fs w start len q).data_bytes_may_use =
          w.data_bytes_may_use - aligned_len fs start len := by
      simp only [btrfs_delalloc_release_space]
      rw [free_reserved_data_space_eq _ _ _ _ hS]
      show (btrfs_delalloc_release_metadata fs w len q).data_bytes_may_use - _ = _
      rw [(release_metadata_data fs w len q).2.1]
    have hrel_csum :
        (btrfs_delalloc_release_space fs w start len q).inode.csum_bytes =
          sub64 w.inode.csum_bytes (ALIGN len fs.sectorsize) := by
      simp only [btrfs_delalloc_release_space]
      rw [free_reserved_data_space_eq _ _ _ _ hS]
      exact (release_metadata_counters fs w len q).1
    refine ⟨hcmp.1, ?_, ?_, ?_, hrel_data, ?_, hrel_csum, ?_⟩
    · rcases hcmp.2 with h | h
      · left; omega
      · right; omega
    · intro hok
      rw [check_data_free_space_ok hS hok]
    · intro hok
      obtain ⟨hd, hm, heq⟩ := reserve_space_ok hok
      have hdw := check_data_free_space_ok hS hd
      have hp := reserve_metadata_ok_pools hm
      have hi := reserve_metadata_ok_inode hm
      rw [heq]
      constructor
      · rw [hp.2.2.2.1, hdw]
      · rw [hi, hdw]
    · intro hle
      rw [hrel_data]
      omega
    · intro hle hlt
      rw [hrel_csum]
      exact sub64_of_le hle hlt
  · intro fs h2 hfit
    exact straddling_range h2 hfit

/-- At sector size 4096 the range `(4095, 2)` reserves `D = 8192` data bytes
while `M = 4096` is added to `csum_bytes`; releasing the same range takes
8192 bytes from the data pool and 4096 from `csum_bytes`. -/
theorem data_and_metadata_sizes_witness :
    aligned_len scenario_fs 4095 2 = 2 * 4096
      ∧ ALIGN 2 scenario_fs.sectorsize = 4096
      ∧ (btrfs_delalloc_reserve_space scenario_fs always_ok fresh_world 4095 2).1 = 0
      ∧ (btrfs_delalloc_reserve_space scenario_fs always_ok fresh_world 4095
          2).2.data_bytes_may_use = 8192
      ∧ (btrfs_delalloc_reserve_space scenario_fs always_ok fresh_world 4095
          2).2.inode.csum_bytes = 4096
      ∧ (btrfs_delalloc_release_space scenario_fs
          (btrfs_delalloc_reserve_space scenario_fs always_ok fresh_world 4095 2).2 4095 2
          false).data_bytes_may_use = 0
      ∧ (btrfs_delalloc_release_space scenario_fs
          (btrfs_delalloc_reserve_space scenario_fs always_ok fresh_world 4095 2).2 4095 2
          false).inode.csum_bytes = 0 := by
  have hS : sector_pow2 scenario_fs := ⟨12, by decide, rfl⟩
  have hex := data_and_metadata_sizes.2 scenario_fs (by decide) (by decide)
  have h1 := data_and_metadata_sizes.1 scenario_fs always_ok fresh_world 4095 2 false hS
    (by decide)
  have h2 := data_and_metadata_sizes.1 scenario_fs always_ok
    (btrfs_delalloc_reserve_space scenario_fs always_ok fresh_world 4095 2).2 4095 2 false hS
    (by decide)
  have hr := h1.2.2.2.1 (by decide)
  refine ⟨hex.1, hex.2, by decide, ?_, ?_, ?_, ?_⟩
  · rw [hr.1]; decide
  · rw [hr.2]; decide
  · rw [h2.2.2.2.2.1]; decide
  · rw [h2.2.2.2.2.2.2.1]; decide

end DelallocSpace
